import Mathlib

/-!
# hadess-sensorfw-proxy: claim registry, change notifier and backend session

A shallow embedding of `src/iio-sensor-proxy.cpp` and of the backend session
`src/sensorfw-core/sensorfw_common.cpp`.

* The process-wide `SensorData` struct becomes an explicit state value that every
  function takes and returns.
* Everything the daemon does to the outside world (bus replies, emitted signals,
  name watches, calls into a sensor backend, calls to the sensor service) is
  recorded, in program order, as a list of `Effect`s returned next to the state.
* `GHashTable` is GLib, not this repository; it is modelled after its documented
  behaviour as an association list from bus names to unsigned integers.
* `int` bit masks are natural numbers with the bitwise operators of `Nat`;
  `gdouble` values are rationals; logging (`g_debug`, `log->log`) is not modelled.
-/

namespace SensorProxy

/-! ## Data model -/

/-- DriverType of iio-sensor-proxy.cpp, in declaration order:
the position is the index into `SensorData.clients`. -/
inductive DriverType where
  | DRIVER_TYPE_ACCEL
  | DRIVER_TYPE_LIGHT
  | DRIVER_TYPE_COMPASS
  | DRIVER_TYPE_PROXIMITY
  deriving DecidableEq, Repr, Fintype

open DriverType

/-- The loop `for (i = 0; i < NUM_SENSOR_TYPES; i++)` visits the classes in this order. -/
def all_driver_types : List DriverType :=
  [DRIVER_TYPE_ACCEL, DRIVER_TYPE_LIGHT, DRIVER_TYPE_COMPASS, DRIVER_TYPE_PROXIMITY]

/-- OrientationUp, in the order of the `orientations[]` table of orientation.cpp. -/
inductive OrientationUp where
  | ORIENTATION_UNDEFINED
  | ORIENTATION_NORMAL
  | ORIENTATION_BOTTOM_UP
  | ORIENTATION_LEFT_UP
  | ORIENTATION_RIGHT_UP
  deriving DecidableEq, Repr

open OrientationUp

/-- The lookup `orientations[o]` of orientation.cpp. -/
def orientation_to_string (o : OrientationUp) : String :=
  match o with
  | ORIENTATION_UNDEFINED => "undefined"
  | ORIENTATION_NORMAL => "normal"
  | ORIENTATION_BOTTOM_UP => "bottom-up"
  | ORIENTATION_LEFT_UP => "left-up"
  | ORIENTATION_RIGHT_UP => "right-up"

/-- Sensorfw::PluginType of sensorfw_common.h. -/
inductive PluginType where
  | LIGHT
  | PROXIMITY
  | ORIENTATION
  | COMPASS
  deriving DecidableEq, Repr

/-- The values placed in the `a{sv}` dictionary of a PropertiesChanged signal. -/
inductive Variant where
  | boolean (b : Bool)
  | string (s : String)
  | double (x : ℚ)
  deriving DecidableEq

/-- One observable action of the daemon. A function of the embedding returns the
list of the actions it performed, oldest first. -/
inductive Effect where
  /-- The call `data->X_sensor->enable_X_events ()` made by `enable_sensorfw_events`. -/
  | enable_events (sensor_type : DriverType)
  /-- The call `data->X_sensor->disable_X_events ()` made by `disable_sensorfw_events`. -/
  | disable_events (sensor_type : DriverType)
  /-- A member call through a `shared_ptr` that holds no object. -/
  | null_sensor (sensor_type : DriverType)
  /-- The read thread created by `Sensorfw::start`. -/
  | read_loop_spawn (plugin : PluginType)
  /-- The `read_loop.join ()` of `Sensorfw::stop`. -/
  | read_loop_join (plugin : PluginType)
  /-- A `g_dbus_connection_call_sync` to the sensor service carrying a session id. -/
  | service_call (object_path : String) (interface_name : String) (method : String)
      (sessionid : Int)
  /-- The call `g_bus_watch_name_on_connection` for the given bus name. -/
  | watch_name (sender : String)
  /-- The call `g_bus_unwatch_name` made by `free_client_watch`. -/
  | unwatch_name (watch_id : Nat)
  /-- The reply `g_dbus_method_invocation_return_value (invocation, NULL)`. -/
  | return_value
  /-- The reply `g_dbus_method_invocation_return_error`, with its formatted message. -/
  | return_error (message : String)
  /-- The call `g_dbus_connection_emit_signal` of a PropertiesChanged signal. -/
  | emit_signal (destination_bus_name : String) (object_path : String)
      (interface_name : String) (props : List (String × Variant))
  /-- The call `loadPlugin (plugin)` to the sensor manager. -/
  | load_plugin_call (plugin : String)
  /-- The `std::this_thread::sleep_for (std::chrono::seconds (1))` of `load_plugin`. -/
  | sleep_one_second
  /-- The call `requestSensor (plugin, pid)` to the sensor manager. -/
  | request_sensor_call (plugin : String) (pid : Int)
  /-- The call `releaseSensor (plugin, sessionid, pid)` to the sensor manager. -/
  | release_sensor_call (plugin : String) (sessionid : Int) (pid : Int)
  /-- The channel handshake `m_socket->initiateConnection (sessionid)`. -/
  | initiate_connection (sessionid : Int)
  /-- The call `m_socket->dropConnection ()`. -/
  | drop_connection
  deriving DecidableEq

/-! ## GHashTable (GLib) -/

/-- A GLib hash table with string keys (`g_str_hash`, `g_str_equal`) and values that
are unsigned integers stored with `GUINT_TO_POINTER`. The functions below never
create a second entry for a key that is already present. -/
abbrev GHashTable := List (String × Nat)

/-- Value stored under `key`, read back with `GPOINTER_TO_UINT`; a missing key gives
`NULL`, which reads as 0. -/
def g_hash_table_lookup (ht : GHashTable) (key : String) : Nat :=
  match ht with
  | [] => 0
  | (k, v) :: rest => if k = key then v else g_hash_table_lookup rest key

/-- Whether `key` has an entry (the stored value, present or not, may read as 0). -/
def g_hash_table_contains (ht : GHashTable) (key : String) : Bool :=
  ht.any (fun e => decide (e.1 = key))

/-- Insert `value` under `key`; an existing entry for the key gets the new value. -/
def g_hash_table_insert (ht : GHashTable) (key : String) (value : Nat) : GHashTable :=
  match ht with
  | [] => [(key, value)]
  | (k, v) :: rest =>
    if k = key then (k, value) :: rest else (k, v) :: g_hash_table_insert rest key value

/-- Remove the entry of `key`, when there is one. -/
def g_hash_table_remove (ht : GHashTable) (key : String) : GHashTable :=
  ht.filter (fun e => decide (e.1 ≠ key))

/-- Number of entries. -/
def g_hash_table_size (ht : GHashTable) : Nat :=
  ht.length

/-- The keys, in the order the iteration of the model visits them (GLib leaves the
order unspecified). -/
def g_hash_table_get_keys (ht : GHashTable) : List String :=
  ht.map Prod.fst

/-- The value destroy function of the client tables (`create_clients_hash_table`). -/
def free_client_watch (watch_id : Nat) : List Effect :=
  if watch_id = 0 then [] else [Effect.unwatch_name watch_id]

/-- The destroy notifications a client table (created with `g_hash_table_new_full
(..., g_free, free_client_watch)`) runs when the entry of `key` is removed or its
value replaced. -/
def clients_value_destroyed (ht : GHashTable) (key : String) : List Effect :=
  if g_hash_table_contains ht key then free_client_watch (g_hash_table_lookup ht key) else []

/-! ## Backend session (sensorfw_common.cpp) -/

/-- The members of `class Sensorfw` that the session protocol reads or writes. -/
structure Sensorfw where
  m_plugin : PluginType
  m_pid : Int
  m_sessionid : Int
  m_running : Bool
  deriving DecidableEq

/-- Sensorfw::plugin_string. -/
def Sensorfw.plugin_string (s : Sensorfw) : String :=
  match s.m_plugin with
  | PluginType.LIGHT => "alssensor"
  | PluginType.PROXIMITY => "proximitysensor"
  | PluginType.ORIENTATION => "orientationsensor"
  | PluginType.COMPASS => "compasssensor"

/-- Sensorfw::plugin_interface. -/
def Sensorfw.plugin_interface (s : Sensorfw) : String :=
  match s.m_plugin with
  | PluginType.LIGHT => "local.ALSSensor"
  | PluginType.PROXIMITY => "local.ProximitySensor"
  | PluginType.ORIENTATION => "local.OrientationSensor"
  | PluginType.COMPASS => "local.CompassSensor"

/-- Sensorfw::plugin_path: `dbus_sensorfw_path`, a slash, the plugin string. -/
def Sensorfw.plugin_path (s : Sensorfw) : String :=
  "/SensorManager" ++ "/" ++ s.plugin_string

/-- Sensorfw::start. Returns at once when already running; otherwise sets the running
flag, creates the read thread and calls `start` with the session id. The reply of
the call only selects a log line. -/
def Sensorfw.start (s : Sensorfw) : Sensorfw × List Effect :=
  if s.m_running then (s, [])
  else
    ({ s with m_running := true },
      [Effect.read_loop_spawn s.m_plugin,
       Effect.service_call s.plugin_path s.plugin_interface "start" s.m_sessionid])

/-- Sensorfw::stop. Returns at once when not running; otherwise clears the running
flag, calls `stop` with the session id and joins the read thread. The reply of the
call only selects a log line. -/
def Sensorfw.stop (s : Sensorfw) : Sensorfw × List Effect :=
  if !s.m_running then (s, [])
  else
    ({ s with m_running := false },
      [Effect.service_call s.plugin_path s.plugin_interface "stop" s.m_sessionid,
       Effect.read_loop_join s.m_plugin])

/-- SensorfwOrientationSensor::enable_orientation_events: `start ()` is enqueued on the
backend's event loop and the caller blocks on the returned future, so `start` has
run to completion when the call returns. -/
def Sensorfw.enable_orientation_events (s : Sensorfw) : Sensorfw × List Effect :=
  s.start

/-- SensorfwOrientationSensor::disable_orientation_events: `stop ()` run to completion
on the backend's event loop. -/
def Sensorfw.disable_orientation_events (s : Sensorfw) : Sensorfw × List Effect :=
  s.stop

/-- Modelled from the spec: `enable_light_events`, whose source file
(sensorfw_light_sensor.cpp) is not among the sources. Spec 4.3 and 4.4 give every
class the same Enable, executed on the session's task queue with the caller
blocked until it is done, as the orientation sensor does. -/
def Sensorfw.enable_light_events (s : Sensorfw) : Sensorfw × List Effect :=
  s.start

/-- Modelled from the spec: `disable_light_events` (sensorfw_light_sensor.cpp is not
among the sources); the Disable of spec 4.3, run to completion. -/
def Sensorfw.disable_light_events (s : Sensorfw) : Sensorfw × List Effect :=
  s.stop

/-- Modelled from the spec: `enable_compass_events` (sensorfw_compass_sensor.cpp is
not among the sources); the Enable of spec 4.3, run to completion. -/
def Sensorfw.enable_compass_events (s : Sensorfw) : Sensorfw × List Effect :=
  s.start

/-- Modelled from the spec: `disable_compass_events` (sensorfw_compass_sensor.cpp is
not among the sources); the Disable of spec 4.3, run to completion. -/
def Sensorfw.disable_compass_events (s : Sensorfw) : Sensorfw × List Effect :=
  s.stop

/-- Modelled from the spec: `enable_proximity_events` (sensorfw_proximity_sensor.cpp
is not among the sources); the Enable of spec 4.3, run to completion. -/
def Sensorfw.enable_proximity_events (s : Sensorfw) : Sensorfw × List Effect :=
  s.start

/-- Modelled from the spec: `disable_proximity_events` (sensorfw_proximity_sensor.cpp
is not among the sources); the Disable of spec 4.3, run to completion. -/
def Sensorfw.disable_proximity_events (s : Sensorfw) : Sensorfw × List Effect :=
  s.stop

/-! ## Daemon state (iio-sensor-proxy.cpp) -/

/-- The `SensorData` struct. `connection` tells whether the pointer is set; a
`shared_ptr` that holds no object is `none`. -/
structure SensorData where
  connection : Bool
  clients : DriverType → GHashTable
  previous_orientation : OrientationUp
  accel_avaliable : Bool
  orientation_sensor : Option Sensorfw
  previous_level : ℚ
  previous_level_accumulator : ℚ
  uses_lux : Bool
  light_avaliable : Bool
  light_sensor : Option Sensorfw
  previous_heading : ℚ
  compass_avaliable : Bool
  compass_sensor : Option Sensorfw
  previous_prox_near : Bool
  prox_avaliable : Bool
  proximity_sensor : Option Sensorfw

/-- The function driver_type_exists: the availability flag of the class. -/
def driver_type_exists (data : SensorData) (driver_type : DriverType) : Bool :=
  match driver_type with
  | DRIVER_TYPE_ACCEL => data.accel_avaliable
  | DRIVER_TYPE_LIGHT => data.light_avaliable
  | DRIVER_TYPE_COMPASS => data.compass_avaliable
  | DRIVER_TYPE_PROXIMITY => data.prox_avaliable

/-- The backend object of a class. -/
def SensorData.sensor (data : SensorData) (driver_type : DriverType) : Option Sensorfw :=
  match driver_type with
  | DRIVER_TYPE_ACCEL => data.orientation_sensor
  | DRIVER_TYPE_LIGHT => data.light_sensor
  | DRIVER_TYPE_COMPASS => data.compass_sensor
  | DRIVER_TYPE_PROXIMITY => data.proximity_sensor

/-- Whether the backend of a class exists and has its running flag set. -/
def SensorData.running (data : SensorData) (driver_type : DriverType) : Bool :=
  match data.sensor driver_type with
  | some s => s.m_running
  | none => false

/-- The function enable_sensorfw_events. -/
def enable_sensorfw_events (data : SensorData) (sensor_type : DriverType) :
    SensorData × List Effect :=
  match sensor_type with
  | DRIVER_TYPE_ACCEL =>
    if data.accel_avaliable then
      match data.orientation_sensor with
      | some s =>
        ({ data with orientation_sensor := some s.enable_orientation_events.1 },
          Effect.enable_events DRIVER_TYPE_ACCEL :: s.enable_orientation_events.2)
      | none => (data, [Effect.null_sensor DRIVER_TYPE_ACCEL])
    else (data, [])
  | DRIVER_TYPE_LIGHT =>
    if data.light_avaliable then
      match data.light_sensor with
      | some s =>
        ({ data with light_sensor := some s.enable_light_events.1 },
          Effect.enable_events DRIVER_TYPE_LIGHT :: s.enable_light_events.2)
      | none => (data, [Effect.null_sensor DRIVER_TYPE_LIGHT])
    else (data, [])
  | DRIVER_TYPE_COMPASS =>
    if data.compass_avaliable then
      match data.compass_sensor with
      | some s =>
        ({ data with compass_sensor := some s.enable_compass_events.1 },
          Effect.enable_events DRIVER_TYPE_COMPASS :: s.enable_compass_events.2)
      | none => (data, [Effect.null_sensor DRIVER_TYPE_COMPASS])
    else (data, [])
  | DRIVER_TYPE_PROXIMITY =>
    if data.prox_avaliable then
      match data.proximity_sensor with
      | some s =>
        ({ data with proximity_sensor := some s.enable_proximity_events.1 },
          Effect.enable_events DRIVER_TYPE_PROXIMITY :: s.enable_proximity_events.2)
      | none => (data, [Effect.null_sensor DRIVER_TYPE_PROXIMITY])
    else (data, [])

/-- The function disable_sensorfw_events. -/
def disable_sensorfw_events (data : SensorData) (sensor_type : DriverType) :
    SensorData × List Effect :=
  match sensor_type with
  | DRIVER_TYPE_ACCEL =>
    if data.accel_avaliable then
      match data.orientation_sensor with
      | some s =>
        ({ data with orientation_sensor := some s.disable_orientation_events.1 },
          Effect.disable_events DRIVER_TYPE_ACCEL :: s.disable_orientation_events.2)
      | none => (data, [Effect.null_sensor DRIVER_TYPE_ACCEL])
    else (data, [])
  | DRIVER_TYPE_LIGHT =>
    if data.light_avaliable then
      match data.light_sensor with
      | some s =>
        ({ data with light_sensor := some s.disable_light_events.1 },
          Effect.disable_events DRIVER_TYPE_LIGHT :: s.disable_light_events.2)
      | none => (data, [Effect.null_sensor DRIVER_TYPE_LIGHT])
    else (data, [])
  | DRIVER_TYPE_COMPASS =>
    if data.compass_avaliable then
      match data.compass_sensor with
      | some s =>
        ({ data with compass_sensor := some s.disable_compass_events.1 },
          Effect.disable_events DRIVER_TYPE_COMPASS :: s.disable_compass_events.2)
      | none => (data, [Effect.null_sensor DRIVER_TYPE_COMPASS])
    else (data, [])
  | DRIVER_TYPE_PROXIMITY =>
    if data.prox_avaliable then
      match data.proximity_sensor with
      | some s =>
        ({ data with proximity_sensor := some s.disable_proximity_events.1 },
          Effect.disable_events DRIVER_TYPE_PROXIMITY :: s.disable_proximity_events.2)
      | none => (data, [Effect.null_sensor DRIVER_TYPE_PROXIMITY])
    else (data, [])

/-- The assignment `data->clients[driver_type] = ht` seen as a new state: the table
of one class is replaced, the others are kept. -/
def SensorData.set_clients (data : SensorData) (driver_type : DriverType) (ht : GHashTable) :
    SensorData :=
  { data with clients := fun c => if c = driver_type then ht else data.clients c }

/-- The function client_release. -/
def client_release (data : SensorData) (sender : String) (driver_type : DriverType) :
    SensorData × List Effect :=
  let ht := data.clients driver_type
  let watch_id := g_hash_table_lookup ht sender
  if watch_id = 0 then (data, [])
  else
    let removed := g_hash_table_remove ht sender
    let data1 := data.set_clients driver_type removed
    let fx := clients_value_destroyed ht sender
    if g_hash_table_size removed = 0 then
      ((disable_sensorfw_events data1 driver_type).1,
        fx ++ (disable_sensorfw_events data1 driver_type).2)
    else (data1, fx)

/-- One iteration of the loop of `client_vanished_cb`. -/
def client_vanished_iteration (acc : SensorData × List Effect) (sender : String)
    (i : DriverType) : SensorData × List Effect :=
  if g_hash_table_lookup (acc.1.clients i) sender > 0 then
    ((client_release acc.1 sender i).1, acc.2 ++ (client_release acc.1 sender i).2)
  else acc

/-- The callback client_vanished_cb; `name` is `none` for a NULL name. -/
def client_vanished_cb (data : SensorData) (name : Option String) : SensorData × List Effect :=
  match name with
  | none => (data, [])
  | some sender =>
    all_driver_types.foldl (fun acc i => client_vanished_iteration acc sender i) (data, [])

/-- The GLib function g_str_has_prefix. -/
def g_str_has_prefix (str : String) (pre : String) : Bool :=
  pre.toList.isPrefixOf str.toList

/-- The function handle_generic_method_call. `watch_id` is the identifier that
`g_bus_watch_name_on_connection` returns if it is called; GLib documents it as
never 0. -/
def handle_generic_method_call (data : SensorData) (sender : String) (method_name : String)
    (driver_type : DriverType) (watch_id : Nat) : SensorData × List Effect :=
  let ht := data.clients driver_type
  if g_str_has_prefix method_name "Claim" then
    if g_hash_table_lookup ht sender > 0 then (data, [Effect.return_value])
    else
      let en :=
        if g_hash_table_size ht = 0 then enable_sensorfw_events data driver_type
        else (data, [])
      (en.1.set_clients driver_type (g_hash_table_insert ht sender watch_id),
        en.2 ++ [Effect.watch_name sender] ++ clients_value_destroyed ht sender
          ++ [Effect.return_value])
  else if g_str_has_prefix method_name "Release" then
    ((client_release data sender driver_type).1,
      (client_release data sender driver_type).2 ++ [Effect.return_value])
  else (data, [])

/-- SENSOR_PROXY_DBUS_PATH. -/
def SENSOR_PROXY_DBUS_PATH : String := "/net/hadess/SensorProxy"

/-- SENSOR_PROXY_COMPASS_DBUS_PATH. -/
def SENSOR_PROXY_COMPASS_DBUS_PATH : String := "/net/hadess/SensorProxy/Compass"

/-- SENSOR_PROXY_IFACE_NAME. -/
def SENSOR_PROXY_IFACE_NAME : String := "net.hadess.SensorProxy"

/-- SENSOR_PROXY_COMPASS_IFACE_NAME. -/
def SENSOR_PROXY_COMPASS_IFACE_NAME : String := "net.hadess.SensorProxy.Compass"

/-- The message of the unknown-method error, as formatted by
`g_dbus_method_invocation_return_error`. -/
def unknown_method_message (method_name object_path : String) : String :=
  "Method \x27" ++ method_name ++ "\x27 does not exist on object " ++ object_path

/-- The function handle_method_call (method handler of the core object). -/
def handle_method_call (data : SensorData) (sender object_path method_name : String)
    (watch_id : Nat) : SensorData × List Effect :=
  if method_name = "ClaimAccelerometer" ∨ method_name = "ReleaseAccelerometer" then
    handle_generic_method_call data sender method_name DRIVER_TYPE_ACCEL watch_id
  else if method_name = "ClaimLight" ∨ method_name = "ReleaseLight" then
    handle_generic_method_call data sender method_name DRIVER_TYPE_LIGHT watch_id
  else if method_name = "ClaimProximity" ∨ method_name = "ReleaseProximity" then
    handle_generic_method_call data sender method_name DRIVER_TYPE_PROXIMITY watch_id
  else (data, [Effect.return_error (unknown_method_message method_name object_path)])

/-- The function handle_compass_method_call (method handler of the compass object). -/
def handle_compass_method_call (data : SensorData) (sender object_path method_name : String)
    (watch_id : Nat) : SensorData × List Effect :=
  if method_name ≠ "ClaimCompass" ∧ method_name ≠ "ReleaseCompass" then
    (data, [Effect.return_error (unknown_method_message method_name object_path)])
  else handle_generic_method_call data sender method_name DRIVER_TYPE_COMPASS watch_id

/-- The function setup_sensors. Each argument is the outcome of one backend
constructor: `none` when it threw, the constructed object otherwise. -/
def setup_sensors (data : SensorData)
    (proximity light orientation compass : Option Sensorfw) : SensorData :=
  let data1 : SensorData :=
    match proximity with
    | some s => { data with proximity_sensor := some s, prox_avaliable := true }
    | none => { data with prox_avaliable := false }
  let data2 : SensorData :=
    match light with
    | some s => { data1 with light_sensor := some s, light_avaliable := true }
    | none => { data1 with light_avaliable := false }
  let data3 : SensorData :=
    match orientation with
    | some s => { data2 with orientation_sensor := some s, accel_avaliable := true }
    | none => { data2 with accel_avaliable := false }
  match compass with
  | some s => { data3 with compass_sensor := some s, compass_avaliable := true }
  | none => { data3 with compass_avaliable := false }

/-! ## Change notifier (iio-sensor-proxy.cpp) -/

/-- PROP_HAS_ACCELEROMETER. -/
def PROP_HAS_ACCELEROMETER : Nat := 1 <<< 0

/-- PROP_ACCELEROMETER_ORIENTATION. -/
def PROP_ACCELEROMETER_ORIENTATION : Nat := 1 <<< 1

/-- PROP_HAS_AMBIENT_LIGHT. -/
def PROP_HAS_AMBIENT_LIGHT : Nat := 1 <<< 2

/-- PROP_LIGHT_LEVEL. -/
def PROP_LIGHT_LEVEL : Nat := 1 <<< 3

/-- PROP_HAS_COMPASS. -/
def PROP_HAS_COMPASS : Nat := 1 <<< 4

/-- PROP_COMPASS_HEADING. -/
def PROP_COMPASS_HEADING : Nat := 1 <<< 5

/-- PROP_HAS_PROXIMITY. -/
def PROP_HAS_PROXIMITY : Nat := 1 <<< 6

/-- PROP_PROXIMITY_NEAR. -/
def PROP_PROXIMITY_NEAR : Nat := 1 <<< 7

/-- PROP_ALL: the attributes of the core interface. -/
def PROP_ALL : Nat :=
  PROP_HAS_ACCELEROMETER ||| PROP_ACCELEROMETER_ORIENTATION ||| PROP_HAS_AMBIENT_LIGHT
    ||| PROP_LIGHT_LEVEL ||| PROP_HAS_PROXIMITY ||| PROP_PROXIMITY_NEAR

/-- PROP_ALL_COMPASS: the attributes of the compass interface. -/
def PROP_ALL_COMPASS : Nat :=
  PROP_HAS_COMPASS ||| PROP_COMPASS_HEADING

/-- The function mask_for_sensor_type. -/
def mask_for_sensor_type (sensor_type : DriverType) : Nat :=
  match sensor_type with
  | DRIVER_TYPE_ACCEL => PROP_HAS_ACCELEROMETER ||| PROP_ACCELEROMETER_ORIENTATION
  | DRIVER_TYPE_LIGHT => PROP_HAS_AMBIENT_LIGHT ||| PROP_LIGHT_LEVEL
  | DRIVER_TYPE_COMPASS => PROP_HAS_COMPASS ||| PROP_COMPASS_HEADING
  | DRIVER_TYPE_PROXIMITY => PROP_HAS_PROXIMITY ||| PROP_PROXIMITY_NEAR

/-- The C test `if (mask & bit)`. -/
def mask_has (mask bit : Nat) : Bool :=
  mask &&& bit != 0

/-- The local state of `send_dbus_event_for_client` while it runs: the daemon state,
the local `mask` (which the function extends) and the entries added to
`props_builder` so far. -/
structure PropsBuilder where
  data : SensorData
  mask : Nat
  props : List (String × Variant)

/-- The block `if (mask & PROP_HAS_ACCELEROMETER)` of send_dbus_event_for_client. -/
def add_has_accelerometer (b : PropsBuilder) : PropsBuilder :=
  if mask_has b.mask PROP_HAS_ACCELEROMETER then
    let has_accel := driver_type_exists b.data DRIVER_TYPE_ACCEL
    let props := b.props ++ [("HasAccelerometer", Variant.boolean has_accel)]
    if has_accel then
      { b with props := props, mask := b.mask ||| PROP_ACCELEROMETER_ORIENTATION }
    else
      { b with props := props,
               data := { b.data with previous_orientation := ORIENTATION_UNDEFINED } }
  else b

/-- The block `if (mask & PROP_ACCELEROMETER_ORIENTATION)`. -/
def add_accelerometer_orientation (b : PropsBuilder) : PropsBuilder :=
  if mask_has b.mask PROP_ACCELEROMETER_ORIENTATION then
    { b with props := b.props ++ [("AccelerometerOrientation",
        Variant.string (orientation_to_string b.data.previous_orientation))] }
  else b

/-- The block `if (mask & PROP_HAS_AMBIENT_LIGHT)`. -/
def add_has_ambient_light (b : PropsBuilder) : PropsBuilder :=
  if mask_has b.mask PROP_HAS_AMBIENT_LIGHT then
    let has_als := driver_type_exists b.data DRIVER_TYPE_LIGHT
    let props := b.props ++ [("HasAmbientLight", Variant.boolean has_als)]
    if has_als then { b with props := props, mask := b.mask ||| PROP_LIGHT_LEVEL }
    else { b with props := props }
  else b

/-- The block `if (mask & PROP_LIGHT_LEVEL)`. -/
def add_light_level (b : PropsBuilder) : PropsBuilder :=
  if mask_has b.mask PROP_LIGHT_LEVEL then
    { b with props := b.props ++
        [("LightLevelUnit", Variant.string (if b.data.uses_lux then "lux" else "vendor")),
         ("LightLevel", Variant.double b.data.previous_level),
         ("LightLevelAccumulator", Variant.double b.data.previous_level_accumulator)] }
  else b

/-- The block `if (mask & PROP_HAS_COMPASS)`. -/
def add_has_compass (b : PropsBuilder) : PropsBuilder :=
  if mask_has b.mask PROP_HAS_COMPASS then
    let has_compass := driver_type_exists b.data DRIVER_TYPE_COMPASS
    let props := b.props ++ [("HasCompass", Variant.boolean has_compass)]
    if has_compass then { b with props := props, mask := b.mask ||| PROP_COMPASS_HEADING }
    else { b with props := props }
  else b

/-- The block `if (mask & PROP_COMPASS_HEADING)`. -/
def add_compass_heading (b : PropsBuilder) : PropsBuilder :=
  if mask_has b.mask PROP_COMPASS_HEADING then
    { b with props := b.props ++
        [("CompassHeading", Variant.double b.data.previous_heading)] }
  else b

/-- The block `if (mask & PROP_HAS_PROXIMITY)`. -/
def add_has_proximity (b : PropsBuilder) : PropsBuilder :=
  if mask_has b.mask PROP_HAS_PROXIMITY then
    let has_proximity := driver_type_exists b.data DRIVER_TYPE_PROXIMITY
    let props := b.props ++ [("HasProximity", Variant.boolean has_proximity)]
    if has_proximity then { b with props := props, mask := b.mask ||| PROP_PROXIMITY_NEAR }
    else { b with props := props }
  else b

/-- The block `if (mask & PROP_PROXIMITY_NEAR)`. -/
def add_proximity_near (b : PropsBuilder) : PropsBuilder :=
  if mask_has b.mask PROP_PROXIMITY_NEAR then
    { b with props := b.props ++
        [("ProximityNear", Variant.boolean b.data.previous_prox_near)] }
  else b

/-- The eight blocks of send_dbus_event_for_client, in source order, started on an
empty builder. -/
def build_props (data : SensorData) (mask : Nat) : PropsBuilder :=
  add_proximity_near (add_has_proximity (add_compass_heading (add_has_compass
    (add_light_level (add_has_ambient_light (add_accelerometer_orientation
      (add_has_accelerometer { data := data, mask := mask, props := [] })))))))

/-- The function send_dbus_event_for_client: the builder is filled, then one
PropertiesChanged signal is emitted to the destination; interface name and object
path are chosen by `mask & PROP_ALL` on the extended mask. -/
def send_dbus_event_for_client (data : SensorData) (destination_bus_name : String)
    (mask : Nat) : SensorData × List Effect :=
  let b := build_props data mask
  (b.data,
    [Effect.emit_signal destination_bus_name
      (if mask_has b.mask PROP_ALL then SENSOR_PROXY_DBUS_PATH
        else SENSOR_PROXY_COMPASS_DBUS_PATH)
      (if mask_has b.mask PROP_ALL then SENSOR_PROXY_IFACE_NAME
        else SENSOR_PROXY_COMPASS_IFACE_NAME)
      b.props])

/-- The body of the inner loop of send_dbus_event for one key of `data->clients[i]`:
the mask already stored for the client is extended by the bits of class `i` that
are in the published mask. -/
def client_mask_update (mask : Nat) (i : DriverType) (ht : GHashTable) (key : String) :
    GHashTable :=
  let m := g_hash_table_lookup ht key
  let new_mask := mask &&& mask_for_sensor_type i
  g_hash_table_insert ht key (m ||| new_mask)

/-- The first loop of send_dbus_event: the table from client to mask. -/
def collect_client_masks (data : SensorData) (mask : Nat) : GHashTable :=
  all_driver_types.foldl
    (fun ht i => (g_hash_table_get_keys (data.clients i)).foldl (client_mask_update mask i) ht)
    []

/-- The second loop of send_dbus_event: `send_dbus_event_for_client` is called once
for each entry of the table, with the key and the stored mask. -/
def send_to_clients (data : SensorData) (ht : GHashTable) : SensorData × List Effect :=
  ht.foldl
    (fun acc kv =>
      ((send_dbus_event_for_client acc.1 kv.1 kv.2).1,
        acc.2 ++ (send_dbus_event_for_client acc.1 kv.1 kv.2).2))
    (data, [])

/-- The function send_dbus_event. The result is `none` when one of the two
assertions at its head fails (the process aborts). -/
def send_dbus_event (data : SensorData) (mask : Nat) : Option (SensorData × List Effect) :=
  if mask = 0 then none
  else if ¬ (mask &&& PROP_ALL = 0 ∨ mask &&& PROP_ALL_COMPASS = 0) then none
  else if data.connection = false then some (data, [])
  else some (send_to_clients data (collect_client_masks data mask))

/-- The function handle_get_property (core object); `none` is the NULL result. -/
def handle_get_property (data : SensorData) (property_name : String) : Option Variant :=
  if data.connection = false then none
  else if property_name = "HasAccelerometer" then
    some (Variant.boolean (driver_type_exists data DRIVER_TYPE_ACCEL))
  else if property_name = "AccelerometerOrientation" then
    some (Variant.string (orientation_to_string data.previous_orientation))
  else if property_name = "HasAmbientLight" then
    some (Variant.boolean (driver_type_exists data DRIVER_TYPE_LIGHT))
  else if property_name = "LightLevelUnit" then
    some (Variant.string (if data.uses_lux then "lux" else "vendor"))
  else if property_name = "LightLevel" then
    some (Variant.double data.previous_level)
  else if property_name = "LightLevelAccumulator" then
    some (Variant.double data.previous_level_accumulator)
  else if property_name = "HasProximity" then
    some (Variant.boolean (driver_type_exists data DRIVER_TYPE_PROXIMITY))
  else if property_name = "ProximityNear" then
    some (Variant.boolean data.previous_prox_near)
  else none

/-- The function handle_compass_get_property (compass object). -/
def handle_compass_get_property (data : SensorData) (property_name : String) :
    Option Variant :=
  if data.connection = false then none
  else if property_name = "HasCompass" then
    some (Variant.boolean (driver_type_exists data DRIVER_TYPE_COMPASS))
  else if property_name = "CompassHeading" then
    some (Variant.double data.previous_heading)
  else none

/-- What the spec words give for the mask of one client (4.2 Publish): the bits
owned by the classes that client has claimed, that is, the union of
`mask_for_sensor_type c` over the classes whose registry holds the client. -/
def claimed_bits (data : SensorData) (client : String) : Nat :=
  (all_driver_types.filter (fun c => g_hash_table_contains (data.clients c) client)).foldl
    (fun acc c => acc ||| mask_for_sensor_type c) 0

/-- An event the bus delivers to the daemon once its two objects are registered. -/
inductive BusEvent where
  /-- A method call on `object_path`; `watch_id` is what `g_bus_watch_name_on_connection`
  returns if the handler calls it. -/
  | method_call (sender object_path method_name : String) (watch_id : Nat)
  /-- The name-vanished callback of a watch (`client_vanished_cb`). -/
  | name_vanished (name : Option String)

/-- GLib never returns 0 as a watch identifier. -/
def BusEvent.valid (ev : BusEvent) : Bool :=
  match ev with
  | BusEvent.method_call _ _ _ watch_id => watch_id != 0
  | BusEvent.name_vanished _ => true

/-- Delivery of one event: a method call goes to the handler of the vtable that
`bus_acquired_handler` registered for its object path. -/
def dispatch (data : SensorData) (ev : BusEvent) : SensorData × List Effect :=
  match ev with
  | BusEvent.method_call sender object_path method_name watch_id =>
    if object_path = SENSOR_PROXY_DBUS_PATH then
      handle_method_call data sender object_path method_name watch_id
    else if object_path = SENSOR_PROXY_COMPASS_DBUS_PATH then
      handle_compass_method_call data sender object_path method_name watch_id
    else (data, [])
  | BusEvent.name_vanished name => client_vanished_cb data name

/-- Delivery of a sequence of events, one after the other; the traces are appended. -/
def run (data : SensorData) (events : List BusEvent) : SensorData × List Effect :=
  events.foldl (fun acc ev => ((dispatch acc.1 ev).1, acc.2 ++ (dispatch acc.1 ev).2)) (data, [])

/-- The state the claims start from: the four registries are empty (as
`name_acquired_handler` creates them), no backend is running, and a class marked
available has its backend object (main clears the flag of a class whose object is
missing). -/
def SensorData.initial (data : SensorData) : Prop :=
  (∀ c, data.clients c = []) ∧ (∀ c, data.running c = false)
    ∧ (∀ c, driver_type_exists data c = true → (data.sensor c).isSome = true)

/-- A backend object as its constructor leaves it: `m_running` has its default
member initialiser `false`. -/
def Sensorfw.constructed (plugin : PluginType) (pid sessionid : Int) : Sensorfw :=
  { m_plugin := plugin, m_pid := pid, m_sessionid := sessionid, m_running := false }

/-- The struct after `g_new0` and the two assignments at the head of main, once
the bus connection is stored and the four registries are created. -/
def startup_data : SensorData :=
  { connection := true
    clients := fun _ => []
    previous_orientation := ORIENTATION_UNDEFINED
    accel_avaliable := false
    orientation_sensor := none
    previous_level := 0
    previous_level_accumulator := 0
    uses_lux := true
    light_avaliable := false
    light_sensor := none
    previous_heading := 0
    compass_avaliable := false
    compass_sensor := none
    previous_prox_near := false
    prox_avaliable := false
    proximity_sensor := none }

/-- A concrete daemon state: every backend was constructed (pid 100, sessions 1 to 4). -/
def sample_data : SensorData :=
  setup_sensors startup_data
    (some (Sensorfw.constructed PluginType.PROXIMITY 100 1))
    (some (Sensorfw.constructed PluginType.LIGHT 100 2))
    (some (Sensorfw.constructed PluginType.ORIENTATION 100 3))
    (some (Sensorfw.constructed PluginType.COMPASS 100 4))

/-- A concrete daemon state: the proximity backend failed to construct, the other
three were constructed. -/
def sample_data_no_proximity : SensorData :=
  setup_sensors startup_data none
    (some (Sensorfw.constructed PluginType.LIGHT 100 2))
    (some (Sensorfw.constructed PluginType.ORIENTATION 100 3))
    (some (Sensorfw.constructed PluginType.COMPASS 100 4))

/-- The daemon with all backends constructed after client :1.7 claimed Proximity
(watch identifier 1) and nothing else. -/
def proximity_only_data : SensorData :=
  (handle_generic_method_call sample_data ":1.7" "ClaimProximity" DRIVER_TYPE_PROXIMITY 1).1

/-! ## Backend construction (sensorfw_common.cpp) -/

/-- The constant max_attempts of Sensorfw::load_plugin. -/
def max_attempts : Nat := 5

/-- The loop `while (attempt < max_attempts)` of Sensorfw::load_plugin. The first
numeric argument is the number of iterations still allowed, `max_attempts - attempt`;
the second is `attempt`. `outcome attempt` is the result of the loadPlugin call made
when the counter has that value: `none` for a failed call (NULL result), `some b` for
the boolean it returned. The result is the return value and the trace. -/
def load_plugin_loop (plugin : String) (outcome : Nat → Option Bool) :
    Nat → Nat → Bool × List Effect
  | 0, _ => (false, [])
  | remaining + 1, attempt =>
    match outcome attempt with
    | some true => (true, [Effect.load_plugin_call plugin])
    | _ =>
      ((load_plugin_loop plugin outcome remaining (attempt + 1)).1,
        Effect.load_plugin_call plugin :: Effect.sleep_one_second
          :: (load_plugin_loop plugin outcome remaining (attempt + 1)).2)

/-- Sensorfw::load_plugin: the loop started with `attempt = 0`. -/
def Sensorfw.load_plugin (s : Sensorfw) (outcome : Nat → Option Bool) : Bool × List Effect :=
  load_plugin_loop s.plugin_string outcome max_attempts 0

/-- Sensorfw::request_sensor; `reply` is `none` when the call failed, otherwise the
integer it returned. On failure `m_sessionid` is not assigned. -/
def Sensorfw.request_sensor (s : Sensorfw) (reply : Option Int) : Sensorfw × List Effect :=
  match reply with
  | none => (s, [Effect.request_sensor_call s.plugin_string s.m_pid])
  | some the_result =>
    ({ s with m_sessionid := the_result }, [Effect.request_sensor_call s.plugin_string s.m_pid])

/-- The constructor Sensorfw::Sensorfw. The member `m_sessionid` has no initialiser
in sensorfw_common.h and is not in the constructor's initialiser list, so it starts
with whatever the memory of the object holds: `indeterminate`. The result is `none`
when the constructor throws. -/
def Sensorfw.create (plugin : PluginType) (pid : Int) (indeterminate : Int)
    (load_outcome : Nat → Option Bool) (request_reply : Option Int) :
    Option Sensorfw × List Effect :=
  let s : Sensorfw :=
    { m_plugin := plugin, m_pid := pid, m_sessionid := indeterminate, m_running := false }
  if !(s.load_plugin load_outcome).1 then (none, (s.load_plugin load_outcome).2)
  else
    (some (s.request_sensor request_reply).1,
      (s.load_plugin load_outcome).2 ++ (s.request_sensor request_reply).2
        ++ [Effect.initiate_connection (s.request_sensor request_reply).1.m_sessionid])

/-- Sensorfw::start with the reply of the `start` call and the log line it selects
made explicit; `call_succeeded` is false when the call returned NULL. -/
def Sensorfw.start_logged (s : Sensorfw) (call_succeeded : Bool) :
    Sensorfw × List Effect × List String :=
  if s.m_running then (s, [], [])
  else
    ({ s with m_running := true },
      [Effect.read_loop_spawn s.m_plugin,
       Effect.service_call s.plugin_path s.plugin_interface "start" s.m_sessionid],
      if call_succeeded then [] else ["failed to start SensorfwSensor"])

/-- Sensorfw::stop with the reply of the `stop` call and the log line it selects made
explicit; `call_succeeded` is false when the call returned NULL. -/
def Sensorfw.stop_logged (s : Sensorfw) (call_succeeded : Bool) :
    Sensorfw × List Effect × List String :=
  if !s.m_running then (s, [], [])
  else
    ({ s with m_running := false },
      [Effect.service_call s.plugin_path s.plugin_interface "stop" s.m_sessionid,
       Effect.read_loop_join s.m_plugin],
      if call_succeeded then [] else ["failed to stop SensorfwSensor"])

/-! ## Sample handlers (lambdas of main) and telemetry dispatch -/

/-- Modelled from the spec: `sensorfw_proxy::ProximityState`, whose header is not
among the sources; spec 3 and 4.6 give the proximity sample a near/far value. -/
inductive ProximityState where
  | near
  | far
  deriving DecidableEq, Repr

/-- Modelled from the spec: `sensorfw_proxy::OrientationData`, whose header is not
among the sources; spec 4.6 gives six raw physical orientations, named as in the
switch of the orientation handler. `Undefined` stands for every other value. -/
inductive OrientationData where
  | Undefined
  | LeftUp
  | RightUp
  | BottomUp
  | BottomDown
  | FaceDown
  | FaceUp
  deriving DecidableEq, Repr

/-- What a sample handler did: the state it leaves, the masks it passed to
`send_dbus_event` (one per call, in order) and the trace. -/
structure HandlerResult where
  data : SensorData
  published : List Nat
  trace : List Effect

/-- One call `send_dbus_event (data, mask)` made by a handler. -/
def publish (data : SensorData) (mask : Nat) : Option HandlerResult :=
  (send_dbus_event data mask).map
    (fun r => { data := r.1, published := [mask], trace := r.2 })

/-- The proximity handler registered in main. -/
def proximity_handler (data : SensorData) (state : ProximityState) : Option HandlerResult :=
  publish { data with previous_prox_near := decide (state = ProximityState.near) }
    PROP_PROXIMITY_NEAR

/-- The constant `static double alpha = 0.5f` of the light handler. -/
def alpha : ℚ := 1 / 2

/-- The light handler registered in main. `light_accumulator` is the function-local
static of that name; the result carries its new value. -/
def light_handler (data : SensorData) (light_accumulator : ℚ) (light : ℚ) :
    Option (HandlerResult × ℚ) :=
  if data.previous_level ≠ light then
    (publish
      { data with
          previous_level_accumulator := (1 - alpha) * light_accumulator + alpha * light
          previous_level := light }
      PROP_LIGHT_LEVEL).map
      (fun r => (r, (1 - alpha) * light_accumulator + alpha * light))
  else some ({ data := data, published := [], trace := [] }, light_accumulator)

/-- The switch of the orientation handler: the orientation it compares with the
stored one. -/
def orientation_of_sample (previous : OrientationUp) (value : OrientationData) :
    OrientationUp :=
  match value with
  | OrientationData.LeftUp => ORIENTATION_LEFT_UP
  | OrientationData.RightUp => ORIENTATION_RIGHT_UP
  | OrientationData.BottomUp => ORIENTATION_BOTTOM_UP
  | OrientationData.BottomDown => ORIENTATION_NORMAL
  | OrientationData.FaceDown => previous
  | OrientationData.FaceUp => previous
  | OrientationData.Undefined => ORIENTATION_UNDEFINED

/-- The orientation handler registered in main. -/
def orientation_handler (data : SensorData) (value : OrientationData) :
    Option HandlerResult :=
  let orientation := orientation_of_sample data.previous_orientation value
  if data.previous_orientation ≠ orientation then
    publish { data with previous_orientation := orientation } PROP_ACCELEROMETER_ORIENTATION
  else some { data := data, published := [], trace := [] }

/-- The compass handler registered in main; the heading arrives as an `int`. -/
def compass_handler (data : SensorData) (heading : Int) : Option HandlerResult :=
  if data.previous_heading ≠ (heading : ℚ) then
    publish { data with previous_heading := (heading : ℚ) } PROP_COMPASS_HEADING
  else some { data := data, published := [], trace := [] }

/-- The light handler fed a sequence of samples, one after the other; the result is
the final state and the final value of the static accumulator. -/
def light_handler_run (data : SensorData) (light_accumulator : ℚ) :
    List ℚ → Option (SensorData × ℚ)
  | [] => some (data, light_accumulator)
  | light :: rest =>
    match light_handler data light_accumulator light with
    | none => none
    | some r => light_handler_run r.1.data r.2 rest

/-- The orientation handler fed a sequence of samples. The result lists, for each
sample for which the handler called `send_dbus_event`, the orientation stored when
it returned (the state the notification carries), in order. -/
def orientation_notifications (data : SensorData) :
    List OrientationData → Option (List OrientationUp)
  | [] => some []
  | value :: rest =>
    match orientation_handler data value with
    | none => none
    | some r =>
      (orientation_notifications r.data rest).map
        (fun l => if r.published = [] then l else r.data.previous_orientation :: l)

/-- The function SensorfwOrientationSensor::data_recived_impl, as the list of values the
registered handler is invoked with. `read` is the outcome of `m_socket->read`: `none`
when it reports failure, otherwise the orientation of the first record. The local
`output` has no initialiser: it starts as `indeterminate`. -/
def data_recived_impl (read : Option OrientationData) (indeterminate : OrientationData) :
    List OrientationData :=
  let output :=
    match read with
    | some value => value
    | none => indeterminate
  [output]

/-- The read thread's call of `data_recived_impl` with the handler of main
registered: the handler runs on each value it is invoked with. -/
def orientation_data_received (data : SensorData) (read : Option OrientationData)
    (indeterminate : OrientationData) : Option HandlerResult :=
  (data_recived_impl read indeterminate).foldl
    (fun acc value =>
      match acc with
      | none => none
      | some r =>
        (orientation_handler r.data value).map
          (fun r2 =>
            { data := r2.data, published := r.published ++ r2.published,
              trace := r.trace ++ r2.trace }))
    (some { data := data, published := [], trace := [] })

/-- The daemon with all backends constructed after client :1.7 claimed the
accelerometer and the light sensor and client :1.9 claimed the light sensor (watch
identifiers 1, 2 and 3). -/
def two_clients_data : SensorData :=
  (handle_generic_method_call
    (handle_generic_method_call
      (handle_generic_method_call sample_data ":1.7" "ClaimAccelerometer" DRIVER_TYPE_ACCEL 1).1
      ":1.7" "ClaimLight" DRIVER_TYPE_LIGHT 2).1
    ":1.9" "ClaimLight" DRIVER_TYPE_LIGHT 3).1

/-- The daemon with all backends constructed after client :1.7 claimed the
accelerometer (watch identifier 1) and nothing else. -/
def accel_only_data : SensorData :=
  (handle_generic_method_call sample_data ":1.7" "ClaimAccelerometer" DRIVER_TYPE_ACCEL 1).1

/-- The daemon with all backends constructed after client :1.7 claimed the light
sensor (watch identifier 1) and nothing else. -/
def light_only_data : SensorData :=
  (handle_generic_method_call sample_data ":1.7" "ClaimLight" DRIVER_TYPE_LIGHT 1).1

/-! ## Backend destruction (sensorfw_common.cpp) -/

/-- Sensorfw::release_sensor; `reply` is `none` when the call failed, otherwise the
boolean it returned. The result is the return value and the trace. -/
def Sensorfw.release_sensor (s : Sensorfw) (reply : Option Bool) : Bool × List Effect :=
  (match reply with
    | none => false
    | some the_result => the_result,
    [Effect.release_sensor_call s.plugin_string s.m_sessionid s.m_pid])

/-- The destructor Sensorfw::~Sensorfw: `stop ()`, then `release_sensor ()` (its return
value is not used), then `m_socket->dropConnection ()`. `stop_succeeded` and
`release_reply` are the replies of the two calls to the sensor service. The result
is the object as the destructor leaves it and the trace. -/
def Sensorfw.destroy (s : Sensorfw) (stop_succeeded : Bool) (release_reply : Option Bool) :
    Sensorfw × List Effect :=
  ((s.stop_logged stop_succeeded).1,
    (s.stop_logged stop_succeeded).2.1
      ++ ((s.stop_logged stop_succeeded).1.release_sensor release_reply).2
      ++ [Effect.drop_connection])

/-! ## Startup notifications (iio-sensor-proxy.cpp) -/

/-- The function send_sensor_availability: up to four calls of `send_dbus_event`, in
source order; `none` when an assertion of one of them fails. -/
def send_sensor_availability (data : SensorData) : Option (SensorData × List Effect) :=
  (if data.prox_avaliable then send_dbus_event data PROP_HAS_PROXIMITY
    else some (data, [])).bind fun r1 =>
  (if r1.1.light_avaliable then send_dbus_event r1.1 PROP_HAS_AMBIENT_LIGHT
    else some (r1.1, [])).bind fun r2 =>
  (if r2.1.accel_avaliable then send_dbus_event r2.1 PROP_HAS_ACCELEROMETER
    else some (r2.1, [])).bind fun r3 =>
  (if r3.1.compass_avaliable then send_dbus_event r3.1 PROP_HAS_COMPASS
    else some (r3.1, [])).bind fun r4 =>
  some (r4.1, r1.2 ++ r2.2 ++ r3.2 ++ r4.2)

/-- The function name_acquired_handler: the four registries are created empty, then
`send_sensor_availability` and `send_dbus_event (data, PROP_ALL)`. -/
def name_acquired_handler (data : SensorData) : Option (SensorData × List Effect) :=
  (send_sensor_availability { data with clients := fun _ => [] }).bind fun r1 =>
  (send_dbus_event r1.1 PROP_ALL).bind fun r2 =>
  some (r2.1, r1.2 ++ r2.2)

/-- The masks the daemon passes to `send_dbus_event`: those of
`send_sensor_availability`, the one of `name_acquired_handler` and those of the four
sample handlers. -/
def daemon_masks : List Nat :=
  [PROP_HAS_PROXIMITY, PROP_HAS_AMBIENT_LIGHT, PROP_HAS_ACCELEROMETER, PROP_HAS_COMPASS,
    PROP_ALL, PROP_PROXIMITY_NEAR, PROP_LIGHT_LEVEL, PROP_ACCELEROMETER_ORIENTATION,
    PROP_COMPASS_HEADING]

/-! ## Observations used to state the properties -/

/-- Whether an effect is a call into a sensor backend made by `enable_sensorfw_events`
or `disable_sensorfw_events`. -/
def Effect.is_backend_call (e : Effect) : Bool :=
  match e with
  | Effect.enable_events _ => true
  | Effect.disable_events _ => true
  | _ => false

/-- The backend enable and disable calls of a trace, in order. -/
def backend_calls (fx : List Effect) : List Effect :=
  fx.filter Effect.is_backend_call

/-- Every stored watch identifier of the class is one GLib can have returned (not 0). -/
def watches_valid (data : SensorData) (driver_type : DriverType) : Prop :=
  ∀ e ∈ data.clients driver_type, e.2 ≠ 0

/-- The invariant of one class: the stored watch identifiers are valid and, when the
class is available, its backend object exists and runs exactly when the registry
of the class is not empty. -/
def class_invariant (data : SensorData) (c : DriverType) : Prop :=
  watches_valid data c
    ∧ (driver_type_exists data c = true →
        ∃ s, data.sensor c = some s ∧ (s.m_running = true ↔ data.clients c ≠ []))

/-- Whether an effect is a reply to a method invocation. -/
def Effect.is_reply (e : Effect) : Bool :=
  match e with
  | Effect.return_value => true
  | Effect.return_error _ => true
  | _ => false

/-- The replies of a trace, in order. -/
def replies (fx : List Effect) : List Effect :=
  fx.filter Effect.is_reply

/-- What the spec words give for a vanished peer (4.1 OnPeerVanished, 7 (d)):
Release applied for that identity to each of the four classes, in index order. -/
def release_every_class (data : SensorData) (sender : String) : SensorData × List Effect :=
  all_driver_types.foldl
    (fun acc i => ((client_release acc.1 sender i).1, acc.2 ++ (client_release acc.1 sender i).2))
    (data, [])

/-- An effect is a backend enable or disable call on a class whose availability
flag is set in `data`. -/
def call_on_available (data : SensorData) (e : Effect) : Prop :=
  ∃ c, (e = Effect.enable_events c ∨ e = Effect.disable_events c)
    ∧ driver_type_exists data c = true

/-- The entries the two accelerometer blocks add to the payload, as a function of
the mask and state at their entry. -/
def accel_entries (data : SensorData) (mask : Nat) : List (String × Variant) :=
  (if mask_has mask PROP_HAS_ACCELEROMETER then
      [("HasAccelerometer", Variant.boolean (driver_type_exists data DRIVER_TYPE_ACCEL))]
    else [])
  ++ (if (mask_has mask PROP_HAS_ACCELEROMETER && driver_type_exists data DRIVER_TYPE_ACCEL)
        || mask_has mask PROP_ACCELEROMETER_ORIENTATION then
      [("AccelerometerOrientation", Variant.string (orientation_to_string
        (if mask_has mask PROP_HAS_ACCELEROMETER && !driver_type_exists data DRIVER_TYPE_ACCEL
          then ORIENTATION_UNDEFINED else data.previous_orientation)))]
    else [])

/-- The entries the two ambient light blocks add to the payload. -/
def light_entries (data : SensorData) (mask : Nat) : List (String × Variant) :=
  (if mask_has mask PROP_HAS_AMBIENT_LIGHT then
      [("HasAmbientLight", Variant.boolean (driver_type_exists data DRIVER_TYPE_LIGHT))]
    else [])
  ++ (if (mask_has mask PROP_HAS_AMBIENT_LIGHT && driver_type_exists data DRIVER_TYPE_LIGHT)
        || mask_has mask PROP_LIGHT_LEVEL then
      [("LightLevelUnit", Variant.string (if data.uses_lux then "lux" else "vendor")),
       ("LightLevel", Variant.double data.previous_level),
       ("LightLevelAccumulator", Variant.double data.previous_level_accumulator)]
    else [])

/-- The entries the two compass blocks add to the payload. -/
def compass_entries (data : SensorData) (mask : Nat) : List (String × Variant) :=
  (if mask_has mask PROP_HAS_COMPASS then
      [("HasCompass", Variant.boolean (driver_type_exists data DRIVER_TYPE_COMPASS))]
    else [])
  ++ (if (mask_has mask PROP_HAS_COMPASS && driver_type_exists data DRIVER_TYPE_COMPASS)
        || mask_has mask PROP_COMPASS_HEADING then
      [("CompassHeading", Variant.double data.previous_heading)]
    else [])

/-- The entries the two proximity blocks add to the payload. -/
def proximity_entries (data : SensorData) (mask : Nat) : List (String × Variant) :=
  (if mask_has mask PROP_HAS_PROXIMITY then
      [("HasProximity", Variant.boolean (driver_type_exists data DRIVER_TYPE_PROXIMITY))]
    else [])
  ++ (if (mask_has mask PROP_HAS_PROXIMITY && driver_type_exists data DRIVER_TYPE_PROXIMITY)
        || mask_has mask PROP_PROXIMITY_NEAR then
      [("ProximityNear", Variant.boolean data.previous_prox_near)]
    else [])

/-- The stored sensor values and the connection flag of a state: the fields that are
neither registries, nor availability flags, nor backend objects. -/
def SensorData.stored_values (data : SensorData) :
    Bool × OrientationUp × ℚ × ℚ × Bool × ℚ × Bool :=
  (data.connection, data.previous_orientation, data.previous_level,
    data.previous_level_accumulator, data.uses_lux, data.previous_heading,
    data.previous_prox_near)

/-- The registry of class `c` after `handle_generic_method_call` on class `c`, as a
function of that registry before the call. -/
def registry_after (ht : GHashTable) (sender method_name : String) (watch_id : Nat) :
    GHashTable :=
  if g_str_has_prefix method_name "Claim" then
    if g_hash_table_lookup ht sender = 0 then g_hash_table_insert ht sender watch_id else ht
  else if g_str_has_prefix method_name "Release" then
    if g_hash_table_lookup ht sender = 0 then ht else g_hash_table_remove ht sender
  else ht

/-- The backend object of class `c` after `handle_generic_method_call` on class `c`,
as a function of the registry, the backend object and the availability flag of
that class before the call. -/
def sensor_after (ht : GHashTable) (sensor : Option Sensorfw) (available : Bool)
    (sender method_name : String) : Option Sensorfw :=
  if g_str_has_prefix method_name "Claim" then
    if g_hash_table_lookup ht sender = 0 ∧ g_hash_table_size ht = 0 ∧ available = true
    then sensor.map (fun s => s.start.1) else sensor
  else if g_str_has_prefix method_name "Release" then
    if g_hash_table_lookup ht sender ≠ 0
        ∧ g_hash_table_size (g_hash_table_remove ht sender) = 0 ∧ available = true
    then sensor.map (fun s => s.stop.1) else sensor
  else sensor

/-- The signal `send_dbus_event_for_client` emits when it is called in state `data`
for one entry `(client, mask)` of the table of client masks: addressed to the
client, path and interface chosen by `mask & PROP_ALL`, payload built by the eight
blocks. -/
def client_signal (data : SensorData) (entry : String × Nat) : Effect :=
  Effect.emit_signal entry.1
    (if mask_has entry.2 PROP_ALL then SENSOR_PROXY_DBUS_PATH
      else SENSOR_PROXY_COMPASS_DBUS_PATH)
    (if mask_has entry.2 PROP_ALL then SENSOR_PROXY_IFACE_NAME
      else SENSOR_PROXY_COMPASS_IFACE_NAME)
    (build_props data entry.2).props

/-- The state after the assignment `data->previous_orientation = ORIENTATION_UNDEFINED`
of the HasAccelerometer block. -/
def orientation_reset (data : SensorData) : SensorData :=
  { data with previous_orientation := ORIENTATION_UNDEFINED }

/-- The signals of a trace that are addressed to `client`, in order. -/
def signals_to (client : String) (trace : List Effect) : List Effect :=
  trace.filter fun e =>
    match e with
    | Effect.emit_signal destination_bus_name _ _ _ => decide (destination_bus_name = client)
    | _ => false

/-- The orientation handler fed a sequence of samples, one after the other: the
final state and the whole trace. -/
def orientation_handler_run (data : SensorData) :
    List OrientationData → Option (SensorData × List Effect)
  | [] => some (data, [])
  | value :: rest =>
    match orientation_handler data value with
    | none => none
    | some r => (orientation_handler_run r.data rest).map (fun q => (q.1, r.trace ++ q.2))

/-! ## Lemmas on the hash table model -/

theorem lookup_pos_contains (ht : GHashTable) (key : String)
    (h : g_hash_table_lookup ht key ≠ 0) : g_hash_table_contains ht key = true := by
  induction ht with
  | nil => simp [g_hash_table_lookup] at h
  | cons e rest ih =>
    obtain ⟨k, v⟩ := e
    by_cases hk : k = key
    · simp [g_hash_table_contains, hk]
    · simp only [g_hash_table_lookup, hk, if_false] at h
      have := ih h
      simp only [g_hash_table_contains] at this ⊢
      simp [this]

theorem contains_lookup_pos (ht : GHashTable) (key : String)
    (hv : ∀ e ∈ ht, e.2 ≠ 0) (h : g_hash_table_contains ht key = true) :
    g_hash_table_lookup ht key ≠ 0 := by
  induction ht with
  | nil => simp [g_hash_table_contains] at h
  | cons e rest ih =>
    obtain ⟨k, v⟩ := e
    by_cases hk : k = key
    · simp only [g_hash_table_lookup, hk, if_true]
      exact hv (key, v) (by simp [hk])
    · simp only [g_hash_table_lookup, hk, if_false]
      apply ih (fun e he => hv e (List.mem_cons_of_mem _ he))
      simpa [g_hash_table_contains, hk] using h

theorem contains_iff_mem_keys (ht : GHashTable) (key : String) :
    g_hash_table_contains ht key = true ↔ key ∈ g_hash_table_get_keys ht := by
  simp [g_hash_table_contains, g_hash_table_get_keys]

theorem lookup_remove_self (ht : GHashTable) (key : String) :
    g_hash_table_lookup (g_hash_table_remove ht key) key = 0 := by
  induction ht with
  | nil => rfl
  | cons e rest ih =>
    obtain ⟨k, v⟩ := e
    by_cases hk : k = key
    · simpa [g_hash_table_remove, hk] using ih
    · simpa [g_hash_table_remove, hk, g_hash_table_lookup] using ih

theorem lookup_remove_other (ht : GHashTable) (key other : String) (h : other ≠ key) :
    g_hash_table_lookup (g_hash_table_remove ht key) other = g_hash_table_lookup ht other := by
  induction ht with
  | nil => rfl
  | cons e rest ih =>
    obtain ⟨k, v⟩ := e
    by_cases hk : k = key
    · have hko : ¬ k = other := fun hh => h (hh ▸ hk)
      simpa [g_hash_table_remove, hk, g_hash_table_lookup, hko, Ne.symm h] using ih
    · by_cases hko : k = other
      · subst hko
        simp [g_hash_table_remove, hk, g_hash_table_lookup]
      · simpa [g_hash_table_remove, hk, g_hash_table_lookup, hko] using ih

theorem remove_absent (ht : GHashTable) (key : String)
    (h : g_hash_table_contains ht key = false) : g_hash_table_remove ht key = ht := by
  induction ht with
  | nil => rfl
  | cons e rest ih =>
    obtain ⟨k, v⟩ := e
    simp only [g_hash_table_contains, List.any_cons, Bool.or_eq_false_iff,
      decide_eq_false_iff_not] at h
    have := ih (by simpa [g_hash_table_contains] using h.2)
    simp only [g_hash_table_remove] at this ⊢
    rw [List.filter_cons_of_pos (by simpa using h.1), this]

theorem lookup_insert_self (ht : GHashTable) (key : String) (value : Nat) :
    g_hash_table_lookup (g_hash_table_insert ht key value) key = value := by
  induction ht with
  | nil => simp [g_hash_table_insert, g_hash_table_lookup]
  | cons e rest ih =>
    obtain ⟨k, v⟩ := e
    by_cases hk : k = key
    · simp [g_hash_table_insert, g_hash_table_lookup, hk]
    · simpa [g_hash_table_insert, g_hash_table_lookup, hk] using ih

theorem lookup_insert_other (ht : GHashTable) (key other : String) (value : Nat)
    (h : other ≠ key) :
    g_hash_table_lookup (g_hash_table_insert ht key value) other
      = g_hash_table_lookup ht other := by
  induction ht with
  | nil => simp [g_hash_table_insert, g_hash_table_lookup, Ne.symm h]
  | cons e rest ih =>
    obtain ⟨k, v⟩ := e
    by_cases hk : k = key
    · have hko : ¬ k = other := fun hh => h (hh ▸ hk)
      simp [g_hash_table_insert, g_hash_table_lookup, hk, Ne.symm h]
    · by_cases hko : k = other
      · subst hko
        simp [g_hash_table_insert, g_hash_table_lookup, hk]
      · simpa [g_hash_table_insert, g_hash_table_lookup, hk, hko] using ih

theorem keys_insert (ht : GHashTable) (key : String) (value : Nat) :
    g_hash_table_get_keys (g_hash_table_insert ht key value)
      = if g_hash_table_contains ht key then g_hash_table_get_keys ht
        else g_hash_table_get_keys ht ++ [key] := by
  induction ht with
  | nil => simp [g_hash_table_insert, g_hash_table_get_keys, g_hash_table_contains]
  | cons e rest ih =>
    obtain ⟨k, v⟩ := e
    by_cases hk : k = key
    · simp [g_hash_table_insert, g_hash_table_get_keys, g_hash_table_contains, hk]
    · simp only [g_hash_table_get_keys, g_hash_table_contains] at ih
      simp only [g_hash_table_insert, hk, if_false, g_hash_table_get_keys, List.map_cons,
        g_hash_table_contains, List.any_cons, decide_False, Bool.false_or, ih]
      split <;> simp

theorem insert_valid (ht : GHashTable) (key : String) (value : Nat) (hv : ∀ e ∈ ht, e.2 ≠ 0)
    (hw : value ≠ 0) : ∀ e ∈ g_hash_table_insert ht key value, e.2 ≠ 0 := by
  induction ht with
  | nil => simpa [g_hash_table_insert] using hw
  | cons e rest ih =>
    obtain ⟨k, v⟩ := e
    have hrest := ih (fun e he => hv e (List.mem_cons_of_mem _ he))
    have hhead : v ≠ 0 := hv (k, v) (by simp)
    by_cases hk : k = key
    · intro e he
      simp only [g_hash_table_insert, hk, if_true, List.mem_cons] at he
      rcases he with rfl | he
      · exact hw
      · exact hv e (List.mem_cons_of_mem _ he)
    · intro e he
      simp only [g_hash_table_insert, hk, if_false, List.mem_cons] at he
      rcases he with rfl | he
      · exact hhead
      · exact hrest e he

theorem remove_valid (ht : GHashTable) (key : String) (hv : ∀ e ∈ ht, e.2 ≠ 0) :
    ∀ e ∈ g_hash_table_remove ht key, e.2 ≠ 0 := by
  intro e he
  exact hv e (List.mem_of_mem_filter he)

/-! ## Lemmas on enabling and disabling a backend -/

theorem backend_calls_append (fx fy : List Effect) :
    backend_calls (fx ++ fy) = backend_calls fx ++ backend_calls fy := by
  simp [backend_calls]

theorem backend_calls_enable (c : DriverType) (fx : List Effect) :
    backend_calls (Effect.enable_events c :: fx) = Effect.enable_events c :: backend_calls fx := by
  simp [backend_calls, Effect.is_backend_call]

theorem backend_calls_disable (c : DriverType) (fx : List Effect) :
    backend_calls (Effect.disable_events c :: fx)
      = Effect.disable_events c :: backend_calls fx := by
  simp [backend_calls, Effect.is_backend_call]

theorem backend_calls_watch (sender : String) :
    backend_calls [Effect.watch_name sender] = [] := by
  simp [backend_calls, Effect.is_backend_call]

theorem backend_calls_reply : backend_calls [Effect.return_value] = [] := by
  simp [backend_calls, Effect.is_backend_call]

theorem backend_calls_nil : backend_calls [] = [] := rfl

theorem backend_calls_start (s : Sensorfw) : backend_calls s.start.2 = [] := by
  unfold Sensorfw.start
  split <;> simp [backend_calls, Effect.is_backend_call]

theorem backend_calls_stop (s : Sensorfw) : backend_calls s.stop.2 = [] := by
  unfold Sensorfw.stop
  split <;> simp [backend_calls, Effect.is_backend_call]

theorem backend_calls_destroyed (ht : GHashTable) (key : String) :
    backend_calls (clients_value_destroyed ht key) = [] := by
  unfold clients_value_destroyed free_client_watch
  split <;> [split; skip] <;> simp [backend_calls, Effect.is_backend_call]

theorem start_running (s : Sensorfw) : s.start.1.m_running = true := by
  unfold Sensorfw.start
  split <;> simp_all

theorem stop_running (s : Sensorfw) : s.stop.1.m_running = false := by
  unfold Sensorfw.stop
  split <;> simp_all

theorem enable_unavailable (data : SensorData) (c : DriverType)
    (h : driver_type_exists data c = false) : enable_sensorfw_events data c = (data, []) := by
  cases c <;> simp_all [driver_type_exists, enable_sensorfw_events]

theorem disable_unavailable (data : SensorData) (c : DriverType)
    (h : driver_type_exists data c = false) : disable_sensorfw_events data c = (data, []) := by
  cases c <;> simp_all [driver_type_exists, disable_sensorfw_events]

theorem enable_clients (data : SensorData) (c : DriverType) :
    (enable_sensorfw_events data c).1.clients = data.clients := by
  cases c <;> simp only [enable_sensorfw_events] <;> split <;> (try split) <;> rfl

theorem disable_clients (data : SensorData) (c : DriverType) :
    (disable_sensorfw_events data c).1.clients = data.clients := by
  cases c <;> simp only [disable_sensorfw_events] <;> split <;> (try split) <;> rfl

theorem enable_exists (data : SensorData) (c c2 : DriverType) :
    driver_type_exists (enable_sensorfw_events data c).1 c2 = driver_type_exists data c2 := by
  cases c <;> simp only [enable_sensorfw_events] <;> split <;> (try split) <;>
    cases c2 <;> rfl

theorem disable_exists (data : SensorData) (c c2 : DriverType) :
    driver_type_exists (disable_sensorfw_events data c).1 c2 = driver_type_exists data c2 := by
  cases c <;> simp only [disable_sensorfw_events] <;> split <;> (try split) <;>
    cases c2 <;> rfl

theorem enable_sensor_other (data : SensorData) (c c2 : DriverType) (h : c2 ≠ c) :
    (enable_sensorfw_events data c).1.sensor c2 = data.sensor c2 := by
  cases c <;> simp only [enable_sensorfw_events] <;> split <;> (try split) <;>
    cases c2 <;> first | rfl | exact absurd rfl h

theorem disable_sensor_other (data : SensorData) (c c2 : DriverType) (h : c2 ≠ c) :
    (disable_sensorfw_events data c).1.sensor c2 = data.sensor c2 := by
  cases c <;> simp only [disable_sensorfw_events] <;> split <;> (try split) <;>
    cases c2 <;> first | rfl | exact absurd rfl h

theorem enable_available (data : SensorData) (c : DriverType) (s : Sensorfw)
    (h : driver_type_exists data c = true) (hs : data.sensor c = some s) :
    (enable_sensorfw_events data c).1.sensor c = some s.start.1
      ∧ (enable_sensorfw_events data c).2 = Effect.enable_events c :: s.start.2 := by
  cases c <;>
    simp_all [driver_type_exists, enable_sensorfw_events, SensorData.sensor,
      Sensorfw.enable_orientation_events, Sensorfw.enable_light_events,
      Sensorfw.enable_compass_events, Sensorfw.enable_proximity_events]

theorem disable_available (data : SensorData) (c : DriverType) (s : Sensorfw)
    (h : driver_type_exists data c = true) (hs : data.sensor c = some s) :
    (disable_sensorfw_events data c).1.sensor c = some s.stop.1
      ∧ (disable_sensorfw_events data c).2 = Effect.disable_events c :: s.stop.2 := by
  cases c <;>
    simp_all [driver_type_exists, disable_sensorfw_events, SensorData.sensor,
      Sensorfw.disable_orientation_events, Sensorfw.disable_light_events,
      Sensorfw.disable_compass_events, Sensorfw.disable_proximity_events]

theorem set_clients_same (data : SensorData) (c : DriverType) (ht : GHashTable) :
    (data.set_clients c ht).clients c = ht := by
  simp [SensorData.set_clients]

theorem set_clients_other (data : SensorData) (c c2 : DriverType) (ht : GHashTable)
    (h : c2 ≠ c) : (data.set_clients c ht).clients c2 = data.clients c2 := by
  simp [SensorData.set_clients, h]

theorem set_clients_sensor (data : SensorData) (c c2 : DriverType) (ht : GHashTable) :
    (data.set_clients c ht).sensor c2 = data.sensor c2 := by
  cases c2 <;> rfl

theorem set_clients_exists (data : SensorData) (c c2 : DriverType) (ht : GHashTable) :
    driver_type_exists (data.set_clients c ht) c2 = driver_type_exists data c2 := by
  cases c2 <;> rfl

/-! ## Lemmas on Claim and Release -/

theorem claim_held (data : SensorData) (sender method_name : String) (c : DriverType)
    (watch_id : Nat) (hclaim : g_str_has_prefix method_name "Claim" = true)
    (hheld : g_hash_table_lookup (data.clients c) sender ≠ 0) :
    handle_generic_method_call data sender method_name c watch_id
      = (data, [Effect.return_value]) := by
  simp [handle_generic_method_call, hclaim, Nat.pos_of_ne_zero hheld]

theorem claim_new (data : SensorData) (sender method_name : String) (c : DriverType)
    (watch_id : Nat) (hclaim : g_str_has_prefix method_name "Claim" = true)
    (hnew : g_hash_table_lookup (data.clients c) sender = 0) :
    handle_generic_method_call data sender method_name c watch_id
      = (((if g_hash_table_size (data.clients c) = 0 then enable_sensorfw_events data c
            else (data, [])).1.set_clients c
            (g_hash_table_insert (data.clients c) sender watch_id)),
          (if g_hash_table_size (data.clients c) = 0 then enable_sensorfw_events data c
            else (data, [])).2 ++ [Effect.watch_name sender]
            ++ clients_value_destroyed (data.clients c) sender ++ [Effect.return_value]) := by
  simp [handle_generic_method_call, hclaim, hnew]

theorem release_call (data : SensorData) (sender method_name : String) (c : DriverType)
    (watch_id : Nat) (hclaim : g_str_has_prefix method_name "Claim" = false)
    (hrelease : g_str_has_prefix method_name "Release" = true) :
    handle_generic_method_call data sender method_name c watch_id
      = ((client_release data sender c).1,
          (client_release data sender c).2 ++ [Effect.return_value]) := by
  simp [handle_generic_method_call, hclaim, hrelease]

theorem release_absent (data : SensorData) (sender : String) (c : DriverType)
    (h : g_hash_table_lookup (data.clients c) sender = 0) :
    client_release data sender c = (data, []) := by
  simp [client_release, h]

theorem release_present (data : SensorData) (sender : String) (c : DriverType)
    (h : g_hash_table_lookup (data.clients c) sender ≠ 0) :
    client_release data sender c
      = if g_hash_table_size (g_hash_table_remove (data.clients c) sender) = 0 then
          ((disable_sensorfw_events
              (data.set_clients c (g_hash_table_remove (data.clients c) sender)) c).1,
            clients_value_destroyed (data.clients c) sender
              ++ (disable_sensorfw_events
                (data.set_clients c (g_hash_table_remove (data.clients c) sender)) c).2)
        else
          (data.set_clients c (g_hash_table_remove (data.clients c) sender),
            clients_value_destroyed (data.clients c) sender) := by
  simp [client_release, h]

theorem release_clients_same (data : SensorData) (sender : String) (c : DriverType) :
    (client_release data sender c).1.clients c
      = if g_hash_table_lookup (data.clients c) sender = 0 then data.clients c
        else g_hash_table_remove (data.clients c) sender := by
  by_cases h : g_hash_table_lookup (data.clients c) sender = 0
  · simp [release_absent, h]
  · rw [release_present data sender c h]
    split <;> simp [h, disable_clients, set_clients_same]

theorem release_clients_other (data : SensorData) (sender : String) (c c2 : DriverType)
    (hne : c2 ≠ c) : (client_release data sender c).1.clients c2 = data.clients c2 := by
  by_cases h : g_hash_table_lookup (data.clients c) sender = 0
  · simp [release_absent, h]
  · rw [release_present data sender c h]
    split <;> simp [disable_clients, set_clients_other, hne]

theorem release_exists (data : SensorData) (sender : String) (c c2 : DriverType) :
    driver_type_exists (client_release data sender c).1 c2 = driver_type_exists data c2 := by
  by_cases h : g_hash_table_lookup (data.clients c) sender = 0
  · simp [release_absent, h]
  · rw [release_present data sender c h]
    split <;> simp [disable_exists, set_clients_exists]

theorem release_sensor_other (data : SensorData) (sender : String) (c c2 : DriverType)
    (hne : c2 ≠ c) : (client_release data sender c).1.sensor c2 = data.sensor c2 := by
  by_cases h : g_hash_table_lookup (data.clients c) sender = 0
  · simp [release_absent, h]
  · rw [release_present data sender c h]
    split <;> simp [disable_sensor_other, set_clients_sensor, hne]

theorem claim_clients_other (data : SensorData) (sender method_name : String)
    (c c2 : DriverType) (watch_id : Nat)
    (hclaim : g_str_has_prefix method_name "Claim" = true) (hne : c2 ≠ c) :
    (handle_generic_method_call data sender method_name c watch_id).1.clients c2
      = data.clients c2 := by
  by_cases h : g_hash_table_lookup (data.clients c) sender = 0
  · rw [claim_new data sender method_name c watch_id hclaim h]
    split <;> simp [set_clients_other, hne, enable_clients]
  · rw [claim_held data sender method_name c watch_id hclaim h]

theorem claim_exists (data : SensorData) (sender method_name : String)
    (c c2 : DriverType) (watch_id : Nat)
    (hclaim : g_str_has_prefix method_name "Claim" = true) :
    driver_type_exists (handle_generic_method_call data sender method_name c watch_id).1 c2
      = driver_type_exists data c2 := by
  by_cases h : g_hash_table_lookup (data.clients c) sender = 0
  · rw [claim_new data sender method_name c watch_id hclaim h]
    split <;> simp [set_clients_exists, enable_exists]
  · rw [claim_held data sender method_name c watch_id hclaim h]

theorem claim_sensor_other (data : SensorData) (sender method_name : String)
    (c c2 : DriverType) (watch_id : Nat)
    (hclaim : g_str_has_prefix method_name "Claim" = true) (hne : c2 ≠ c) :
    (handle_generic_method_call data sender method_name c watch_id).1.sensor c2
      = data.sensor c2 := by
  by_cases h : g_hash_table_lookup (data.clients c) sender = 0
  · rw [claim_new data sender method_name c watch_id hclaim h]
    split <;> simp [set_clients_sensor, enable_sensor_other, hne]
  · rw [claim_held data sender method_name c watch_id hclaim h]

theorem claim_new_view (data : SensorData) (sender method_name : String) (c : DriverType)
    (watch_id : Nat) (s : Sensorfw) (hclaim : g_str_has_prefix method_name "Claim" = true)
    (hnew : g_hash_table_lookup (data.clients c) sender = 0)
    (havail : driver_type_exists data c = true) (hs : data.sensor c = some s) :
    (handle_generic_method_call data sender method_name c watch_id).1.clients c
        = g_hash_table_insert (data.clients c) sender watch_id
      ∧ (handle_generic_method_call data sender method_name c watch_id).1.sensor c
        = some (if g_hash_table_size (data.clients c) = 0 then s.start.1 else s)
      ∧ backend_calls (handle_generic_method_call data sender method_name c watch_id).2
        = if g_hash_table_size (data.clients c) = 0 then [Effect.enable_events c] else [] := by
  rw [claim_new data sender method_name c watch_id hclaim hnew]
  obtain ⟨h1, h2⟩ := enable_available data c s havail hs
  refine ⟨set_clients_same _ _ _, ?_, ?_⟩
  · rw [set_clients_sensor]
    split <;> simp [h1, hs]
  · simp only [backend_calls_append, backend_calls_destroyed]
    split
    · simp [h2, backend_calls_enable, backend_calls_start, backend_calls_watch,
        backend_calls_reply]
    · simp [backend_calls_nil, backend_calls_watch, backend_calls_reply]

theorem release_present_view (data : SensorData) (sender : String) (c : DriverType)
    (s : Sensorfw) (h : g_hash_table_lookup (data.clients c) sender ≠ 0)
    (havail : driver_type_exists data c = true) (hs : data.sensor c = some s) :
    (client_release data sender c).1.clients c = g_hash_table_remove (data.clients c) sender
      ∧ (client_release data sender c).1.sensor c
        = some (if g_hash_table_size (g_hash_table_remove (data.clients c) sender) = 0
            then s.stop.1 else s)
      ∧ backend_calls (client_release data sender c).2
        = if g_hash_table_size (g_hash_table_remove (data.clients c) sender) = 0
            then [Effect.disable_events c] else [] := by
  refine ⟨by simp [release_clients_same, h], ?_⟩
  rw [release_present data sender c h]
  obtain ⟨h1, h2⟩ := disable_available
    (data.set_clients c (g_hash_table_remove (data.clients c) sender)) c s
    (by rw [set_clients_exists]; exact havail) (by rw [set_clients_sensor]; exact hs)
  split
  · refine ⟨h1, ?_⟩
    simp [backend_calls_append, backend_calls_destroyed, h2, backend_calls_disable,
      backend_calls_stop]
  · exact ⟨by rw [set_clients_sensor]; exact hs, backend_calls_destroyed _ _⟩

/-! ## C1 -/

/-- C1. For a class whose backend is available (flag set, backend object present):
a Claim call makes exactly one backend enable call if the registry of the class was
empty before the call and none otherwise, and never a disable call; a Release makes
exactly one backend disable call if the caller had an entry and the registry is
empty afterwards, and none otherwise. In the sequence A claims, B claims,
A releases, B releases, started on an empty registry, the only backend calls are
one enable at the claim of A and one disable at the release of B, and the backend
is running after each of the first three steps and stopped after the fourth. -/
theorem claim_release_reference_count (data : SensorData) (c : DriverType)
    (sender method_name : String) (watch_id : Nat)
    (havail : driver_type_exists data c = true)
    (hsensor : (data.sensor c).isSome = true)
    (hvalid : watches_valid data c)
    (hclaim : g_str_has_prefix method_name "Claim" = true) :
    backend_calls (handle_generic_method_call data sender method_name c watch_id).2
        = (if g_hash_table_size (data.clients c) = 0 then [Effect.enable_events c] else [])
      ∧ backend_calls (client_release data sender c).2
        = (if g_hash_table_contains (data.clients c) sender = true
              ∧ g_hash_table_size ((client_release data sender c).1.clients c) = 0
            then [Effect.disable_events c] else [])
      ∧ ∀ (a b release_name : String) (wa wb w3 w4 : Nat),
          data.clients c = [] → a ≠ b → wa ≠ 0 → wb ≠ 0 →
          g_str_has_prefix release_name "Claim" = false →
          g_str_has_prefix release_name "Release" = true →
          backend_calls (handle_generic_method_call data a method_name c wa).2
              = [Effect.enable_events c]
            ∧ (handle_generic_method_call data a method_name c wa).1.running c = true
            ∧ backend_calls (handle_generic_method_call
                (handle_generic_method_call data a method_name c wa).1
                b method_name c wb).2 = []
            ∧ (handle_generic_method_call
                (handle_generic_method_call data a method_name c wa).1
                b method_name c wb).1.running c = true
            ∧ backend_calls (handle_generic_method_call
                (handle_generic_method_call
                  (handle_generic_method_call data a method_name c wa).1
                  b method_name c wb).1 a release_name c w3).2 = []
            ∧ (handle_generic_method_call
                (handle_generic_method_call
                  (handle_generic_method_call data a method_name c wa).1
                  b method_name c wb).1 a release_name c w3).1.running c = true
            ∧ backend_calls (handle_generic_method_call
                (handle_generic_method_call
                  (handle_generic_method_call
                    (handle_generic_method_call data a method_name c wa).1
                    b method_name c wb).1 a release_name c w3).1
                b release_name c w4).2 = [Effect.disable_events c]
            ∧ (handle_generic_method_call
                (handle_generic_method_call
                  (handle_generic_method_call
                    (handle_generic_method_call data a method_name c wa).1
                    b method_name c wb).1 a release_name c w3).1
                b release_name c w4).1.running c = false := by
  obtain ⟨s, hs⟩ := Option.isSome_iff_exists.mp hsensor
  refine ⟨?_, ?_, ?_⟩
  · by_cases hl : g_hash_table_lookup (data.clients c) sender = 0
    · exact (claim_new_view data sender method_name c watch_id s hclaim hl havail hs).2.2
    · rw [claim_held data sender method_name c watch_id hclaim hl]
      have hne : g_hash_table_size (data.clients c) ≠ 0 := by
        intro h0
        have : data.clients c = [] := List.length_eq_zero.mp h0
        simp [this, g_hash_table_lookup] at hl
      simp [hne, backend_calls, Effect.is_backend_call]
  · by_cases hl : g_hash_table_lookup (data.clients c) sender = 0
    · have hnc : g_hash_table_contains (data.clients c) sender = false := by
        by_contra hc
        exact contains_lookup_pos _ _ hvalid (by simpa using hc) hl
      simp [release_absent, hl, hnc, backend_calls]
    · have hc := lookup_pos_contains _ _ hl
      obtain ⟨h1, _, h3⟩ := release_present_view data sender c s hl havail hs
      rw [h3, h1]
      simp [hc]
  · intro a b release_name wa wb w3 w4 hempty hab hwa hwb hnc hrel
    -- step 1: A claims
    have l1 : g_hash_table_lookup (data.clients c) a = 0 := by
      simp [hempty, g_hash_table_lookup]
    obtain ⟨c1, s1, f1⟩ := claim_new_view data a method_name c wa s hclaim l1 havail hs
    have e1 := claim_exists data a method_name c c wa hclaim
    simp only [hempty, g_hash_table_size, List.length_nil, if_true] at s1 f1
    rw [hempty] at c1
    -- step 2: B claims
    generalize handle_generic_method_call data a method_name c wa = r1 at *
    have l2 : g_hash_table_lookup (r1.1.clients c) b = 0 := by
      simp [c1, g_hash_table_insert, g_hash_table_lookup, hab]
    obtain ⟨c2, s2, f2⟩ := claim_new_view r1.1 b method_name c wb s.start.1 hclaim l2
      (e1.trans havail) s1
    have e2 := claim_exists r1.1 b method_name c c wb hclaim
    simp only [c1, g_hash_table_insert, g_hash_table_size, List.length_singleton,
      one_ne_zero, if_false, hab] at s2 f2 c2
    -- step 3: A releases
    generalize handle_generic_method_call r1.1 b method_name c wb = r2 at *
    have l3 : g_hash_table_lookup (r2.1.clients c) a ≠ 0 := by
      simpa [c2, g_hash_table_lookup] using hwa
    obtain ⟨c3, s3, f3⟩ := release_present_view r2.1 a c s.start.1 l3
      ((e2.trans e1).trans havail) s2
    have e3 := release_exists r2.1 a c c
    have hrm : g_hash_table_remove (r2.1.clients c) a = [(b, wb)] := by
      simp [c2, g_hash_table_remove, Ne.symm hab]
    simp only [hrm, g_hash_table_size, List.length_singleton, one_ne_zero, if_false]
      at c3 s3 f3
    -- step 4: B releases
    have l4 : g_hash_table_lookup ((client_release r2.1 a c).1.clients c) b ≠ 0 := by
      simpa [c3, g_hash_table_lookup] using hwb
    obtain ⟨_, s4, f4⟩ := release_present_view (client_release r2.1 a c).1 b c s.start.1 l4
      (((e3.trans e2).trans e1).trans havail) s3
    have hrm4 : g_hash_table_remove ((client_release r2.1 a c).1.clients c) b = [] := by
      simp [c3, g_hash_table_remove]
    simp only [hrm4, g_hash_table_size, List.length_nil, if_true] at s4 f4
    rw [release_call _ a release_name c w3 hnc hrel, release_call _ b release_name c w4 hnc hrel]
    simp only [backend_calls_append, f3, f4]
    refine ⟨f1, ?_, f2, ?_, by simp [backend_calls, Effect.is_backend_call], ?_,
      by simp [backend_calls, Effect.is_backend_call], ?_⟩
    · simp [SensorData.running, s1, start_running]
    · simp [SensorData.running, s2, start_running]
    · simp [SensorData.running, s3, start_running]
    · simp [SensorData.running, s4, stop_running]

theorem sample_data_clients (c : DriverType) : sample_data.clients c = [] := rfl

theorem sample_data_watches (c : DriverType) : watches_valid sample_data c := by
  intro e he
  rw [sample_data_clients] at he
  cases he

/-- Witness for C1: the daemon with all four backends constructed, class Proximity,
client A claiming with ClaimProximity and watch identifier 1; then B claims and both
release. -/
theorem claim_release_reference_count_witness :
    (driver_type_exists sample_data DRIVER_TYPE_PROXIMITY = true
      ∧ (sample_data.sensor DRIVER_TYPE_PROXIMITY).isSome = true
      ∧ watches_valid sample_data DRIVER_TYPE_PROXIMITY
      ∧ g_str_has_prefix "ClaimProximity" "Claim" = true)
    ∧ backend_calls
        (handle_generic_method_call sample_data "A" "ClaimProximity" DRIVER_TYPE_PROXIMITY 1).2
        = [Effect.enable_events DRIVER_TYPE_PROXIMITY]
    ∧ backend_calls (handle_generic_method_call
        (handle_generic_method_call
          (handle_generic_method_call
            (handle_generic_method_call sample_data "A" "ClaimProximity"
              DRIVER_TYPE_PROXIMITY 1).1
            "B" "ClaimProximity" DRIVER_TYPE_PROXIMITY 2).1
          "A" "ReleaseProximity" DRIVER_TYPE_PROXIMITY 0).1
        "B" "ReleaseProximity" DRIVER_TYPE_PROXIMITY 0).2
        = [Effect.disable_events DRIVER_TYPE_PROXIMITY] :=
  ⟨⟨by decide, by decide, sample_data_watches _, by decide⟩,
    ((claim_release_reference_count sample_data DRIVER_TYPE_PROXIMITY "A" "ClaimProximity" 1
      (by decide) (by decide) (sample_data_watches _) (by decide)).2.2
      "A" "B" "ReleaseProximity" 1 2 0 0 rfl (by decide) (by decide) (by decide)
      (by decide) (by decide)).1,
    ((claim_release_reference_count sample_data DRIVER_TYPE_PROXIMITY "A" "ClaimProximity" 1
      (by decide) (by decide) (sample_data_watches _) (by decide)).2.2
      "A" "B" "ReleaseProximity" 1 2 0 0 rfl (by decide) (by decide) (by decide)
      (by decide) (by decide)).2.2.2.2.2.2.1⟩

/-! ## The running flag follows the registry -/

theorem class_invariant_congr (data data2 : SensorData) (c : DriverType)
    (h1 : data2.clients c = data.clients c) (h2 : data2.sensor c = data.sensor c)
    (h3 : driver_type_exists data2 c = driver_type_exists data c)
    (h : class_invariant data c) : class_invariant data2 c := by
  unfold class_invariant watches_valid at *
  rw [h1, h2, h3]
  exact h

theorem claim_clients_same (data : SensorData) (sender method_name : String)
    (c : DriverType) (watch_id : Nat)
    (hclaim : g_str_has_prefix method_name "Claim" = true) :
    (handle_generic_method_call data sender method_name c watch_id).1.clients c
      = if g_hash_table_lookup (data.clients c) sender = 0
        then g_hash_table_insert (data.clients c) sender watch_id else data.clients c := by
  by_cases h : g_hash_table_lookup (data.clients c) sender = 0
  · rw [claim_new data sender method_name c watch_id hclaim h]
    simp [h, set_clients_same]
  · rw [claim_held data sender method_name c watch_id hclaim h]
    simp [h]

theorem insert_ne_nil (ht : GHashTable) (key : String) (value : Nat) :
    g_hash_table_insert ht key value ≠ [] := by
  cases ht with
  | nil => simp [g_hash_table_insert]
  | cons e rest =>
    obtain ⟨k, v⟩ := e
    simp only [g_hash_table_insert]
    split <;> simp

theorem claim_preserves (data : SensorData) (sender method_name : String)
    (c0 c : DriverType) (watch_id : Nat)
    (hclaim : g_str_has_prefix method_name "Claim" = true) (hw : watch_id ≠ 0)
    (h : class_invariant data c) :
    class_invariant (handle_generic_method_call data sender method_name c0 watch_id).1 c := by
  by_cases hc : c = c0
  · subst hc
    by_cases hl : g_hash_table_lookup (data.clients c) sender = 0
    · refine ⟨?_, ?_⟩
      · unfold watches_valid
        rw [claim_clients_same data sender method_name c watch_id hclaim, if_pos hl]
        exact insert_valid _ _ _ h.1 hw
      · intro havail
        rw [claim_exists data sender method_name c c watch_id hclaim] at havail
        obtain ⟨s, hs, hrun⟩ := h.2 havail
        obtain ⟨h1, h2, _⟩ :=
          claim_new_view data sender method_name c watch_id s hclaim hl havail hs
        refine ⟨_, h2, ?_⟩
        rw [h1]
        simp only [insert_ne_nil, ne_eq, not_false_eq_true, iff_true]
        split
        · exact start_running s
        · rename_i hsz
          exact hrun.mpr (fun he => hsz (by simp [he, g_hash_table_size]))
    · rw [claim_held data sender method_name c watch_id hclaim hl]
      exact h
  · exact class_invariant_congr data _ c
      (claim_clients_other data sender method_name c0 c watch_id hclaim hc)
      (claim_sensor_other data sender method_name c0 c watch_id hclaim hc)
      (claim_exists data sender method_name c0 c watch_id hclaim) h

theorem release_preserves (data : SensorData) (sender : String) (c0 c : DriverType)
    (h : class_invariant data c) : class_invariant (client_release data sender c0).1 c := by
  by_cases hc : c = c0
  · subst hc
    by_cases hl : g_hash_table_lookup (data.clients c) sender = 0
    · rw [release_absent data sender c hl]
      exact h
    · refine ⟨?_, ?_⟩
      · unfold watches_valid
        rw [release_clients_same, if_neg hl]
        exact remove_valid _ _ h.1
      · intro havail
        rw [release_exists] at havail
        obtain ⟨s, hs, hrun⟩ := h.2 havail
        obtain ⟨h1, h2, _⟩ := release_present_view data sender c s hl havail hs
        refine ⟨_, h2, ?_⟩
        rw [h1]
        split
        · rename_i hsz
          have : g_hash_table_remove (data.clients c) sender = [] :=
            List.length_eq_zero.mp hsz
          simp [this, stop_running]
        · rename_i hsz
          have hne : g_hash_table_remove (data.clients c) sender ≠ [] :=
            fun he => hsz (by simp [he, g_hash_table_size])
          have hne2 : data.clients c ≠ [] := by
            intro he
            rw [he] at hl
            exact hl rfl
          simp [hne, hrun.mpr hne2]
  · exact class_invariant_congr data _ c (release_clients_other data sender c0 c hc)
      (release_sensor_other data sender c0 c hc) (release_exists data sender c0 c) h

theorem generic_call_preserves (data : SensorData) (sender method_name : String)
    (c0 c : DriverType) (watch_id : Nat) (hw : watch_id ≠ 0) (h : class_invariant data c) :
    class_invariant (handle_generic_method_call data sender method_name c0 watch_id).1 c := by
  by_cases hclaim : g_str_has_prefix method_name "Claim" = true
  · exact claim_preserves data sender method_name c0 c watch_id hclaim hw h
  · by_cases hrel : g_str_has_prefix method_name "Release" = true
    · rw [release_call data sender method_name c0 watch_id (by simpa using hclaim) hrel]
      exact release_preserves data sender c0 c h
    · simp only [handle_generic_method_call, hclaim, hrel]
      exact h

theorem vanished_iteration_preserves (acc : SensorData × List Effect) (sender : String)
    (i c : DriverType) (h : class_invariant acc.1 c) :
    class_invariant (client_vanished_iteration acc sender i).1 c := by
  unfold client_vanished_iteration
  split
  · exact release_preserves acc.1 sender i c h
  · exact h

theorem vanished_fold_preserves (l : List DriverType) (acc : SensorData × List Effect)
    (sender : String) (c : DriverType) (h : class_invariant acc.1 c) :
    class_invariant
      (l.foldl (fun acc i => client_vanished_iteration acc sender i) acc).1 c := by
  induction l generalizing acc with
  | nil => exact h
  | cons i rest ih => exact ih _ (vanished_iteration_preserves acc sender i c h)

theorem vanished_preserves (data : SensorData) (name : Option String) (c : DriverType)
    (h : class_invariant data c) : class_invariant (client_vanished_cb data name).1 c := by
  cases name with
  | none => exact h
  | some sender => exact vanished_fold_preserves _ (data, []) sender c h

theorem dispatch_preserves (data : SensorData) (ev : BusEvent) (c : DriverType)
    (hv : ev.valid = true) (h : class_invariant data c) :
    class_invariant (dispatch data ev).1 c := by
  cases ev with
  | name_vanished name => exact vanished_preserves data name c h
  | method_call sender object_path method_name watch_id =>
    have hw : watch_id ≠ 0 := by simpa [BusEvent.valid] using hv
    simp only [dispatch, handle_method_call, handle_compass_method_call]
    repeat' split
    all_goals first
      | exact h
      | exact generic_call_preserves data sender method_name _ c watch_id hw h

theorem run_append_one (data : SensorData) (events : List BusEvent) (ev : BusEvent) :
    run data (events ++ [ev])
      = ((dispatch (run data events).1 ev).1,
          (run data events).2 ++ (dispatch (run data events).1 ev).2) := by
  simp [run, List.foldl_append]

theorem run_preserves (data : SensorData) (events : List BusEvent) (c : DriverType)
    (hv : ∀ ev ∈ events, ev.valid = true) (h : class_invariant data c) :
    class_invariant (run data events).1 c := by
  induction events using List.reverseRecOn with
  | nil => exact h
  | append_singleton evs ev ih =>
    rw [run_append_one]
    exact dispatch_preserves _ ev c (hv ev (by simp))
      (ih (fun e he => hv e (by simp [he])))

theorem initial_invariant (data : SensorData) (c : DriverType) (h : data.initial) :
    class_invariant data c := by
  obtain ⟨hc, hr, hs⟩ := h
  refine ⟨?_, ?_⟩
  · intro e he
    rw [hc c] at he
    cases he
  · intro havail
    obtain ⟨s, hsome⟩ := Option.isSome_iff_exists.mp (hs c havail)
    refine ⟨s, hsome, ?_⟩
    have := hr c
    simp only [SensorData.running, hsome] at this
    simp [this, hc c]

/-! ## Availability flags are never revised by bus events -/

theorem generic_call_exists (data : SensorData) (sender method_name : String)
    (c0 c : DriverType) (watch_id : Nat) :
    driver_type_exists (handle_generic_method_call data sender method_name c0 watch_id).1 c
      = driver_type_exists data c := by
  by_cases hclaim : g_str_has_prefix method_name "Claim" = true
  · exact claim_exists data sender method_name c0 c watch_id hclaim
  · by_cases hrel : g_str_has_prefix method_name "Release" = true
    · rw [release_call data sender method_name c0 watch_id (by simpa using hclaim) hrel]
      exact release_exists data sender c0 c
    · simp only [handle_generic_method_call, hclaim, hrel]
      rfl

theorem vanished_fold_exists (l : List DriverType) (acc : SensorData × List Effect)
    (sender : String) (c : DriverType) :
    driver_type_exists (l.foldl (fun acc i => client_vanished_iteration acc sender i) acc).1 c
      = driver_type_exists acc.1 c := by
  induction l generalizing acc with
  | nil => rfl
  | cons i rest ih =>
    rw [List.foldl_cons, ih]
    unfold client_vanished_iteration
    split
    · exact release_exists acc.1 sender i c
    · rfl

theorem vanished_exists (data : SensorData) (name : Option String) (c : DriverType) :
    driver_type_exists (client_vanished_cb data name).1 c = driver_type_exists data c := by
  cases name with
  | none => rfl
  | some sender => exact vanished_fold_exists _ (data, []) sender c

theorem dispatch_exists (data : SensorData) (ev : BusEvent) (c : DriverType) :
    driver_type_exists (dispatch data ev).1 c = driver_type_exists data c := by
  cases ev with
  | name_vanished name => exact vanished_exists data name c
  | method_call sender object_path method_name watch_id =>
    simp only [dispatch, handle_method_call, handle_compass_method_call]
    repeat' split
    all_goals first
      | rfl
      | exact generic_call_exists data sender method_name _ c watch_id

theorem run_exists (data : SensorData) (events : List BusEvent) (c : DriverType) :
    driver_type_exists (run data events).1 c = driver_type_exists data c := by
  induction events using List.reverseRecOn with
  | nil => rfl
  | append_singleton evs ev ih => rw [run_append_one, dispatch_exists, ih]

theorem sample_data_no_proximity_initial : sample_data_no_proximity.initial := by
  refine ⟨fun c => rfl, fun c => ?_, fun c h => ?_⟩
  · cases c <;> rfl
  · cases c
    · rfl
    · rfl
    · rfl
    · exact absurd h (by decide)

theorem sample_data_initial : sample_data.initial := by
  refine ⟨fun c => rfl, fun c => ?_, fun c _ => ?_⟩
  · cases c <;> rfl
  · cases c <;> rfl

/-! ## C2 -/

/-- C2, the claim as stated fails. The proximity backend failed to construct at
startup, so the class is unavailable; the state is an initial one (registries
empty, nothing running). After the single event ClaimProximity from client :1.7 the
Proximity registry holds that client and the Proximity backend is not running. -/
theorem backend_running_iff_claimed_counterexample :
    sample_data_no_proximity.initial
    ∧ BusEvent.valid (BusEvent.method_call ":1.7" SENSOR_PROXY_DBUS_PATH "ClaimProximity" 1)
        = true
    ∧ (run sample_data_no_proximity
        [BusEvent.method_call ":1.7" SENSOR_PROXY_DBUS_PATH "ClaimProximity" 1]).1.clients
        DRIVER_TYPE_PROXIMITY = [(":1.7", 1)]
    ∧ (run sample_data_no_proximity
        [BusEvent.method_call ":1.7" SENSOR_PROXY_DBUS_PATH "ClaimProximity" 1]).1.running
        DRIVER_TYPE_PROXIMITY = false := by
  refine ⟨sample_data_no_proximity_initial, ?_, ?_, ?_⟩
  · decide
  · decide
  · decide

/-- C2 as amended. In every state reached from an initial state (all four registries
empty, no backend running) by any sequence of method calls and name-vanished
callbacks, for every class whose backend is available: the backend runs if and only
if the registry of the class holds at least one client. -/
theorem backend_running_iff_claimed (data : SensorData) (events : List BusEvent)
    (c : DriverType) (hinit : data.initial) (hvalid : ∀ ev ∈ events, ev.valid = true)
    (havail : driver_type_exists data c = true) :
    (run data events).1.running c = true
      ↔ g_hash_table_size ((run data events).1.clients c) > 0 := by
  have hinv := run_preserves data events c hvalid (initial_invariant data c hinit)
  obtain ⟨s, hs, hrun⟩ := hinv.2 ((run_exists data events c).trans havail)
  simp only [SensorData.running, hs, g_hash_table_size]
  rw [hrun]
  exact List.length_pos.symm

/-- Witness for C2 as amended: all four backends constructed, client :1.7 claims
Proximity and then vanishes from the bus. -/
theorem backend_running_iff_claimed_witness :
    (sample_data.initial
      ∧ (∀ ev ∈ [BusEvent.method_call ":1.7" SENSOR_PROXY_DBUS_PATH "ClaimProximity" 1,
          BusEvent.name_vanished (some ":1.7")], ev.valid = true)
      ∧ driver_type_exists sample_data DRIVER_TYPE_PROXIMITY = true)
    ∧ ((run sample_data
          [BusEvent.method_call ":1.7" SENSOR_PROXY_DBUS_PATH "ClaimProximity" 1,
            BusEvent.name_vanished (some ":1.7")]).1.running DRIVER_TYPE_PROXIMITY = true
        ↔ g_hash_table_size ((run sample_data
          [BusEvent.method_call ":1.7" SENSOR_PROXY_DBUS_PATH "ClaimProximity" 1,
            BusEvent.name_vanished (some ":1.7")]).1.clients DRIVER_TYPE_PROXIMITY) > 0) :=
  ⟨⟨sample_data_initial, by simp [BusEvent.valid], by decide⟩,
    backend_running_iff_claimed sample_data _ DRIVER_TYPE_PROXIMITY sample_data_initial
      (by simp [BusEvent.valid]) (by decide)⟩

/-! ## C3 -/

/-- C3. Claim is idempotent. After a Claim by `sender` on class `c` (the watch
identifier GLib returned being non-zero), a second Claim by the same sender on the
same class returns the state of the first unchanged (so the registry of the class,
its set of clients and its count are those after the first call) and its whole
trace is the single reply `return_value`: no name watch is created and no backend
call is made. -/
theorem claim_idempotent (data : SensorData) (sender method_name : String) (c : DriverType)
    (w1 w2 : Nat) (hclaim : g_str_has_prefix method_name "Claim" = true) (hw : w1 ≠ 0) :
    handle_generic_method_call
        (handle_generic_method_call data sender method_name c w1).1 sender method_name c w2
      = ((handle_generic_method_call data sender method_name c w1).1, [Effect.return_value])
    ∧ g_hash_table_size ((handle_generic_method_call
        (handle_generic_method_call data sender method_name c w1).1
          sender method_name c w2).1.clients c)
      = g_hash_table_size ((handle_generic_method_call data sender method_name c w1).1.clients c)
    ∧ g_hash_table_contains
        ((handle_generic_method_call data sender method_name c w1).1.clients c) sender = true := by
  have hheld : g_hash_table_lookup
      ((handle_generic_method_call data sender method_name c w1).1.clients c) sender ≠ 0 := by
    rw [claim_clients_same data sender method_name c w1 hclaim]
    split
    · rw [lookup_insert_self]
      exact hw
    · assumption
  have heq := claim_held _ sender method_name c w2 hclaim hheld
  exact ⟨heq, by rw [heq], lookup_pos_contains _ _ hheld⟩

/-- Witness for C3: client :1.7 calls ClaimLight twice on the daemon with all
backends constructed; GLib returns watch identifier 5 for the first call. -/
theorem claim_idempotent_witness :
    ( g_str_has_prefix "ClaimLight" "Claim" = true ∧ 5 ≠ 0)
    ∧ handle_generic_method_call
        (handle_generic_method_call sample_data ":1.7" "ClaimLight" DRIVER_TYPE_LIGHT 5).1
          ":1.7" "ClaimLight" DRIVER_TYPE_LIGHT 6
      = ((handle_generic_method_call sample_data ":1.7" "ClaimLight" DRIVER_TYPE_LIGHT 5).1,
          [Effect.return_value]) :=
  ⟨⟨by decide, by decide⟩,
    (claim_idempotent sample_data ":1.7" "ClaimLight" DRIVER_TYPE_LIGHT 5 6
      (by decide) (by decide)).1⟩

/-! ## C4 -/

theorem lookup_after_release (data : SensorData) (sender : String) (c : DriverType) :
    g_hash_table_lookup ((client_release data sender c).1.clients c) sender = 0 := by
  rw [release_clients_same]
  split
  · assumption
  · exact lookup_remove_self _ _

/-- C4. Release for an identity that has no entry in the registry of the class is a
no-op: `client_release` returns the state unchanged (every registry, every
backend) with an empty trace, also when the registry is empty, and the Release
branch of `handle_generic_method_call` then only replies. Release is idempotent:
for every state and identity, a second `client_release` right after a first returns
the state unchanged with an empty trace. -/
theorem release_absent_is_noop (data : SensorData) (sender : String) (c : DriverType)
    (habsent : g_hash_table_contains (data.clients c) sender = false) :
    client_release data sender c = (data, [])
    ∧ (∀ (method_name : String) (watch_id : Nat),
        g_str_has_prefix method_name "Claim" = false →
        g_str_has_prefix method_name "Release" = true →
        handle_generic_method_call data sender method_name c watch_id
          = (data, [Effect.return_value]))
    ∧ ∀ (data2 : SensorData) (sender2 : String) (c2 : DriverType),
        client_release (client_release data2 sender2 c2).1 sender2 c2
          = ((client_release data2 sender2 c2).1, []) := by
  have hl : g_hash_table_lookup (data.clients c) sender = 0 := by
    by_contra hne
    rw [lookup_pos_contains _ _ hne] at habsent
    cases habsent
  refine ⟨release_absent data sender c hl, ?_, ?_⟩
  · intro method_name watch_id hnc hrel
    rw [release_call data sender method_name c watch_id hnc hrel,
      release_absent data sender c hl]
    rfl
  · intro data2 sender2 c2
    exact release_absent _ sender2 c2 (lookup_after_release data2 sender2 c2)

/-- Witness for C4: the Compass registry of the freshly started daemon is empty and
client :1.9 releases Compass. -/
theorem release_absent_is_noop_witness :
    g_hash_table_contains (sample_data.clients DRIVER_TYPE_COMPASS) ":1.9" = false
    ∧ client_release sample_data ":1.9" DRIVER_TYPE_COMPASS = (sample_data, []) :=
  ⟨by decide, (release_absent_is_noop sample_data ":1.9" DRIVER_TYPE_COMPASS (by decide)).1⟩

/-! ## C5 -/

theorem vanished_iteration_eq (acc : SensorData × List Effect) (sender : String)
    (i : DriverType) :
    client_vanished_iteration acc sender i
      = ((client_release acc.1 sender i).1, acc.2 ++ (client_release acc.1 sender i).2) := by
  unfold client_vanished_iteration
  split
  · rfl
  · rename_i h
    rw [release_absent acc.1 sender i (by omega)]
    simp

theorem release_keeps_others (data : SensorData) (sender : String) (c0 c : DriverType)
    (e : String × Nat) (he : e ∈ data.clients c) (hne : e.1 ≠ sender) :
    e ∈ (client_release data sender c0).1.clients c := by
  by_cases hc : c = c0
  · subst hc
    rw [release_clients_same]
    split
    · exact he
    · simp only [g_hash_table_remove, List.mem_filter]
      exact ⟨he, by simpa using hne⟩
  · rw [release_clients_other data sender c0 c hc]
    exact he

theorem release_fold_keeps_others (l : List DriverType) (acc : SensorData × List Effect)
    (sender : String) (c : DriverType) (e : String × Nat) (he : e ∈ acc.1.clients c)
    (hne : e.1 ≠ sender) :
    e ∈ (l.foldl (fun acc i => client_vanished_iteration acc sender i) acc).1.clients c := by
  induction l generalizing acc with
  | nil => exact he
  | cons i rest ih =>
    apply ih
    show e ∈ (client_vanished_iteration acc sender i).1.clients c
    rw [vanished_iteration_eq]
    exact release_keeps_others acc.1 sender i c e he hne

theorem vanished_fold_absent (l : List DriverType) (acc : SensorData × List Effect)
    (sender : String) (h : ∀ c, g_hash_table_contains (acc.1.clients c) sender = false) :
    l.foldl (fun acc i => client_vanished_iteration acc sender i) acc = acc := by
  induction l with
  | nil => rfl
  | cons i rest ih =>
    rw [List.foldl_cons]
    have hl : ¬ g_hash_table_lookup (acc.1.clients i) sender > 0 := by
      intro hpos
      have := lookup_pos_contains _ _ (Nat.pos_iff_ne_zero.mp hpos)
      rw [h i] at this
      cases this
    simp only [client_vanished_iteration, hl, if_false]
    exact ih

/-- C5. The name-vanished callback refines Release: for every state and bus name,
`client_vanished_cb` returns the same state (all registries, all backends) and the
same trace (so the same backend disable calls in the same order) as Release
applied for that name to the four classes in index order. For a name with no entry
in any registry it returns the state unchanged with an empty trace, and an entry
of any other name that was in a registry is still there afterwards. -/
theorem vanished_refines_release (data : SensorData) (sender : String) :
    client_vanished_cb data (some sender) = release_every_class data sender
    ∧ ((∀ c, g_hash_table_contains (data.clients c) sender = false) →
        client_vanished_cb data (some sender) = (data, []))
    ∧ ∀ (c : DriverType) (e : String × Nat), e ∈ data.clients c → e.1 ≠ sender →
        e ∈ (client_vanished_cb data (some sender)).1.clients c := by
  refine ⟨?_, ?_, ?_⟩
  · simp only [client_vanished_cb, release_every_class, vanished_iteration_eq]
  · intro h
    exact vanished_fold_absent _ (data, []) sender h
  · intro c e he hne
    exact release_fold_keeps_others _ (data, []) sender c e he hne

/-- Witness for C5: on the freshly started daemon, where :1.7 holds no claim, the
callback for :1.7 changes nothing. -/
theorem vanished_refines_release_witness :
    (∀ c, g_hash_table_contains (sample_data.clients c) ":1.7" = false)
    ∧ client_vanished_cb sample_data (some ":1.7") = (sample_data, []) :=
  ⟨fun _ => rfl, (vanished_refines_release sample_data ":1.7").2.1 (fun _ => rfl)⟩

/-! ## Backend calls are made on available classes only -/

theorem start_no_backend_call (s : Sensorfw) (e : Effect) (he : e ∈ s.start.2) :
    e.is_backend_call = false := by
  have h := backend_calls_start s
  simp only [backend_calls, List.filter_eq_nil_iff] at h
  simpa using h e he

theorem stop_no_backend_call (s : Sensorfw) (e : Effect) (he : e ∈ s.stop.2) :
    e.is_backend_call = false := by
  have h := backend_calls_stop s
  simp only [backend_calls, List.filter_eq_nil_iff] at h
  simpa using h e he

theorem destroyed_no_backend_call (ht : GHashTable) (key : String) (e : Effect)
    (he : e ∈ clients_value_destroyed ht key) : e.is_backend_call = false := by
  have h := backend_calls_destroyed ht key
  simp only [backend_calls, List.filter_eq_nil_iff] at h
  simpa using h e he

theorem enable_calls (data : SensorData) (c0 : DriverType) (e : Effect)
    (he : e ∈ (enable_sensorfw_events data c0).2) (hb : e.is_backend_call = true) :
    call_on_available data e := by
  by_cases havail : driver_type_exists data c0 = true
  · cases hs : data.sensor c0 with
    | none =>
      cases c0 <;>
        simp_all [driver_type_exists, enable_sensorfw_events, SensorData.sensor,
          Effect.is_backend_call]
    | some s =>
      rw [(enable_available data c0 s havail hs).2] at he
      rcases List.mem_cons.mp he with rfl | hmem
      · exact ⟨c0, Or.inl rfl, havail⟩
      · rw [start_no_backend_call s e hmem] at hb
        cases hb
  · rw [enable_unavailable data c0 (by simpa using havail)] at he
    cases he

theorem disable_calls (data : SensorData) (c0 : DriverType) (e : Effect)
    (he : e ∈ (disable_sensorfw_events data c0).2) (hb : e.is_backend_call = true) :
    call_on_available data e := by
  by_cases havail : driver_type_exists data c0 = true
  · cases hs : data.sensor c0 with
    | none =>
      cases c0 <;>
        simp_all [driver_type_exists, disable_sensorfw_events, SensorData.sensor,
          Effect.is_backend_call]
    | some s =>
      rw [(disable_available data c0 s havail hs).2] at he
      rcases List.mem_cons.mp he with rfl | hmem
      · exact ⟨c0, Or.inr rfl, havail⟩
      · rw [stop_no_backend_call s e hmem] at hb
        cases hb
  · rw [disable_unavailable data c0 (by simpa using havail)] at he
    cases he

theorem call_on_available_congr (data data2 : SensorData) (e : Effect)
    (h : ∀ c, driver_type_exists data2 c = driver_type_exists data c)
    (hc : call_on_available data2 e) : call_on_available data e := by
  obtain ⟨c, h1, h2⟩ := hc
  exact ⟨c, h1, (h c).symm.trans h2⟩

theorem release_calls (data : SensorData) (sender : String) (c0 : DriverType) (e : Effect)
    (he : e ∈ (client_release data sender c0).2) (hb : e.is_backend_call = true) :
    call_on_available data e := by
  by_cases hl : g_hash_table_lookup (data.clients c0) sender = 0
  · rw [release_absent data sender c0 hl] at he
    cases he
  · rw [release_present data sender c0 hl] at he
    split at he
    · rcases List.mem_append.mp he with hmem | hmem
      · rw [destroyed_no_backend_call _ _ e hmem] at hb
        cases hb
      · exact call_on_available_congr data _ e (fun c => set_clients_exists data c0 c _)
          (disable_calls _ c0 e hmem hb)
    · rw [destroyed_no_backend_call _ _ e he] at hb
      cases hb

theorem generic_call_calls (data : SensorData) (sender method_name : String)
    (c0 : DriverType) (watch_id : Nat) (e : Effect)
    (he : e ∈ (handle_generic_method_call data sender method_name c0 watch_id).2)
    (hb : e.is_backend_call = true) : call_on_available data e := by
  by_cases hclaim : g_str_has_prefix method_name "Claim" = true
  · by_cases hl : g_hash_table_lookup (data.clients c0) sender = 0
    · rw [claim_new data sender method_name c0 watch_id hclaim hl] at he
      simp only [List.mem_append, List.mem_singleton] at he
      rcases he with ((hmem | rfl) | hmem) | rfl
      · split at hmem
        · exact enable_calls data c0 e hmem hb
        · cases hmem
      · cases hb
      · rw [destroyed_no_backend_call _ _ e hmem] at hb
        cases hb
      · cases hb
    · rw [claim_held data sender method_name c0 watch_id hclaim hl] at he
      rcases List.mem_singleton.mp he with rfl
      cases hb
  · by_cases hrel : g_str_has_prefix method_name "Release" = true
    · rw [release_call data sender method_name c0 watch_id (by simpa using hclaim) hrel] at he
      rcases List.mem_append.mp he with hmem | hmem
      · exact release_calls data sender c0 e hmem hb
      · rcases List.mem_singleton.mp hmem with rfl
        cases hb
    · simp only [handle_generic_method_call, hclaim, hrel] at he
      cases he

theorem vanished_fold_calls (l : List DriverType) (acc : SensorData × List Effect)
    (sender : String) (data : SensorData)
    (hex : ∀ c, driver_type_exists acc.1 c = driver_type_exists data c)
    (hacc : ∀ e ∈ acc.2, e.is_backend_call = true → call_on_available data e) :
    ∀ e ∈ (l.foldl (fun acc i => client_vanished_iteration acc sender i) acc).2,
      e.is_backend_call = true → call_on_available data e := by
  induction l generalizing acc with
  | nil => exact hacc
  | cons i rest ih =>
    rw [List.foldl_cons]
    apply ih
    · intro c
      rw [vanished_iteration_eq]
      exact (release_exists acc.1 sender i c).trans (hex c)
    · intro e he hb
      rw [vanished_iteration_eq] at he
      rcases List.mem_append.mp he with hmem | hmem
      · exact hacc e hmem hb
      · exact call_on_available_congr data acc.1 e hex (release_calls acc.1 sender i e hmem hb)

theorem dispatch_calls (data : SensorData) (ev : BusEvent) (e : Effect)
    (he : e ∈ (dispatch data ev).2) (hb : e.is_backend_call = true) :
    call_on_available data e := by
  cases ev with
  | name_vanished name =>
    cases name with
    | none => cases he
    | some sender =>
      exact vanished_fold_calls _ (data, []) sender data (fun _ => rfl)
        (fun e he _ => by cases he) e he hb
  | method_call sender object_path method_name watch_id =>
    simp only [dispatch, handle_method_call, handle_compass_method_call] at he
    repeat' split at he
    all_goals first
      | exact generic_call_calls data sender method_name _ watch_id e he hb
      | (rcases List.mem_singleton.mp he with rfl; cases hb)
      | cases he

theorem run_calls (data : SensorData) (events : List BusEvent) (e : Effect)
    (he : e ∈ (run data events).2) (hb : e.is_backend_call = true) :
    call_on_available data e := by
  induction events using List.reverseRecOn with
  | nil => cases he
  | append_singleton evs ev ih =>
    rw [run_append_one] at he
    rcases List.mem_append.mp he with hmem | hmem
    · exact ih hmem
    · exact call_on_available_congr data _ e (fun c => run_exists data evs c)
        (dispatch_calls _ ev e hmem hb)

/-! ## C6 -/

theorem contains_insert (ht : GHashTable) (key : String) (value : Nat) :
    g_hash_table_contains (g_hash_table_insert ht key value) key = true := by
  rw [contains_iff_mem_keys, keys_insert]
  split
  · rename_i h
    exact (contains_iff_mem_keys ht key).mp h
  · simp

theorem replies_destroyed (ht : GHashTable) (key : String) :
    replies (clients_value_destroyed ht key) = [] := by
  unfold clients_value_destroyed free_client_watch
  split <;> (try split) <;> simp [replies, Effect.is_reply]

/-- C6. A class whose backend constructor threw in `setup_sensors` has its
availability flag false. For a class with the flag false: every Claim leaves the
caller in the registry of the class and sends exactly one reply, the success reply
`return_value`; and no sequence of method calls and name-vanished callbacks ever
makes an enable or a disable call on the backend of that class. -/
theorem unavailable_class_accepts_claims (data : SensorData) (c : DriverType)
    (hun : driver_type_exists data c = false) :
    (∀ (sender method_name : String) (watch_id : Nat),
        g_str_has_prefix method_name "Claim" = true →
        g_hash_table_contains
            ((handle_generic_method_call data sender method_name c watch_id).1.clients c)
            sender = true
          ∧ replies (handle_generic_method_call data sender method_name c watch_id).2
            = [Effect.return_value])
    ∧ (∀ events : List BusEvent,
        Effect.enable_events c ∉ (run data events).2
          ∧ Effect.disable_events c ∉ (run data events).2)
    ∧ ∀ (d : SensorData) (light orientation compass proximity : Option Sensorfw),
        driver_type_exists (setup_sensors d none light orientation compass)
            DRIVER_TYPE_PROXIMITY = false
          ∧ driver_type_exists (setup_sensors d proximity none orientation compass)
            DRIVER_TYPE_LIGHT = false
          ∧ driver_type_exists (setup_sensors d proximity light none compass)
            DRIVER_TYPE_ACCEL = false
          ∧ driver_type_exists (setup_sensors d proximity light orientation none)
            DRIVER_TYPE_COMPASS = false := by
  refine ⟨?_, ?_, ?_⟩
  · intro sender method_name watch_id hclaim
    by_cases hl : g_hash_table_lookup (data.clients c) sender = 0
    · rw [claim_new data sender method_name c watch_id hclaim hl,
        enable_unavailable data c hun]
      refine ⟨?_, ?_⟩
      · simp only [ite_self, set_clients_same]
        exact contains_insert _ _ _
      · have hd := replies_destroyed (data.clients c) sender
        simp only [replies] at hd ⊢
        simp [List.filter_append, hd, Effect.is_reply]
    · rw [claim_held data sender method_name c watch_id hclaim hl]
      exact ⟨lookup_pos_contains _ _ hl, by simp [replies, Effect.is_reply]⟩
  · intro events
    constructor
    · intro hmem
      obtain ⟨c2, h1, h2⟩ := run_calls data events _ hmem rfl
      have : c = c2 := by
        rcases h1 with h | h
        · injection h
        · cases h
      rw [← this, hun] at h2
      cases h2
    · intro hmem
      obtain ⟨c2, h1, h2⟩ := run_calls data events _ hmem rfl
      have : c = c2 := by
        rcases h1 with h | h
        · cases h
        · injection h
      rw [← this, hun] at h2
      cases h2
  · intro d light orientation compass proximity
    refine ⟨?_, ?_, ?_, ?_⟩
    · cases light <;> cases orientation <;> cases compass <;> rfl
    · cases proximity <;> cases orientation <;> cases compass <;> rfl
    · cases proximity <;> cases light <;> cases compass <;> rfl
    · cases proximity <;> cases light <;> cases orientation <;> rfl

/-- Witness for C6: the proximity backend failed to construct; client :1.7 calls
ClaimProximity. -/
theorem unavailable_class_accepts_claims_witness :
    driver_type_exists sample_data_no_proximity DRIVER_TYPE_PROXIMITY = false
    ∧ g_hash_table_contains
        ((handle_generic_method_call sample_data_no_proximity ":1.7" "ClaimProximity"
          DRIVER_TYPE_PROXIMITY 1).1.clients DRIVER_TYPE_PROXIMITY) ":1.7" = true
    ∧ replies (handle_generic_method_call sample_data_no_proximity ":1.7" "ClaimProximity"
          DRIVER_TYPE_PROXIMITY 1).2 = [Effect.return_value] :=
  ⟨by decide,
    (unavailable_class_accepts_claims sample_data_no_proximity DRIVER_TYPE_PROXIMITY
      (by decide)).1 ":1.7" "ClaimProximity" 1 (by decide)⟩

/-! ## The table of client masks -/

theorem lookup_update (mask : Nat) (i : DriverType) (ht : GHashTable) (key k : String) :
    g_hash_table_lookup (client_mask_update mask i ht key) k
      = if key = k then g_hash_table_lookup ht k ||| (mask &&& mask_for_sensor_type i)
        else g_hash_table_lookup ht k := by
  unfold client_mask_update
  by_cases h : key = k
  · subst h
    simp [lookup_insert_self]
  · simp [h, lookup_insert_other _ _ _ _ (Ne.symm h)]

theorem keys_update_mem (mask : Nat) (i : DriverType) (ht : GHashTable) (key k : String) :
    k ∈ g_hash_table_get_keys (client_mask_update mask i ht key)
      ↔ k ∈ g_hash_table_get_keys ht ∨ k = key := by
  unfold client_mask_update
  rw [keys_insert]
  split
  · rename_i hc
    have := (contains_iff_mem_keys ht key).mp hc
    constructor
    · exact Or.inl
    · rintro (h | rfl)
      · exact h
      · exact this
  · simp

theorem keys_update_nodup (mask : Nat) (i : DriverType) (ht : GHashTable) (key : String)
    (h : (g_hash_table_get_keys ht).Nodup) :
    (g_hash_table_get_keys (client_mask_update mask i ht key)).Nodup := by
  unfold client_mask_update
  rw [keys_insert]
  split
  · exact h
  · rename_i hc
    have hnot : key ∉ g_hash_table_get_keys ht :=
      fun hm => hc ((contains_iff_mem_keys ht key).mpr hm)
    exact List.Nodup.append h (List.nodup_singleton key) (by simpa using hnot)

theorem lookup_inner (mask : Nat) (i : DriverType) (l : List String) (ht : GHashTable)
    (k : String) :
    g_hash_table_lookup (l.foldl (client_mask_update mask i) ht) k
      = if k ∈ l then g_hash_table_lookup ht k ||| (mask &&& mask_for_sensor_type i)
        else g_hash_table_lookup ht k := by
  induction l generalizing ht with
  | nil => simp
  | cons key rest ih =>
    rw [List.foldl_cons, ih, lookup_update]
    by_cases h1 : key = k
    · subst h1
      by_cases h2 : key ∈ rest
      · simp [h2, Nat.or_assoc]
      · simp [h2]
    · have h1b : ¬ k = key := fun h => h1 h.symm
      by_cases h2 : k ∈ rest
      · simp [h1, h1b, h2]
      · simp [h1, h1b, h2]

theorem keys_inner_mem (mask : Nat) (i : DriverType) (l : List String) (ht : GHashTable)
    (k : String) :
    k ∈ g_hash_table_get_keys (l.foldl (client_mask_update mask i) ht)
      ↔ k ∈ g_hash_table_get_keys ht ∨ k ∈ l := by
  induction l generalizing ht with
  | nil => simp
  | cons key rest ih =>
    rw [List.foldl_cons, ih, keys_update_mem, List.mem_cons]
    tauto

theorem keys_inner_nodup (mask : Nat) (i : DriverType) (l : List String) (ht : GHashTable)
    (h : (g_hash_table_get_keys ht).Nodup) :
    (g_hash_table_get_keys (l.foldl (client_mask_update mask i) ht)).Nodup := by
  induction l generalizing ht with
  | nil => exact h
  | cons key rest ih => exact ih _ (keys_update_nodup mask i ht key h)

theorem lookup_of_mem (ht : GHashTable) (k : String) (m : Nat)
    (hnd : (g_hash_table_get_keys ht).Nodup) (hmem : (k, m) ∈ ht) :
    g_hash_table_lookup ht k = m := by
  induction ht with
  | nil => cases hmem
  | cons e rest ih =>
    obtain ⟨k2, v⟩ := e
    simp only [g_hash_table_get_keys, List.map_cons, List.nodup_cons] at hnd
    rcases List.mem_cons.mp hmem with heq | hrest
    · cases heq
      simp [g_hash_table_lookup]
    · have hk : k2 ≠ k := by
        intro h
        apply hnd.1
        rw [h]
        exact List.mem_map.mpr ⟨(k, m), hrest, rfl⟩
      simp only [g_hash_table_lookup, hk, if_false]
      exact ih hnd.2 hrest

theorem collect_keys_nodup (data : SensorData) (mask : Nat) :
    (g_hash_table_get_keys (collect_client_masks data mask)).Nodup := by
  simp only [collect_client_masks, all_driver_types, List.foldl_cons, List.foldl_nil]
  apply keys_inner_nodup
  apply keys_inner_nodup
  apply keys_inner_nodup
  apply keys_inner_nodup
  exact List.nodup_nil

theorem collect_keys_mem (data : SensorData) (mask : Nat) (k : String) :
    k ∈ g_hash_table_get_keys (collect_client_masks data mask)
      ↔ ∃ c, k ∈ g_hash_table_get_keys (data.clients c) := by
  simp only [collect_client_masks, all_driver_types, List.foldl_cons, List.foldl_nil,
    keys_inner_mem]
  constructor
  · rintro ((((h | h) | h) | h) | h)
    · cases h
    · exact ⟨_, h⟩
    · exact ⟨_, h⟩
    · exact ⟨_, h⟩
    · exact ⟨_, h⟩
  · rintro ⟨c, h⟩
    cases c
    · exact Or.inl (Or.inl (Or.inl (Or.inr h)))
    · exact Or.inl (Or.inl (Or.inr h))
    · exact Or.inl (Or.inr h)
    · exact Or.inr h

theorem collect_lookup (data : SensorData) (mask : Nat) (k : String) :
    g_hash_table_lookup (collect_client_masks data mask) k = mask &&& claimed_bits data k := by
  simp only [collect_client_masks, all_driver_types, List.foldl_cons, List.foldl_nil,
    lookup_inner, claimed_bits, List.filter_cons, List.filter_nil, g_hash_table_lookup]
  have e : ∀ c, (g_hash_table_contains (data.clients c) k = true)
      = (k ∈ g_hash_table_get_keys (data.clients c)) :=
    fun c => propext (contains_iff_mem_keys _ _)
  simp only [e]
  by_cases h1 : k ∈ g_hash_table_get_keys (data.clients DRIVER_TYPE_ACCEL) <;>
  by_cases h2 : k ∈ g_hash_table_get_keys (data.clients DRIVER_TYPE_LIGHT) <;>
  by_cases h3 : k ∈ g_hash_table_get_keys (data.clients DRIVER_TYPE_COMPASS) <;>
  by_cases h4 : k ∈ g_hash_table_get_keys (data.clients DRIVER_TYPE_PROXIMITY) <;>
  simp [h1, h2, h3, h4, Nat.and_or_distrib_left]

/-! ## The payload of one PropertiesChanged signal -/

theorem nat_or_eq_zero (x y : Nat) : x ||| y = 0 ↔ x = 0 ∧ y = 0 := by
  constructor
  · intro h
    have key : ∀ i, (x.testBit i || y.testBit i) = false := by
      intro i
      rw [← Nat.testBit_or, h, Nat.zero_testBit]
    constructor
    · apply Nat.eq_of_testBit_eq
      intro i
      have := key i
      rw [Bool.or_eq_false_iff] at this
      rw [this.1, Nat.zero_testBit]
    · apply Nat.eq_of_testBit_eq
      intro i
      have := key i
      rw [Bool.or_eq_false_iff] at this
      rw [this.2, Nat.zero_testBit]
  · rintro ⟨rfl, rfl⟩
    rfl

theorem mask_has_or (m a b : Nat) :
    mask_has (m ||| a) b = (mask_has m b || mask_has a b) := by
  rw [Bool.eq_iff_iff]
  simp only [mask_has, Nat.and_distrib_right, bne_iff_ne, ne_eq, nat_or_eq_zero,
    Bool.or_eq_true]
  tauto

theorem accel_pair (b : PropsBuilder) :
    add_accelerometer_orientation (add_has_accelerometer b)
      = { data := if mask_has b.mask PROP_HAS_ACCELEROMETER
                    && !driver_type_exists b.data DRIVER_TYPE_ACCEL
                  then { b.data with previous_orientation := ORIENTATION_UNDEFINED }
                  else b.data
          mask := if mask_has b.mask PROP_HAS_ACCELEROMETER
                    && driver_type_exists b.data DRIVER_TYPE_ACCEL
                  then b.mask ||| PROP_ACCELEROMETER_ORIENTATION else b.mask
          props := b.props ++ accel_entries b.data b.mask } := by
  have c1 : mask_has PROP_ACCELEROMETER_ORIENTATION PROP_ACCELEROMETER_ORIENTATION = true := by
    decide
  unfold add_accelerometer_orientation add_has_accelerometer accel_entries
  by_cases h0 : mask_has b.mask PROP_HAS_ACCELEROMETER = true <;>
  by_cases h1 : mask_has b.mask PROP_ACCELEROMETER_ORIENTATION = true <;>
  by_cases h2 : driver_type_exists b.data DRIVER_TYPE_ACCEL = true <;>
  simp [h0, h1, h2, mask_has_or, c1]

theorem light_pair (b : PropsBuilder) :
    add_light_level (add_has_ambient_light b)
      = { data := b.data
          mask := if mask_has b.mask PROP_HAS_AMBIENT_LIGHT
                    && driver_type_exists b.data DRIVER_TYPE_LIGHT
                  then b.mask ||| PROP_LIGHT_LEVEL else b.mask
          props := b.props ++ light_entries b.data b.mask } := by
  have c1 : mask_has PROP_LIGHT_LEVEL PROP_LIGHT_LEVEL = true := by decide
  unfold add_light_level add_has_ambient_light light_entries
  by_cases h0 : mask_has b.mask PROP_HAS_AMBIENT_LIGHT = true <;>
  by_cases h1 : mask_has b.mask PROP_LIGHT_LEVEL = true <;>
  by_cases h2 : driver_type_exists b.data DRIVER_TYPE_LIGHT = true <;>
  simp [h0, h1, h2, mask_has_or, c1]

theorem compass_pair (b : PropsBuilder) :
    add_compass_heading (add_has_compass b)
      = { data := b.data
          mask := if mask_has b.mask PROP_HAS_COMPASS
                    && driver_type_exists b.data DRIVER_TYPE_COMPASS
                  then b.mask ||| PROP_COMPASS_HEADING else b.mask
          props := b.props ++ compass_entries b.data b.mask } := by
  have c1 : mask_has PROP_COMPASS_HEADING PROP_COMPASS_HEADING = true := by decide
  unfold add_compass_heading add_has_compass compass_entries
  by_cases h0 : mask_has b.mask PROP_HAS_COMPASS = true <;>
  by_cases h1 : mask_has b.mask PROP_COMPASS_HEADING = true <;>
  by_cases h2 : driver_type_exists b.data DRIVER_TYPE_COMPASS = true <;>
  simp [h0, h1, h2, mask_has_or, c1]

theorem proximity_pair (b : PropsBuilder) :
    add_proximity_near (add_has_proximity b)
      = { data := b.data
          mask := if mask_has b.mask PROP_HAS_PROXIMITY
                    && driver_type_exists b.data DRIVER_TYPE_PROXIMITY
                  then b.mask ||| PROP_PROXIMITY_NEAR else b.mask
          props := b.props ++ proximity_entries b.data b.mask } := by
  have c1 : mask_has PROP_PROXIMITY_NEAR PROP_PROXIMITY_NEAR = true := by decide
  unfold add_proximity_near add_has_proximity proximity_entries
  by_cases h0 : mask_has b.mask PROP_HAS_PROXIMITY = true <;>
  by_cases h1 : mask_has b.mask PROP_PROXIMITY_NEAR = true <;>
  by_cases h2 : driver_type_exists b.data DRIVER_TYPE_PROXIMITY = true <;>
  simp [h0, h1, h2, mask_has_or, c1]

theorem mask_has_or_right (m a b : Nat) :
    mask_has m (a ||| b) = (mask_has m a || mask_has m b) := by
  rw [Bool.eq_iff_iff]
  simp only [mask_has, Nat.and_or_distrib_left, bne_iff_ne, ne_eq, nat_or_eq_zero,
    Bool.or_eq_true]
  tauto

theorem mask_has_all (m : Nat) :
    mask_has m PROP_ALL
      = (mask_has m PROP_HAS_ACCELEROMETER || mask_has m PROP_ACCELEROMETER_ORIENTATION
        || mask_has m PROP_HAS_AMBIENT_LIGHT || mask_has m PROP_LIGHT_LEVEL
        || mask_has m PROP_HAS_PROXIMITY || mask_has m PROP_PROXIMITY_NEAR) := by
  simp only [PROP_ALL, mask_has_or_right]

theorem mask_has_all_compass (m : Nat) :
    mask_has m PROP_ALL_COMPASS
      = (mask_has m PROP_HAS_COMPASS || mask_has m PROP_COMPASS_HEADING) := by
  simp only [PROP_ALL_COMPASS, mask_has_or_right]

theorem forced_bits :
    (mask_has PROP_ACCELEROMETER_ORIENTATION PROP_HAS_ACCELEROMETER = false)
    ∧ (mask_has PROP_ACCELEROMETER_ORIENTATION PROP_ACCELEROMETER_ORIENTATION = true)
    ∧ (mask_has PROP_ACCELEROMETER_ORIENTATION PROP_HAS_AMBIENT_LIGHT = false)
    ∧ (mask_has PROP_ACCELEROMETER_ORIENTATION PROP_LIGHT_LEVEL = false)
    ∧ (mask_has PROP_ACCELEROMETER_ORIENTATION PROP_HAS_COMPASS = false)
    ∧ (mask_has PROP_ACCELEROMETER_ORIENTATION PROP_COMPASS_HEADING = false)
    ∧ (mask_has PROP_ACCELEROMETER_ORIENTATION PROP_HAS_PROXIMITY = false)
    ∧ (mask_has PROP_ACCELEROMETER_ORIENTATION PROP_PROXIMITY_NEAR = false)
    ∧ (mask_has PROP_LIGHT_LEVEL PROP_HAS_ACCELEROMETER = false)
    ∧ (mask_has PROP_LIGHT_LEVEL PROP_ACCELEROMETER_ORIENTATION = false)
    ∧ (mask_has PROP_LIGHT_LEVEL PROP_HAS_AMBIENT_LIGHT = false)
    ∧ (mask_has PROP_LIGHT_LEVEL PROP_LIGHT_LEVEL = true)
    ∧ (mask_has PROP_LIGHT_LEVEL PROP_HAS_COMPASS = false)
    ∧ (mask_has PROP_LIGHT_LEVEL PROP_COMPASS_HEADING = false)
    ∧ (mask_has PROP_LIGHT_LEVEL PROP_HAS_PROXIMITY = false)
    ∧ (mask_has PROP_LIGHT_LEVEL PROP_PROXIMITY_NEAR = false)
    ∧ (mask_has PROP_COMPASS_HEADING PROP_HAS_ACCELEROMETER = false)
    ∧ (mask_has PROP_COMPASS_HEADING PROP_ACCELEROMETER_ORIENTATION = false)
    ∧ (mask_has PROP_COMPASS_HEADING PROP_HAS_AMBIENT_LIGHT = false)
    ∧ (mask_has PROP_COMPASS_HEADING PROP_LIGHT_LEVEL = false)
    ∧ (mask_has PROP_COMPASS_HEADING PROP_HAS_COMPASS = false)
    ∧ (mask_has PROP_COMPASS_HEADING PROP_COMPASS_HEADING = true)
    ∧ (mask_has PROP_COMPASS_HEADING PROP_HAS_PROXIMITY = false)
    ∧ (mask_has PROP_COMPASS_HEADING PROP_PROXIMITY_NEAR = false)
    ∧ (mask_has PROP_PROXIMITY_NEAR PROP_HAS_ACCELEROMETER = false)
    ∧ (mask_has PROP_PROXIMITY_NEAR PROP_ACCELEROMETER_ORIENTATION = false)
    ∧ (mask_has PROP_PROXIMITY_NEAR PROP_HAS_AMBIENT_LIGHT = false)
    ∧ (mask_has PROP_PROXIMITY_NEAR PROP_LIGHT_LEVEL = false)
    ∧ (mask_has PROP_PROXIMITY_NEAR PROP_HAS_COMPASS = false)
    ∧ (mask_has PROP_PROXIMITY_NEAR PROP_COMPASS_HEADING = false)
    ∧ (mask_has PROP_PROXIMITY_NEAR PROP_HAS_PROXIMITY = false)
    ∧ (mask_has PROP_PROXIMITY_NEAR PROP_PROXIMITY_NEAR = true)
    := by
  decide

theorem build_props_eq (data : SensorData) (mask : Nat) :
    (build_props data mask).props
        = accel_entries data mask ++ light_entries data mask ++ compass_entries data mask
          ++ proximity_entries data mask
    ∧ mask_has (build_props data mask).mask PROP_ALL = mask_has mask PROP_ALL
    ∧ (build_props data mask).data
        = (if mask_has mask PROP_HAS_ACCELEROMETER
              && !driver_type_exists data DRIVER_TYPE_ACCEL
            then { data with previous_orientation := ORIENTATION_UNDEFINED } else data) := by
  simp only [build_props, accel_pair, light_pair, compass_pair, proximity_pair]
  refine ⟨?_, ?_, ?_⟩
  · split_ifs <;>
      simp_all [light_entries, compass_entries, proximity_entries, mask_has_or, forced_bits,
        driver_type_exists]
  · simp only [mask_has_all]
    split_ifs <;> simp_all [mask_has_or, forced_bits, driver_type_exists]
  · trivial

/-! ## C8 -/

/-- C8, evaluation of the code at the failing input. Client :1.7 holds Proximity
only and PROP_LIGHT_LEVEL is published: the mask stored for the client is 0, and
`send_dbus_event` still emits one PropertiesChanged signal to :1.7, with an empty
payload, on the Compass path and interface. (Publishing PROP_PROXIMITY_NEAR or
PROP_HAS_PROXIMITY emits one signal to :1.7 on the core interface, as claimed.) -/
theorem zero_mask_signal_still_emitted :
    collect_client_masks proximity_only_data PROP_LIGHT_LEVEL = [(":1.7", 0)]
    ∧ (send_dbus_event proximity_only_data PROP_LIGHT_LEVEL).map Prod.snd
      = some [Effect.emit_signal ":1.7" "/net/hadess/SensorProxy/Compass"
          "net.hadess.SensorProxy.Compass" []]
    ∧ (send_dbus_event proximity_only_data PROP_PROXIMITY_NEAR).map Prod.snd
      = some [Effect.emit_signal ":1.7" "/net/hadess/SensorProxy" "net.hadess.SensorProxy"
          [("ProximityNear", Variant.boolean false)]]
    ∧ (send_dbus_event proximity_only_data PROP_HAS_PROXIMITY).map Prod.snd
      = some [Effect.emit_signal ":1.7" "/net/hadess/SensorProxy" "net.hadess.SensorProxy"
          [("HasProximity", Variant.boolean true), ("ProximityNear", Variant.boolean false)]]
    ∧ ∀ (data : SensorData) (destination_bus_name : String),
        send_dbus_event_for_client data destination_bus_name 0
          = (data, [Effect.emit_signal destination_bus_name SENSOR_PROXY_COMPASS_DBUS_PATH
              SENSOR_PROXY_COMPASS_IFACE_NAME []]) := by
  refine ⟨by decide, by decide, by decide, by decide, ?_⟩
  intro data destination_bus_name
  have h0 : ∀ b, mask_has 0 b = false := fun b => by simp [mask_has]
  simp [send_dbus_event_for_client, build_props, add_has_accelerometer,
    add_accelerometer_orientation, add_has_ambient_light, add_light_level, add_has_compass,
    add_compass_heading, add_has_proximity, add_proximity_near, h0]

/-! ## C9 -/

theorem mask_has_and_left (a b x : Nat) (h : mask_has (a &&& b) x = true) :
    mask_has a x = true := by
  simp only [mask_has, bne_iff_ne, ne_eq] at h ⊢
  intro h0
  apply h
  rw [Nat.and_assoc, Nat.and_comm b x, ← Nat.and_assoc, h0, Nat.zero_and]

theorem claimed_bits_named (data : SensorData) (client : String) :
    claimed_bits data client &&& (PROP_ALL ||| PROP_ALL_COMPASS) = claimed_bits data client := by
  simp only [claimed_bits, all_driver_types, List.filter_cons, List.filter_nil]
  split_ifs <;> decide

theorem handle_get_property_names (d : SensorData) (hconn : d.connection = true)
    (p : String × Variant) (mask : Nat)
    (hp : p ∈ accel_entries d mask ++ light_entries d mask ++ proximity_entries d mask) :
    (handle_get_property d p.1).isSome = true := by
  simp only [accel_entries, light_entries, proximity_entries, List.mem_append] at hp
  rcases hp with (hp | hp) | hp <;>
    rcases hp with hp | hp <;> split at hp <;>
    simp only [List.mem_cons, List.mem_singleton, List.not_mem_nil, or_false] at hp <;>
    first
      | exact absurd hp id
      | (rcases hp with rfl | rfl | rfl <;> simp [handle_get_property, hconn])

theorem handle_compass_get_property_names (d : SensorData) (hconn : d.connection = true)
    (p : String × Variant) (mask : Nat) (hp : p ∈ compass_entries d mask) :
    (handle_compass_get_property d p.1).isSome = true := by
  simp only [compass_entries, List.mem_append] at hp
  rcases hp with hp | hp <;> split at hp <;>
    simp only [List.mem_singleton, List.not_mem_nil] at hp <;>
    first
      | exact absurd hp id
      | (rcases hp with rfl; simp [handle_compass_get_property, hconn])

theorem client_mask_groups (data : SensorData) (mask : Nat) (client : String) (m : Nat)
    (hgroup : mask &&& PROP_ALL = 0 ∨ mask &&& PROP_ALL_COMPASS = 0)
    (hmem : (client, m) ∈ collect_client_masks data mask) (hm : m ≠ 0) :
    mask_has m PROP_ALL = !mask_has m PROP_ALL_COMPASS := by
  have heq : m = mask &&& claimed_bits data client := by
    rw [← collect_lookup, lookup_of_mem _ client m (collect_keys_nodup data mask) hmem]
  have hnot : ¬ (mask_has m PROP_ALL = true ∧ mask_has m PROP_ALL_COMPASS = true) := by
    rintro ⟨h1, h2⟩
    rw [heq] at h1 h2
    have g1 := mask_has_and_left _ _ _ h1
    have g2 := mask_has_and_left _ _ _ h2
    simp only [mask_has, bne_iff_ne, ne_eq] at g1 g2
    rcases hgroup with h | h
    · exact g1 h
    · exact g2 h
  have hsome : mask_has m PROP_ALL = true ∨ mask_has m PROP_ALL_COMPASS = true := by
    have hnamed : m &&& (PROP_ALL ||| PROP_ALL_COMPASS) = m := by
      rw [heq, Nat.and_assoc, claimed_bits_named]
    have : mask_has m (PROP_ALL ||| PROP_ALL_COMPASS) = true := by
      simp only [mask_has, hnamed, bne_iff_ne, ne_eq]
      exact hm
    rw [mask_has_or_right] at this
    simpa using this
  cases h1 : mask_has m PROP_ALL <;> cases h2 : mask_has m PROP_ALL_COMPASS <;> simp_all

/-- C9. For a publish mask that does not intersect both PROP_ALL and
PROP_ALL_COMPASS and a client whose entry in the table of client masks is
non-zero (the publish mask is then non-zero too), the emitter sends one signal to
that client. Its client mask intersects exactly one of the two groups. If it
intersects PROP_ALL the signal names net.hadess.SensorProxy on /net/hadess/SensorProxy
and every property of the payload, force-added ones included, is one that
`handle_get_property` of that interface answers; otherwise the signal names
net.hadess.SensorProxy.Compass on /net/hadess/SensorProxy/Compass and every property
of the payload is one that `handle_compass_get_property` answers. -/
theorem signal_names_interface_of_payload (data d : SensorData) (mask : Nat)
    (client : String) (m : Nat)
    (hgroup : mask &&& PROP_ALL = 0 ∨ mask &&& PROP_ALL_COMPASS = 0)
    (hmem : (client, m) ∈ collect_client_masks data mask) (hm : m ≠ 0)
    (hconn : d.connection = true) :
    (send_dbus_event_for_client d client m).2
        = [Effect.emit_signal client
            (if mask_has m PROP_ALL then "/net/hadess/SensorProxy"
              else "/net/hadess/SensorProxy/Compass")
            (if mask_has m PROP_ALL then "net.hadess.SensorProxy"
              else "net.hadess.SensorProxy.Compass")
            (build_props d m).props]
    ∧ (mask_has m PROP_ALL = true →
        mask_has m PROP_ALL_COMPASS = false
          ∧ ∀ p ∈ (build_props d m).props, (handle_get_property d p.1).isSome = true)
    ∧ (mask_has m PROP_ALL = false →
        mask_has m PROP_ALL_COMPASS = true
          ∧ ∀ p ∈ (build_props d m).props,
              (handle_compass_get_property d p.1).isSome = true) := by
  have hg := client_mask_groups data mask client m hgroup hmem hm
  obtain ⟨hprops, hmask, _⟩ := build_props_eq d m
  refine ⟨?_, ?_, ?_⟩
  · simp only [send_dbus_event_for_client, hmask, SENSOR_PROXY_DBUS_PATH,
      SENSOR_PROXY_COMPASS_DBUS_PATH, SENSOR_PROXY_IFACE_NAME, SENSOR_PROXY_COMPASS_IFACE_NAME]
  · intro hall
    have hc : mask_has m PROP_ALL_COMPASS = false := by simpa [hall] using hg
    refine ⟨hc, ?_⟩
    intro p hp
    rw [mask_has_all_compass, Bool.or_eq_false_iff] at hc
    rw [hprops] at hp
    have hce : compass_entries d m = [] := by simp [compass_entries, hc.1, hc.2]
    rw [hce, List.append_nil] at hp
    exact handle_get_property_names d hconn p m hp
  · intro hall
    have hc : mask_has m PROP_ALL_COMPASS = true := by simpa [hall] using hg
    refine ⟨hc, ?_⟩
    intro p hp
    rw [mask_has_all] at hall
    simp only [Bool.or_eq_false_iff] at hall
    obtain ⟨⟨⟨⟨⟨h0, h1⟩, h2⟩, h3⟩, h6⟩, h7⟩ := hall
    rw [hprops] at hp
    have ha : accel_entries d m = [] := by simp [accel_entries, h0, h1]
    have hl : light_entries d m = [] := by simp [light_entries, h2, h3]
    have hx : proximity_entries d m = [] := by simp [proximity_entries, h6, h7]
    rw [ha, hl, hx, List.nil_append, List.nil_append, List.append_nil] at hp
    exact handle_compass_get_property_names d hconn p m hp

/-- Witness for C9: client :1.7 holds Proximity only, PROP_HAS_PROXIMITY is
published; the entry of the client is PROP_HAS_PROXIMITY. -/
theorem signal_names_interface_of_payload_witness :
    ((PROP_HAS_PROXIMITY &&& PROP_ALL = 0 ∨ PROP_HAS_PROXIMITY &&& PROP_ALL_COMPASS = 0)
      ∧ (":1.7", PROP_HAS_PROXIMITY) ∈ collect_client_masks proximity_only_data PROP_HAS_PROXIMITY
      ∧ PROP_HAS_PROXIMITY ≠ 0
      ∧ proximity_only_data.connection = true)
    ∧ (send_dbus_event_for_client proximity_only_data ":1.7" PROP_HAS_PROXIMITY).2
        = [Effect.emit_signal ":1.7"
            (if mask_has PROP_HAS_PROXIMITY PROP_ALL then "/net/hadess/SensorProxy"
              else "/net/hadess/SensorProxy/Compass")
            (if mask_has PROP_HAS_PROXIMITY PROP_ALL then "net.hadess.SensorProxy"
              else "net.hadess.SensorProxy.Compass")
            (build_props proximity_only_data PROP_HAS_PROXIMITY).props] :=
  ⟨⟨by decide, by decide, by decide, by decide⟩,
    (signal_names_interface_of_payload proximity_only_data proximity_only_data
      PROP_HAS_PROXIMITY ":1.7" PROP_HAS_PROXIMITY (by decide) (by decide) (by decide)
      (by decide)).1⟩

/-! ## C10 -/

/-- C10. For every mask handed to `send_dbus_event_for_client`, the single signal it
emits carries the payload built by the eight blocks, and for each class X: if the
mask contains the HasX bit, the payload carries HasX with the availability flag of
X as value; if moreover the flag is true, the payload carries the value properties
of X with the stored values (AccelerometerOrientation; LightLevelUnit, LightLevel
and LightLevelAccumulator; CompassHeading; ProximityNear), whether or not the value
bit of X is in the mask; and if the flag is false and the value bit of X is not in
the mask, no value property of X is in the payload. -/
theorem has_bit_forces_value (data : SensorData) (destination_bus_name : String)
    (mask : Nat) :
    (∃ path iface, (send_dbus_event_for_client data destination_bus_name mask).2
        = [Effect.emit_signal destination_bus_name path iface (build_props data mask).props])
    ∧ (mask_has mask PROP_HAS_ACCELEROMETER = true →
        ("HasAccelerometer", Variant.boolean (driver_type_exists data DRIVER_TYPE_ACCEL))
            ∈ (build_props data mask).props
          ∧ (driver_type_exists data DRIVER_TYPE_ACCEL = true →
              ("AccelerometerOrientation",
                Variant.string (orientation_to_string data.previous_orientation))
                ∈ (build_props data mask).props)
          ∧ (driver_type_exists data DRIVER_TYPE_ACCEL = false →
              mask_has mask PROP_ACCELEROMETER_ORIENTATION = false →
              ∀ v, ("AccelerometerOrientation", v) ∉ (build_props data mask).props))
    ∧ (mask_has mask PROP_HAS_AMBIENT_LIGHT = true →
        ("HasAmbientLight", Variant.boolean (driver_type_exists data DRIVER_TYPE_LIGHT))
            ∈ (build_props data mask).props
          ∧ (driver_type_exists data DRIVER_TYPE_LIGHT = true →
              ("LightLevelUnit", Variant.string (if data.uses_lux then "lux" else "vendor"))
                  ∈ (build_props data mask).props
                ∧ ("LightLevel", Variant.double data.previous_level)
                  ∈ (build_props data mask).props
                ∧ ("LightLevelAccumulator", Variant.double data.previous_level_accumulator)
                  ∈ (build_props data mask).props)
          ∧ (driver_type_exists data DRIVER_TYPE_LIGHT = false →
              mask_has mask PROP_LIGHT_LEVEL = false →
              ∀ v, ("LightLevelUnit", v) ∉ (build_props data mask).props
                ∧ ("LightLevel", v) ∉ (build_props data mask).props
                ∧ ("LightLevelAccumulator", v) ∉ (build_props data mask).props))
    ∧ (mask_has mask PROP_HAS_COMPASS = true →
        ("HasCompass", Variant.boolean (driver_type_exists data DRIVER_TYPE_COMPASS))
            ∈ (build_props data mask).props
          ∧ (driver_type_exists data DRIVER_TYPE_COMPASS = true →
              ("CompassHeading", Variant.double data.previous_heading)
                ∈ (build_props data mask).props)
          ∧ (driver_type_exists data DRIVER_TYPE_COMPASS = false →
              mask_has mask PROP_COMPASS_HEADING = false →
              ∀ v, ("CompassHeading", v) ∉ (build_props data mask).props))
    ∧ (mask_has mask PROP_HAS_PROXIMITY = true →
        ("HasProximity", Variant.boolean (driver_type_exists data DRIVER_TYPE_PROXIMITY))
            ∈ (build_props data mask).props
          ∧ (driver_type_exists data DRIVER_TYPE_PROXIMITY = true →
              ("ProximityNear", Variant.boolean data.previous_prox_near)
                ∈ (build_props data mask).props)
          ∧ (driver_type_exists data DRIVER_TYPE_PROXIMITY = false →
              mask_has mask PROP_PROXIMITY_NEAR = false →
              ∀ v, ("ProximityNear", v) ∉ (build_props data mask).props)) := by
  obtain ⟨hprops, _, _⟩ := build_props_eq data mask
  refine ⟨⟨_, _, rfl⟩, ?_⟩
  rw [hprops]
  refine ⟨?_, ?_, ?_, ?_⟩
  · intro h
    refine ⟨?_, ?_, ?_⟩
    · simp [accel_entries, h]
    · intro hav
      simp [accel_entries, h, hav]
    · intro hav hv v
      simp [accel_entries, light_entries, compass_entries, proximity_entries, h, hav, hv]
  · intro h
    refine ⟨?_, ?_, ?_⟩
    · simp [light_entries, h]
    · intro hav
      simp [light_entries, h, hav]
    · intro hav hv v
      simp [accel_entries, light_entries, compass_entries, proximity_entries, h, hav, hv]
  · intro h
    refine ⟨?_, ?_, ?_⟩
    · simp [compass_entries, h]
    · intro hav
      simp [compass_entries, h, hav]
    · intro hav hv v
      simp [accel_entries, light_entries, compass_entries, proximity_entries, h, hav, hv]
  · intro h
    refine ⟨?_, ?_, ?_⟩
    · simp [proximity_entries, h]
    · intro hav
      simp [proximity_entries, h, hav]
    · intro hav hv v
      simp [accel_entries, light_entries, compass_entries, proximity_entries, h, hav, hv]

/-- Witness for C10: PROP_HAS_PROXIMITY is sent to :1.7 on the daemon with all
backends constructed. -/
theorem has_bit_forces_value_witness :
    (mask_has PROP_HAS_PROXIMITY PROP_HAS_PROXIMITY = true
      ∧ driver_type_exists sample_data DRIVER_TYPE_PROXIMITY = true)
    ∧ ("HasProximity", Variant.boolean (driver_type_exists sample_data DRIVER_TYPE_PROXIMITY))
        ∈ (build_props sample_data PROP_HAS_PROXIMITY).props
    ∧ ("ProximityNear", Variant.boolean sample_data.previous_prox_near)
        ∈ (build_props sample_data PROP_HAS_PROXIMITY).props :=
  ⟨⟨by decide, by decide⟩,
    ((has_bit_forces_value sample_data ":1.7" PROP_HAS_PROXIMITY).2.2.2.2 (by decide)).1,
    ((has_bit_forces_value sample_data ":1.7" PROP_HAS_PROXIMITY).2.2.2.2 (by decide)).2.1
      (by decide)⟩

/-! ## C11 -/

theorem replies_append (fx fy : List Effect) :
    replies (fx ++ fy) = replies fx ++ replies fy := by
  simp [replies]

theorem replies_start (s : Sensorfw) : replies s.start.2 = [] := by
  unfold Sensorfw.start
  split <;> simp [replies, Effect.is_reply]

theorem replies_stop (s : Sensorfw) : replies s.stop.2 = [] := by
  unfold Sensorfw.stop
  split <;> simp [replies, Effect.is_reply]

theorem replies_enable (data : SensorData) (c : DriverType) :
    replies (enable_sensorfw_events data c).2 = [] := by
  by_cases havail : driver_type_exists data c = true
  · cases hs : data.sensor c with
    | none =>
      cases c <;>
        simp_all [driver_type_exists, enable_sensorfw_events, SensorData.sensor, replies,
          Effect.is_reply]
    | some s =>
      rw [(enable_available data c s havail hs).2]
      have := replies_start s
      simp only [replies] at this ⊢
      simp [List.filter_cons, Effect.is_reply, this]
  · rw [enable_unavailable data c (by simpa using havail)]
    rfl

theorem replies_disable (data : SensorData) (c : DriverType) :
    replies (disable_sensorfw_events data c).2 = [] := by
  by_cases havail : driver_type_exists data c = true
  · cases hs : data.sensor c with
    | none =>
      cases c <;>
        simp_all [driver_type_exists, disable_sensorfw_events, SensorData.sensor, replies,
          Effect.is_reply]
    | some s =>
      rw [(disable_available data c s havail hs).2]
      have := replies_stop s
      simp only [replies] at this ⊢
      simp [List.filter_cons, Effect.is_reply, this]
  · rw [disable_unavailable data c (by simpa using havail)]
    rfl

theorem replies_release (data : SensorData) (sender : String) (c : DriverType) :
    replies (client_release data sender c).2 = [] := by
  by_cases hl : g_hash_table_lookup (data.clients c) sender = 0
  · rw [release_absent data sender c hl]
    rfl
  · rw [release_present data sender c hl]
    split
    · rw [replies_append, replies_destroyed, replies_disable]
      rfl
    · exact replies_destroyed _ _

theorem replies_claim (data : SensorData) (sender method_name : String) (c : DriverType)
    (watch_id : Nat) (hclaim : g_str_has_prefix method_name "Claim" = true) :
    replies (handle_generic_method_call data sender method_name c watch_id).2
      = [Effect.return_value] := by
  by_cases hl : g_hash_table_lookup (data.clients c) sender = 0
  · rw [claim_new data sender method_name c watch_id hclaim hl]
    simp only [replies_append, replies_destroyed]
    have h1 : replies (if g_hash_table_size (data.clients c) = 0
        then enable_sensorfw_events data c else (data, [])).2 = [] := by
      split
      · exact replies_enable data c
      · rfl
    rw [h1]
    simp [replies, Effect.is_reply]
  · rw [claim_held data sender method_name c watch_id hclaim hl]
    simp [replies, Effect.is_reply]

theorem replies_release_call (data : SensorData) (sender method_name : String)
    (c : DriverType) (watch_id : Nat)
    (hclaim : g_str_has_prefix method_name "Claim" = false)
    (hrel : g_str_has_prefix method_name "Release" = true) :
    replies (handle_generic_method_call data sender method_name c watch_id).2
      = [Effect.return_value] := by
  rw [release_call data sender method_name c watch_id hclaim hrel]
  simp only [replies_append, replies_release]
  simp [replies, Effect.is_reply]

/-- C11. A call of `handle_method_call` with a method name other than
ClaimAccelerometer, ReleaseAccelerometer, ClaimLight, ReleaseLight, ClaimProximity
and ReleaseProximity returns the state unchanged (registries and backends) and its
whole trace is one unknown-method error whose message is the method name between
quotes and the object path in the text of the source. The same holds for
`handle_compass_method_call` and every name other than ClaimCompass and
ReleaseCompass; so ClaimCompass on the core handler and ClaimLight on the compass
handler are rejected. For each accepted name the trace holds exactly one reply,
the success reply. -/
theorem unknown_method_rejected (data : SensorData) (sender object_path method_name : String)
    (watch_id : Nat) :
    (method_name ∉ ["ClaimAccelerometer", "ReleaseAccelerometer", "ClaimLight",
        "ReleaseLight", "ClaimProximity", "ReleaseProximity"] →
      handle_method_call data sender object_path method_name watch_id
        = (data, [Effect.return_error
            ("Method \x27" ++ method_name ++ "\x27 does not exist on object " ++ object_path)]))
    ∧ (method_name ∉ ["ClaimCompass", "ReleaseCompass"] →
      handle_compass_method_call data sender object_path method_name watch_id
        = (data, [Effect.return_error
            ("Method \x27" ++ method_name ++ "\x27 does not exist on object " ++ object_path)]))
    ∧ handle_method_call data sender object_path "ClaimCompass" watch_id
        = (data, [Effect.return_error
            ("Method \x27" ++ "ClaimCompass" ++ "\x27 does not exist on object " ++ object_path)])
    ∧ handle_compass_method_call data sender object_path "ClaimLight" watch_id
        = (data, [Effect.return_error
            ("Method \x27" ++ "ClaimLight" ++ "\x27 does not exist on object " ++ object_path)])
    ∧ (method_name ∈ ["ClaimAccelerometer", "ReleaseAccelerometer", "ClaimLight",
        "ReleaseLight", "ClaimProximity", "ReleaseProximity"] →
      replies (handle_method_call data sender object_path method_name watch_id).2
        = [Effect.return_value])
    ∧ (method_name ∈ ["ClaimCompass", "ReleaseCompass"] →
      replies (handle_compass_method_call data sender object_path method_name watch_id).2
        = [Effect.return_value]) := by
  refine ⟨?_, ?_, ?_, ?_, ?_, ?_⟩
  · intro h
    simp only [List.mem_cons, List.mem_singleton, List.not_mem_nil, or_false, not_or] at h
    obtain ⟨h1, h2, h3, h4, h5, h6⟩ := h
    simp [handle_method_call, h1, h2, h3, h4, h5, h6, unknown_method_message]
  · intro h
    simp only [List.mem_cons, List.mem_singleton, List.not_mem_nil, or_false, not_or] at h
    obtain ⟨h1, h2⟩ := h
    simp [handle_compass_method_call, h1, h2, unknown_method_message]
  · simp [handle_method_call, unknown_method_message]
  · simp [handle_compass_method_call, unknown_method_message]
  · intro h
    simp only [List.mem_cons, List.mem_singleton, List.not_mem_nil, or_false] at h
    rcases h with rfl | rfl | rfl | rfl | rfl | rfl
    · rw [show handle_method_call data sender object_path "ClaimAccelerometer" watch_id
          = handle_generic_method_call data sender "ClaimAccelerometer" DRIVER_TYPE_ACCEL
            watch_id by simp [handle_method_call]]
      exact replies_claim data sender _ _ watch_id (by decide)
    · rw [show handle_method_call data sender object_path "ReleaseAccelerometer" watch_id
          = handle_generic_method_call data sender "ReleaseAccelerometer" DRIVER_TYPE_ACCEL
            watch_id by simp [handle_method_call]]
      exact replies_release_call data sender _ _ watch_id (by decide) (by decide)
    · rw [show handle_method_call data sender object_path "ClaimLight" watch_id
          = handle_generic_method_call data sender "ClaimLight" DRIVER_TYPE_LIGHT
            watch_id by simp [handle_method_call]]
      exact replies_claim data sender _ _ watch_id (by decide)
    · rw [show handle_method_call data sender object_path "ReleaseLight" watch_id
          = handle_generic_method_call data sender "ReleaseLight" DRIVER_TYPE_LIGHT
            watch_id by simp [handle_method_call]]
      exact replies_release_call data sender _ _ watch_id (by decide) (by decide)
    · rw [show handle_method_call data sender object_path "ClaimProximity" watch_id
          = handle_generic_method_call data sender "ClaimProximity" DRIVER_TYPE_PROXIMITY
            watch_id by simp [handle_method_call]]
      exact replies_claim data sender _ _ watch_id (by decide)
    · rw [show handle_method_call data sender object_path "ReleaseProximity" watch_id
          = handle_generic_method_call data sender "ReleaseProximity" DRIVER_TYPE_PROXIMITY
            watch_id by simp [handle_method_call]]
      exact replies_release_call data sender _ _ watch_id (by decide) (by decide)
  · intro h
    simp only [List.mem_cons, List.mem_singleton, List.not_mem_nil, or_false] at h
    rcases h with rfl | rfl
    · rw [show handle_compass_method_call data sender object_path "ClaimCompass" watch_id
          = handle_generic_method_call data sender "ClaimCompass" DRIVER_TYPE_COMPASS
            watch_id by simp [handle_compass_method_call]]
      exact replies_claim data sender _ _ watch_id (by decide)
    · rw [show handle_compass_method_call data sender object_path "ReleaseCompass" watch_id
          = handle_generic_method_call data sender "ReleaseCompass" DRIVER_TYPE_COMPASS
            watch_id by simp [handle_compass_method_call]]
      exact replies_release_call data sender _ _ watch_id (by decide) (by decide)

/-- Witness for C11: client :1.7 calls the method Frobnicate on the core object and
ClaimLight on the core object of the freshly started daemon. -/
theorem unknown_method_rejected_witness :
    ("Frobnicate" ∉ ["ClaimAccelerometer", "ReleaseAccelerometer", "ClaimLight",
        "ReleaseLight", "ClaimProximity", "ReleaseProximity"]
      ∧ "ClaimLight" ∈ ["ClaimAccelerometer", "ReleaseAccelerometer", "ClaimLight",
        "ReleaseLight", "ClaimProximity", "ReleaseProximity"])
    ∧ handle_method_call sample_data ":1.7" "/net/hadess/SensorProxy" "Frobnicate" 1
        = (sample_data, [Effect.return_error
            ("Method \x27" ++ "Frobnicate" ++ "\x27 does not exist on object "
              ++ "/net/hadess/SensorProxy")])
    ∧ replies (handle_method_call sample_data ":1.7" "/net/hadess/SensorProxy"
        "ClaimLight" 1).2 = [Effect.return_value] :=
  ⟨⟨by decide, by decide⟩,
    (unknown_method_rejected sample_data ":1.7" "/net/hadess/SensorProxy" "Frobnicate" 1).1
      (by decide),
    (unknown_method_rejected sample_data ":1.7" "/net/hadess/SensorProxy" "ClaimLight" 1).2.2.2.2.1
      (by decide)⟩

/-! ## Publishing a value change leaves the state alone -/

theorem emitter_keeps_state (d : SensorData) (destination_bus_name : String) (m : Nat)
    (h : mask_has m PROP_HAS_ACCELEROMETER = false) :
    (send_dbus_event_for_client d destination_bus_name m).1 = d := by
  have := (build_props_eq d m).2.2
  simp only [send_dbus_event_for_client]
  rw [this]
  simp [h]

theorem send_fold_keeps_state (ht : GHashTable) (acc : SensorData × List Effect)
    (h : ∀ e ∈ ht, mask_has e.2 PROP_HAS_ACCELEROMETER = false) :
    (ht.foldl
      (fun acc kv =>
        ((send_dbus_event_for_client acc.1 kv.1 kv.2).1,
          acc.2 ++ (send_dbus_event_for_client acc.1 kv.1 kv.2).2)) acc).1 = acc.1 := by
  induction ht generalizing acc with
  | nil => rfl
  | cons e rest ih =>
    rw [List.foldl_cons, ih _ (fun e2 he2 => h e2 (List.mem_cons_of_mem _ he2))]
    exact emitter_keeps_state acc.1 e.1 e.2 (h e (List.mem_cons_self _ _))

theorem collect_values_submask (data : SensorData) (mask bit : Nat)
    (h : mask_has mask bit = false) :
    ∀ e ∈ collect_client_masks data mask, mask_has e.2 bit = false := by
  intro e he
  have heq : e.2 = mask &&& claimed_bits data e.1 := by
    rw [← collect_lookup, lookup_of_mem _ e.1 e.2 (collect_keys_nodup data mask) he]
  by_contra hne
  have ht : mask_has (mask &&& claimed_bits data e.1) bit = true := by
    rw [← heq]
    simpa using hne
  rw [mask_has_and_left _ _ _ ht] at h
  cases h

theorem publish_keeps_state (data : SensorData) (mask : Nat) (hnonzero : mask ≠ 0)
    (hgroup : mask &&& PROP_ALL = 0 ∨ mask &&& PROP_ALL_COMPASS = 0)
    (hacc : mask_has mask PROP_HAS_ACCELEROMETER = false) :
    ∃ fx, publish data mask = some { data := data, published := [mask], trace := fx } := by
  unfold publish send_dbus_event
  by_cases hconn : data.connection = false
  · exact ⟨[], by simp [hnonzero, hgroup, hconn]⟩
  · refine ⟨(send_to_clients data (collect_client_masks data mask)).2, ?_⟩
    have hst : (send_to_clients data (collect_client_masks data mask)).1 = data :=
      send_fold_keeps_state _ (data, []) (collect_values_submask data mask _ hacc)
    simp only [hnonzero, hgroup, hconn, if_false, not_true_eq_false, Option.map_some]
    simp [hst]

/-! ## The signals of one publish -/

theorem emitter_trace (d : SensorData) (destination_bus_name : String) (m : Nat) :
    (send_dbus_event_for_client d destination_bus_name m).2
      = [client_signal d (destination_bus_name, m)] := by
  simp only [send_dbus_event_for_client, client_signal, (build_props_eq d m).2.1]

theorem emitter_state (d : SensorData) (destination_bus_name : String) (m : Nat) :
    (send_dbus_event_for_client d destination_bus_name m).1
      = (if mask_has m PROP_HAS_ACCELEROMETER && !driver_type_exists d DRIVER_TYPE_ACCEL
          then orientation_reset d else d) := by
  simp only [send_dbus_event_for_client, orientation_reset]
  exact (build_props_eq d m).2.2

theorem client_signal_reset (d : SensorData) (e : String × Nat)
    (hun : driver_type_exists d DRIVER_TYPE_ACCEL = false)
    (hco : mask_has e.2 PROP_ACCELEROMETER_ORIENTATION = true →
      mask_has e.2 PROP_HAS_ACCELEROMETER = true) :
    client_signal (orientation_reset d) e = client_signal d e := by
  simp only [client_signal]
  rw [(build_props_eq _ _).1, (build_props_eq _ _).1]
  have hun2 : driver_type_exists (orientation_reset d) DRIVER_TYPE_ACCEL = false := hun
  have hl : light_entries (orientation_reset d) e.2 = light_entries d e.2 := rfl
  have hc : compass_entries (orientation_reset d) e.2 = compass_entries d e.2 := rfl
  have hp : proximity_entries (orientation_reset d) e.2 = proximity_entries d e.2 := rfl
  have ha : accel_entries (orientation_reset d) e.2 = accel_entries d e.2 := by
    simp only [accel_entries, hun, hun2, Bool.and_false, Bool.false_or, Bool.not_false,
      Bool.and_true]
    by_cases ho : mask_has e.2 PROP_ACCELEROMETER_ORIENTATION = true
    · simp [ho, hco ho]
    · simp [ho]
  rw [hl, hc, hp, ha]

theorem send_fold_trace (data : SensorData) (ht : GHashTable) (acc : SensorData × List Effect)
    (hco : ∀ e ∈ ht,
      (mask_has e.2 PROP_HAS_ACCELEROMETER && !driver_type_exists data DRIVER_TYPE_ACCEL) = true →
      ∀ e2 ∈ ht, mask_has e2.2 PROP_ACCELEROMETER_ORIENTATION = true →
        mask_has e2.2 PROP_HAS_ACCELEROMETER = true)
    (hacc : acc.1 = data ∨
      (acc.1 = orientation_reset data ∧ driver_type_exists data DRIVER_TYPE_ACCEL = false
        ∧ ∀ e2 ∈ ht, mask_has e2.2 PROP_ACCELEROMETER_ORIENTATION = true →
            mask_has e2.2 PROP_HAS_ACCELEROMETER = true)) :
    (ht.foldl
      (fun acc kv =>
        ((send_dbus_event_for_client acc.1 kv.1 kv.2).1,
          acc.2 ++ (send_dbus_event_for_client acc.1 kv.1 kv.2).2)) acc).2
      = acc.2 ++ ht.map (client_signal data) := by
  induction ht generalizing acc with
  | nil => simp
  | cons e rest ih =>
    rw [List.foldl_cons, ih]
    · simp only [emitter_trace, List.map_cons, List.append_assoc, List.singleton_append]
      rcases hacc with h | ⟨h, hun, hall⟩
      · rw [h]
      · rw [h, client_signal_reset data e hun (hall e (List.mem_cons_self _ _))]
    · intro e1 he1 hb e2 he2
      exact hco e1 (List.mem_cons_of_mem _ he1) hb e2 (List.mem_cons_of_mem _ he2)
    · simp only [emitter_state]
      rcases hacc with h | ⟨h, hun, hall⟩
      · rw [h]
        by_cases hb : (mask_has e.2 PROP_HAS_ACCELEROMETER
            && !driver_type_exists data DRIVER_TYPE_ACCEL) = true
        · right
          have hb2 := hb
          simp only [Bool.and_eq_true, Bool.not_eq_true'] at hb2
          refine ⟨by simp [hb], hb2.2, ?_⟩
          · intro e2 he2
            exact hco e (List.mem_cons_self _ _) hb e2 (List.mem_cons_of_mem _ he2)
        · left
          simp [hb]
      · right
        refine ⟨?_, hun, fun e2 he2 => hall e2 (List.mem_cons_of_mem _ he2)⟩
        rw [h]
        split_ifs <;> rfl

theorem claimed_orientation_has (data : SensorData) (client : String) :
    mask_has (claimed_bits data client) PROP_ACCELEROMETER_ORIENTATION = true →
      claimed_bits data client &&& PROP_HAS_ACCELEROMETER = PROP_HAS_ACCELEROMETER := by
  simp only [claimed_bits, all_driver_types, List.filter_cons, List.filter_nil]
  split_ifs <;> decide

theorem collect_entry (data : SensorData) (mask : Nat) (e : String × Nat)
    (he : e ∈ collect_client_masks data mask) :
    e.2 = mask &&& claimed_bits data e.1 := by
  rw [← collect_lookup, lookup_of_mem _ e.1 e.2 (collect_keys_nodup data mask) he]

theorem collect_coherent (data : SensorData) (mask : Nat)
    (h : mask_has mask PROP_HAS_ACCELEROMETER = true) :
    ∀ e ∈ collect_client_masks data mask,
      mask_has e.2 PROP_ACCELEROMETER_ORIENTATION = true →
        mask_has e.2 PROP_HAS_ACCELEROMETER = true := by
  intro e he ho
  rw [collect_entry data mask e he] at ho ⊢
  have hcb : mask_has (claimed_bits data e.1) PROP_ACCELEROMETER_ORIENTATION = true := by
    rw [Nat.and_comm] at ho
    exact mask_has_and_left _ _ _ ho
  have hhas := claimed_orientation_has data e.1 hcb
  simp only [mask_has] at h ⊢
  rw [Nat.and_assoc, hhas]
  exact h

theorem send_dbus_event_trace (data : SensorData) (mask : Nat) (hnonzero : mask ≠ 0)
    (hgroup : mask &&& PROP_ALL = 0 ∨ mask &&& PROP_ALL_COMPASS = 0) :
    (send_dbus_event data mask).map Prod.snd
      = some (if data.connection = true
          then (collect_client_masks data mask).map (client_signal data) else []) := by
  unfold send_dbus_event
  by_cases hconn : data.connection = false
  · simp [hnonzero, hgroup, hconn]
  · have htrace : (send_to_clients data (collect_client_masks data mask)).2
        = (collect_client_masks data mask).map (client_signal data) := by
      unfold send_to_clients
      rw [send_fold_trace data _ (data, []) ?_ (Or.inl rfl)]
      · rfl
      · intro e he hb
        have hb2 := hb
        simp only [Bool.and_eq_true] at hb2
        have hm : mask_has mask PROP_HAS_ACCELEROMETER = true := by
          have := hb2.1
          rw [collect_entry data mask e he] at this
          exact mask_has_and_left _ _ _ this
        exact collect_coherent data mask hm
    simp only [hnonzero, hgroup, hconn, if_false, not_true_eq_false, Option.map_some]
    simp only [Bool.not_eq_false] at hconn
    simp [htrace, hconn]

theorem publish_exact (data : SensorData) (mask : Nat) (hnonzero : mask ≠ 0)
    (hgroup : mask &&& PROP_ALL = 0 ∨ mask &&& PROP_ALL_COMPASS = 0)
    (hacc : mask_has mask PROP_HAS_ACCELEROMETER = false) :
    publish data mask
      = some { data := data, published := [mask],
               trace := if data.connection = true
                 then (collect_client_masks data mask).map (client_signal data) else [] } := by
  obtain ⟨fx, hfx⟩ := publish_keeps_state data mask hnonzero hgroup hacc
  have ht := send_dbus_event_trace data mask hnonzero hgroup
  rw [hfx]
  unfold publish at hfx
  cases hs : send_dbus_event data mask with
  | none => rw [hs] at hfx; cases hfx
  | some r =>
    rw [hs] at hfx ht
    simp only [Option.map, Option.some.injEq, HandlerResult.mk.injEq] at hfx ht
    rw [← ht, hfx.2.2]

/-! ## The signals of a value change -/

theorem orientation_client_mask (data : SensorData) (client : String) :
    PROP_ACCELEROMETER_ORIENTATION &&& claimed_bits data client
      = (if g_hash_table_contains (data.clients DRIVER_TYPE_ACCEL) client = true
          then PROP_ACCELEROMETER_ORIENTATION else 0) := by
  simp only [claimed_bits, all_driver_types, List.filter_cons, List.filter_nil]
  split_ifs <;> decide

theorem light_level_client_mask (data : SensorData) (client : String) :
    PROP_LIGHT_LEVEL &&& claimed_bits data client
      = (if g_hash_table_contains (data.clients DRIVER_TYPE_LIGHT) client = true
          then PROP_LIGHT_LEVEL else 0) := by
  simp only [claimed_bits, all_driver_types, List.filter_cons, List.filter_nil]
  split_ifs <;> decide

theorem orientation_payload (d : SensorData) :
    (build_props d PROP_ACCELEROMETER_ORIENTATION).props
      = [("AccelerometerOrientation",
          Variant.string (orientation_to_string d.previous_orientation))] := by
  have hb := forced_bits
  rw [(build_props_eq d PROP_ACCELEROMETER_ORIENTATION).1]
  simp [accel_entries, light_entries, compass_entries, proximity_entries, hb]

theorem empty_payload (d : SensorData) : (build_props d 0).props = [] := by
  have h0 : ∀ b, mask_has 0 b = false := by
    intro b
    simp [mask_has]
  rw [(build_props_eq d 0).1]
  simp [accel_entries, light_entries, compass_entries, proximity_entries, h0]

theorem orientation_signals (d : SensorData) (o : OrientationUp) :
    (collect_client_masks d PROP_ACCELEROMETER_ORIENTATION).map
        (client_signal { d with previous_orientation := o })
      = (collect_client_masks d PROP_ACCELEROMETER_ORIENTATION).map
          (fun e =>
            Effect.emit_signal e.1
              (if g_hash_table_contains (d.clients DRIVER_TYPE_ACCEL) e.1 = true
                then "/net/hadess/SensorProxy" else "/net/hadess/SensorProxy/Compass")
              (if g_hash_table_contains (d.clients DRIVER_TYPE_ACCEL) e.1 = true
                then "net.hadess.SensorProxy" else "net.hadess.SensorProxy.Compass")
              (if g_hash_table_contains (d.clients DRIVER_TYPE_ACCEL) e.1 = true
                then [("AccelerometerOrientation", Variant.string (orientation_to_string o))]
                else [])) := by
  apply List.map_congr_left
  intro e he
  have hm := collect_entry d PROP_ACCELEROMETER_ORIENTATION e he
  rw [orientation_client_mask] at hm
  have h1 : mask_has PROP_ACCELEROMETER_ORIENTATION PROP_ALL = true := by decide
  have h0 : mask_has 0 PROP_ALL = false := by decide
  by_cases hc : g_hash_table_contains (d.clients DRIVER_TYPE_ACCEL) e.1 = true
  · rw [if_pos hc] at hm
    simp only [client_signal, hm, if_pos hc, h1, if_true, orientation_payload]
    rfl
  · rw [if_neg hc] at hm
    simp only [client_signal, hm, if_neg hc, h0, empty_payload]
    rfl

theorem signals_to_append (client : String) (fx fy : List Effect) :
    signals_to client (fx ++ fy) = signals_to client fx ++ signals_to client fy := by
  simp [signals_to]

theorem signals_to_absent (client : String) (ht : GHashTable) (g : String × Nat → Effect)
    (hg : ∀ e, ∃ p i f, g e = Effect.emit_signal e.1 p i f)
    (h : client ∉ g_hash_table_get_keys ht) :
    signals_to client (ht.map g) = [] := by
  induction ht with
  | nil => rfl
  | cons e rest ih =>
    simp only [g_hash_table_get_keys, List.map_cons, List.mem_cons, not_or] at h
    have ih2 := ih (by simpa [g_hash_table_get_keys] using h.2)
    obtain ⟨p, i, f, hge⟩ := hg e
    simp only [signals_to, List.map_cons] at ih2 ⊢
    rw [List.filter_cons_of_neg, ih2]
    rw [hge]
    simpa using Ne.symm h.1

theorem signals_to_present (client : String) (ht : GHashTable) (g : String × Nat → Effect)
    (hg : ∀ e, ∃ p i f, g e = Effect.emit_signal e.1 p i f)
    (hnd : (g_hash_table_get_keys ht).Nodup) (h : client ∈ g_hash_table_get_keys ht) :
    signals_to client (ht.map g) = [g (client, g_hash_table_lookup ht client)] := by
  induction ht with
  | nil => simp [g_hash_table_get_keys] at h
  | cons e rest ih =>
    obtain ⟨k, v⟩ := e
    simp only [g_hash_table_get_keys, List.map_cons, List.nodup_cons, List.mem_cons] at hnd h
    by_cases hk : k = client
    · subst hk
      have habs := signals_to_absent k rest g hg hnd.1
      obtain ⟨p, i, f, hge⟩ := hg (k, v)
      simp only [signals_to, List.map_cons] at habs ⊢
      rw [List.filter_cons_of_pos, habs]
      · simp [g_hash_table_lookup]
      · rw [hge]
        simp
    · have hin : client ∈ g_hash_table_get_keys rest := by
        rcases h with h | h
        · exact absurd h.symm hk
        · exact h
      have ih2 := ih hnd.2 hin
      obtain ⟨p, i, f, hge⟩ := hg (k, v)
      simp only [signals_to, List.map_cons] at ih2 ⊢
      rw [List.filter_cons_of_neg, ih2]
      · simp [g_hash_table_lookup, hk]
      · rw [hge]
        simpa using hk

theorem client_signal_form (d : SensorData) :
    ∀ e : String × Nat, ∃ p i f, client_signal d e = Effect.emit_signal e.1 p i f :=
  fun _ => ⟨_, _, _, rfl⟩

/-! ## C7 -/

/-- C7. For a publish mask that passes the two assertions and a state with a bus
connection, `send_dbus_event` calls the per-client emitter once for each entry of
the table of client masks and for nothing else. Every call of the emitter emits
exactly one signal, addressed to the client of the pair and built from the mask of
the pair (`client_signal`). The signals `send_dbus_event` emits are, in the order
of the table, those of its entries: an identity present in at least one of the four
registries is sent exactly one signal, the one for the pair of that identity and
the publish mask ANDed with the union of `mask_for_sensor_type c` over the classes
whose registry holds it, and an identity in no registry is sent none. The keys of
the table are pairwise distinct and are exactly the identities present in at least
one registry (so a client in several registries has one entry), and the mask stored
for a client is the publish mask ANDed with the union of `mask_for_sensor_type c`
over the classes whose registry holds the client. -/
theorem publish_one_mask_per_client (data : SensorData) (mask : Nat)
    (hnonzero : mask ≠ 0)
    (hgroup : mask &&& PROP_ALL = 0 ∨ mask &&& PROP_ALL_COMPASS = 0)
    (hconn : data.connection = true) :
    send_dbus_event data mask
        = some (send_to_clients data (collect_client_masks data mask))
    ∧ (∀ (d : SensorData) (client : String) (m : Nat),
        (send_dbus_event_for_client d client m).2 = [client_signal d (client, m)])
    ∧ (∃ r, send_dbus_event data mask = some r
        ∧ r.2 = (collect_client_masks data mask).map (client_signal data)
        ∧ (∀ client : String,
            (∃ c, g_hash_table_contains (data.clients c) client = true) →
            signals_to client r.2
              = [client_signal data (client, mask &&& claimed_bits data client)])
        ∧ (∀ client : String,
            (∀ c, g_hash_table_contains (data.clients c) client = false) →
            signals_to client r.2 = []))
    ∧ (g_hash_table_get_keys (collect_client_masks data mask)).Nodup
    ∧ (∀ client : String,
        client ∈ g_hash_table_get_keys (collect_client_masks data mask)
          ↔ ∃ c, g_hash_table_contains (data.clients c) client = true)
    ∧ ∀ (client : String) (m : Nat), (client, m) ∈ collect_client_masks data mask →
        m = mask &&& claimed_bits data client := by
  have hkeys : ∀ client : String,
      client ∈ g_hash_table_get_keys (collect_client_masks data mask)
        ↔ ∃ c, g_hash_table_contains (data.clients c) client = true := by
    intro client
    rw [collect_keys_mem]
    simp only [contains_iff_mem_keys]
  refine ⟨?_, emitter_trace, ?_, collect_keys_nodup data mask, hkeys, ?_⟩
  · simp [send_dbus_event, hnonzero, hgroup, hconn]
  · have ht := send_dbus_event_trace data mask hnonzero hgroup
    rw [if_pos hconn] at ht
    cases hs : send_dbus_event data mask with
    | none => rw [hs] at ht; cases ht
    | some r =>
      rw [hs] at ht
      simp only [Option.map, Option.some.injEq] at ht
      refine ⟨r, rfl, ht, ?_, ?_⟩
      · intro client hc
        rw [ht, signals_to_present client _ _ (client_signal_form data)
          (collect_keys_nodup data mask) ((hkeys client).mpr hc), collect_lookup]
      · intro client hc
        rw [ht]
        apply signals_to_absent client _ _ (client_signal_form data)
        rw [hkeys]
        rintro ⟨c, hcc⟩
        rw [hc c] at hcc
        cases hcc
  · intro client m hmem
    rw [← collect_lookup, lookup_of_mem _ client m (collect_keys_nodup data mask) hmem]

/-- Witness for C7: client :1.7 holds the accelerometer and the light sensor, client
:1.9 holds the light sensor, and the availability of both classes is published. The
table has one entry for each client, with masks 5 and 4, and each client is sent
one signal. -/
theorem publish_one_mask_per_client_witness :
    (PROP_HAS_ACCELEROMETER ||| PROP_HAS_AMBIENT_LIGHT ≠ 0
      ∧ ((PROP_HAS_ACCELEROMETER ||| PROP_HAS_AMBIENT_LIGHT) &&& PROP_ALL = 0
          ∨ (PROP_HAS_ACCELEROMETER ||| PROP_HAS_AMBIENT_LIGHT) &&& PROP_ALL_COMPASS = 0)
      ∧ two_clients_data.connection = true)
    ∧ (∃ r, send_dbus_event two_clients_data (PROP_HAS_ACCELEROMETER ||| PROP_HAS_AMBIENT_LIGHT)
          = some r
        ∧ r.2 = (collect_client_masks two_clients_data
                  (PROP_HAS_ACCELEROMETER ||| PROP_HAS_AMBIENT_LIGHT)).map
                  (client_signal two_clients_data))
    ∧ collect_client_masks two_clients_data (PROP_HAS_ACCELEROMETER ||| PROP_HAS_AMBIENT_LIGHT)
        = [(":1.7", 5), (":1.9", 4)]
    ∧ (send_dbus_event two_clients_data (PROP_HAS_ACCELEROMETER ||| PROP_HAS_AMBIENT_LIGHT)).map
          Prod.snd
        = some [Effect.emit_signal ":1.7" "/net/hadess/SensorProxy" "net.hadess.SensorProxy"
                  [("HasAccelerometer", Variant.boolean true),
                   ("AccelerometerOrientation", Variant.string "undefined"),
                   ("HasAmbientLight", Variant.boolean true),
                   ("LightLevelUnit", Variant.string "lux"),
                   ("LightLevel", Variant.double 0),
                   ("LightLevelAccumulator", Variant.double 0)],
                Effect.emit_signal ":1.9" "/net/hadess/SensorProxy" "net.hadess.SensorProxy"
                  [("HasAmbientLight", Variant.boolean true),
                   ("LightLevelUnit", Variant.string "lux"),
                   ("LightLevel", Variant.double 0),
                   ("LightLevelAccumulator", Variant.double 0)]] :=
  ⟨⟨by decide, by decide, by decide⟩,
    (publish_one_mask_per_client two_clients_data
      (PROP_HAS_ACCELEROMETER ||| PROP_HAS_AMBIENT_LIGHT)
      (by decide) (by decide) (by decide)).2.2.1.imp (fun _ h => ⟨h.1, h.2.1⟩),
    by decide, by decide⟩

/-! ## C12 -/

theorem orientation_handler_step (d : SensorData) (value : OrientationData) :
    ∃ r, orientation_handler d value = some r
      ∧ r.data.previous_orientation = orientation_of_sample d.previous_orientation value
      ∧ r.published
        = (if orientation_of_sample d.previous_orientation value ≠ d.previous_orientation
            then [PROP_ACCELEROMETER_ORIENTATION] else []) := by
  unfold orientation_handler
  by_cases h : d.previous_orientation = orientation_of_sample d.previous_orientation value
  · refine ⟨{ data := d, published := [], trace := [] }, ?_, h, ?_⟩
    · simp [← h]
    · simp [← h]
  · obtain ⟨fx, hfx⟩ := publish_keeps_state
      { d with previous_orientation := orientation_of_sample d.previous_orientation value }
      PROP_ACCELEROMETER_ORIENTATION (by decide) (by decide) (by decide)
    refine ⟨{ data := { d with previous_orientation :=
                          orientation_of_sample d.previous_orientation value },
              published := [PROP_ACCELEROMETER_ORIENTATION], trace := fx }, ?_, rfl, ?_⟩
    · simp only [ne_eq, h, not_false_eq_true, if_true]
      exact hfx
    · simp [Ne.symm h]

theorem orientation_handler_exact (d : SensorData) (value : OrientationData) :
    orientation_handler d value
      = some
        (if orientation_of_sample d.previous_orientation value ≠ d.previous_orientation then
          { data := { d with previous_orientation :=
                        orientation_of_sample d.previous_orientation value }
            published := [PROP_ACCELEROMETER_ORIENTATION]
            trace :=
              if d.connection = true then
                (collect_client_masks d PROP_ACCELEROMETER_ORIENTATION).map
                  (fun e =>
                    Effect.emit_signal e.1
                      (if g_hash_table_contains (d.clients DRIVER_TYPE_ACCEL) e.1 = true
                        then "/net/hadess/SensorProxy" else "/net/hadess/SensorProxy/Compass")
                      (if g_hash_table_contains (d.clients DRIVER_TYPE_ACCEL) e.1 = true
                        then "net.hadess.SensorProxy" else "net.hadess.SensorProxy.Compass")
                      (if g_hash_table_contains (d.clients DRIVER_TYPE_ACCEL) e.1 = true
                        then [("AccelerometerOrientation",
                                Variant.string (orientation_to_string
                                  (orientation_of_sample d.previous_orientation value)))]
                        else []))
              else [] }
        else { data := d, published := [], trace := [] }) := by
  unfold orientation_handler
  by_cases h : d.previous_orientation = orientation_of_sample d.previous_orientation value
  · simp [← h]
  · simp only [ne_eq, h, not_false_eq_true, if_true, Ne.symm h]
    rw [publish_exact _ PROP_ACCELEROMETER_ORIENTATION (by decide) (by decide) (by decide)]
    have hs := orientation_signals d (orientation_of_sample d.previous_orientation value)
    refine congrArg some (congrArg (HandlerResult.mk _ _) ?_)
    show (if d.connection = true then
        (collect_client_masks d PROP_ACCELEROMETER_ORIENTATION).map
          (client_signal { d with previous_orientation :=
                            orientation_of_sample d.previous_orientation value })
        else []) = _
    rw [hs]

theorem accel_client_in_table (d : SensorData) (client : String)
    (h : g_hash_table_contains (d.clients DRIVER_TYPE_ACCEL) client = true) :
    client ∈ g_hash_table_get_keys (collect_client_masks d PROP_ACCELEROMETER_ORIENTATION) := by
  rw [collect_keys_mem]
  exact ⟨DRIVER_TYPE_ACCEL, (contains_iff_mem_keys _ _).mp h⟩

theorem orientation_step_signals (d : SensorData) (value : OrientationData) :
    ∃ r, orientation_handler d value = some r
      ∧ r.data.connection = d.connection
      ∧ r.data.clients = d.clients
      ∧ r.data.previous_orientation = orientation_of_sample d.previous_orientation value
      ∧ r.published
        = (if orientation_of_sample d.previous_orientation value ≠ d.previous_orientation
            then [PROP_ACCELEROMETER_ORIENTATION] else [])
      ∧ ∀ client : String, d.connection = true →
          g_hash_table_contains (d.clients DRIVER_TYPE_ACCEL) client = true →
          signals_to client r.trace
            = (if r.published = [] then []
                else [Effect.emit_signal client "/net/hadess/SensorProxy" "net.hadess.SensorProxy"
                  [("AccelerometerOrientation",
                    Variant.string (orientation_to_string r.data.previous_orientation))]]) := by
  by_cases h : orientation_of_sample d.previous_orientation value = d.previous_orientation
  · have hr : orientation_handler d value = some { data := d, published := [], trace := [] } := by
      rw [orientation_handler_exact]
      simp [h]
    refine ⟨_, hr, rfl, rfl, h.symm, ?_, ?_⟩
    · simp [h]
    · intro client _ _
      simp [signals_to]
  · have hr := orientation_handler_exact d value
    rw [if_pos h] at hr
    refine ⟨_, hr, rfl, rfl, rfl, ?_, ?_⟩
    · simp [h]
    · intro client hconn hc
      simp only [if_pos hconn]
      rw [signals_to_present client _ _ (fun _ => ⟨_, _, _, rfl⟩)
        (collect_keys_nodup d PROP_ACCELEROMETER_ORIENTATION) (accel_client_in_table d client hc)]
      simp [hc]

theorem orientation_signal_injective (client : String) (a b : OrientationUp) (h : a ≠ b) :
    Effect.emit_signal client "/net/hadess/SensorProxy" "net.hadess.SensorProxy"
        [("AccelerometerOrientation", Variant.string (orientation_to_string a))]
      ≠ Effect.emit_signal client "/net/hadess/SensorProxy" "net.hadess.SensorProxy"
        [("AccelerometerOrientation", Variant.string (orientation_to_string b))] := by
  cases a <;> cases b <;> first | exact absurd rfl h | simp [orientation_to_string]

theorem orientation_run_signals (data : SensorData) (samples : List OrientationData) :
    ∃ r l, orientation_handler_run data samples = some r
      ∧ orientation_notifications data samples = some l
      ∧ List.Chain (fun a b => a ≠ b) data.previous_orientation l
      ∧ ∀ client : String, data.connection = true →
          g_hash_table_contains (data.clients DRIVER_TYPE_ACCEL) client = true →
          signals_to client r.2
            = l.map (fun o =>
                Effect.emit_signal client "/net/hadess/SensorProxy" "net.hadess.SensorProxy"
                  [("AccelerometerOrientation", Variant.string (orientation_to_string o))]) := by
  induction samples generalizing data with
  | nil => exact ⟨(data, []), [], rfl, rfl, List.Chain.nil, fun _ _ _ => rfl⟩
  | cons value rest ih =>
    obtain ⟨r, hr, hcon, hcl, hprev, hpub, hval⟩ := orientation_step_signals data value
    obtain ⟨q, l, hq, hl, hchain, hrest⟩ := ih r.data
    simp only [orientation_handler_run, orientation_notifications, hr, hq, hl, Option.map_some]
    refine ⟨_, _, rfl, rfl, ?_, ?_⟩
    · by_cases hc : orientation_of_sample data.previous_orientation value
          = data.previous_orientation
      · rw [hpub]
        simp only [hc, ne_eq, not_true_eq_false, if_false, if_true]
        rw [hprev, hc] at hchain
        exact hchain
      · rw [hpub]
        simp only [hc, ne_eq, not_false_eq_true, if_true, List.cons_ne_nil, if_false]
        rw [hprev] at hchain ⊢
        exact List.Chain.cons (Ne.symm hc) hchain
    · intro client hconn hc
      rw [signals_to_append, hval client hconn hc,
        hrest client (hcon.trans hconn) (by rw [hcl]; exact hc)]
      by_cases hp : r.published = []
      · simp [hp]
      · simp [hp]

/-- C12. The switch of the orientation handler maps LeftUp, RightUp, BottomUp and
BottomDown to left-up, right-up, bottom-up and normal, every other value that is
not a face value to undefined, and FaceUp and FaceDown to the stored orientation.
From any state the handler returns. When the mapped orientation differs from the
stored one it stores the mapped orientation and calls `send_dbus_event` once, with
PROP_ACCELEROMETER_ORIENTATION, after the store: with a bus connection the trace is
one signal for each entry of the table of client masks, and the signal for a client
that holds the accelerometer is on the core interface and carries
AccelerometerOrientation = the name of the mapped orientation (a client that holds
other classes only is sent an empty signal). When the mapped orientation equals the
stored one, in particular for every FaceUp or FaceDown sample, the handler changes
nothing, publishes nothing and its trace is empty. For every sequence of samples
the handler returns on each; the orientations carried by the successive
notifications form a chain in which the first differs from the initially stored
orientation and each differs from the one before; and, with a bus connection, the
signals sent to a client that holds the accelerometer are exactly these
notifications, one signal carrying each orientation of the chain, in order, so that
no two consecutive signals are equal. -/
theorem orientation_notified_on_change (data : SensorData) (samples : List OrientationData) :
    (∀ p : OrientationUp,
        orientation_to_string (orientation_of_sample p OrientationData.LeftUp) = "left-up"
        ∧ orientation_to_string (orientation_of_sample p OrientationData.RightUp) = "right-up"
        ∧ orientation_to_string (orientation_of_sample p OrientationData.BottomUp) = "bottom-up"
        ∧ orientation_to_string (orientation_of_sample p OrientationData.BottomDown) = "normal"
        ∧ orientation_to_string (orientation_of_sample p OrientationData.Undefined) = "undefined"
        ∧ orientation_of_sample p OrientationData.FaceUp = p
        ∧ orientation_of_sample p OrientationData.FaceDown = p)
    ∧ (∀ (d : SensorData) (value : OrientationData),
        orientation_handler d value
          = some
            (if orientation_of_sample d.previous_orientation value ≠ d.previous_orientation
              then
                { data := { d with previous_orientation :=
                              orientation_of_sample d.previous_orientation value }
                  published := [PROP_ACCELEROMETER_ORIENTATION]
                  trace :=
                    if d.connection = true then
                      (collect_client_masks d PROP_ACCELEROMETER_ORIENTATION).map
                        (fun e =>
                          Effect.emit_signal e.1
                            (if g_hash_table_contains (d.clients DRIVER_TYPE_ACCEL) e.1 = true
                              then "/net/hadess/SensorProxy"
                              else "/net/hadess/SensorProxy/Compass")
                            (if g_hash_table_contains (d.clients DRIVER_TYPE_ACCEL) e.1 = true
                              then "net.hadess.SensorProxy"
                              else "net.hadess.SensorProxy.Compass")
                            (if g_hash_table_contains (d.clients DRIVER_TYPE_ACCEL) e.1 = true
                              then [("AccelerometerOrientation",
                                      Variant.string (orientation_to_string
                                        (orientation_of_sample d.previous_orientation value)))]
                              else []))
                    else [] }
              else { data := d, published := [], trace := [] }))
    ∧ (∀ (d : SensorData) (value : OrientationData),
        ∃ r, orientation_handler d value = some r
          ∧ r.data.previous_orientation = orientation_of_sample d.previous_orientation value
          ∧ r.published
            = (if orientation_of_sample d.previous_orientation value ≠ d.previous_orientation
                then [PROP_ACCELEROMETER_ORIENTATION] else [])
          ∧ ∀ client : String, d.connection = true →
              g_hash_table_contains (d.clients DRIVER_TYPE_ACCEL) client = true →
              signals_to client r.trace
                = (if orientation_of_sample d.previous_orientation value
                      ≠ d.previous_orientation
                    then [Effect.emit_signal client "/net/hadess/SensorProxy"
                      "net.hadess.SensorProxy"
                      [("AccelerometerOrientation",
                        Variant.string (orientation_to_string
                          (orientation_of_sample d.previous_orientation value)))]]
                    else []))
    ∧ (∀ d : SensorData,
        orientation_handler d OrientationData.FaceUp
            = some { data := d, published := [], trace := [] }
          ∧ orientation_handler d OrientationData.FaceDown
            = some { data := d, published := [], trace := [] })
    ∧ (∃ l, orientation_notifications data samples = some l
        ∧ List.Chain (fun a b => a ≠ b) data.previous_orientation l)
    ∧ ∃ r l, orientation_handler_run data samples = some r
        ∧ orientation_notifications data samples = some l
        ∧ ∀ client : String, data.connection = true →
            g_hash_table_contains (data.clients DRIVER_TYPE_ACCEL) client = true →
            signals_to client r.2
                = l.map (fun o =>
                    Effect.emit_signal client "/net/hadess/SensorProxy" "net.hadess.SensorProxy"
                      [("AccelerometerOrientation", Variant.string (orientation_to_string o))])
              ∧ List.Chain' (fun a b => a ≠ b) (signals_to client r.2) := by
  obtain ⟨r, l, hr, hl, hchain, hsig⟩ := orientation_run_signals data samples
  refine ⟨fun p => ⟨rfl, rfl, rfl, rfl, rfl, rfl, rfl⟩, orientation_handler_exact, ?_, ?_,
    ⟨l, hl, hchain⟩, r, l, hr, hl, ?_⟩
  · intro d value
    obtain ⟨r2, hr2, _, _, hprev, hpub, hval⟩ := orientation_step_signals d value
    refine ⟨r2, hr2, hprev, hpub, ?_⟩
    intro client hconn hc
    rw [hval client hconn hc, hpub, hprev]
    by_cases h : orientation_of_sample d.previous_orientation value = d.previous_orientation
    · simp [h]
    · simp [h]
  · intro d
    constructor <;> simp [orientation_handler, orientation_of_sample]
  · intro client hconn hc
    refine ⟨hsig client hconn hc, ?_⟩
    rw [hsig client hconn hc]
    have h2 := List.chain_map_of_chain
      (fun o => Effect.emit_signal client "/net/hadess/SensorProxy" "net.hadess.SensorProxy"
        [("AccelerometerOrientation", Variant.string (orientation_to_string o))])
      (orientation_signal_injective client) hchain
    exact List.Chain'.tail (l := _ :: _) h2

/-- Witness for C12: client :1.7 holds the accelerometer, the stored orientation is
undefined and the samples are LeftUp, FaceUp, LeftUp, RightUp: :1.7 is sent left-up,
then right-up. -/
theorem orientation_notified_on_change_witness :
    (accel_only_data.connection = true
      ∧ g_hash_table_contains (accel_only_data.clients DRIVER_TYPE_ACCEL) ":1.7" = true)
    ∧ (∃ r l, orientation_handler_run accel_only_data
          [OrientationData.LeftUp, OrientationData.FaceUp, OrientationData.LeftUp,
            OrientationData.RightUp] = some r
        ∧ orientation_notifications accel_only_data
          [OrientationData.LeftUp, OrientationData.FaceUp, OrientationData.LeftUp,
            OrientationData.RightUp] = some l
        ∧ signals_to ":1.7" r.2
          = l.map (fun o =>
              Effect.emit_signal ":1.7" "/net/hadess/SensorProxy" "net.hadess.SensorProxy"
                [("AccelerometerOrientation", Variant.string (orientation_to_string o))]))
    ∧ (orientation_handler_run accel_only_data
          [OrientationData.LeftUp, OrientationData.FaceUp, OrientationData.LeftUp,
            OrientationData.RightUp]).map (fun r => signals_to ":1.7" r.2)
        = some [Effect.emit_signal ":1.7" "/net/hadess/SensorProxy" "net.hadess.SensorProxy"
                  [("AccelerometerOrientation", Variant.string "left-up")],
                Effect.emit_signal ":1.7" "/net/hadess/SensorProxy" "net.hadess.SensorProxy"
                  [("AccelerometerOrientation", Variant.string "right-up")]] :=
  ⟨⟨by decide, by decide⟩,
    (orientation_notified_on_change accel_only_data
      [OrientationData.LeftUp, OrientationData.FaceUp, OrientationData.LeftUp,
        OrientationData.RightUp]).2.2.2.2.2.imp
      (fun _ h => h.imp
        (fun _ h2 => ⟨h2.1, h2.2.1, (h2.2.2 ":1.7" (by decide) (by decide)).1⟩)),
    by decide⟩

/-! ## C13 -/

theorem light_handler_changed (data : SensorData) (light_accumulator light : ℚ)
    (h : data.previous_level ≠ light) :
    ∃ fx, light_handler data light_accumulator light
      = some ({ data :=
                  { data with
                      previous_level_accumulator :=
                        (1 - alpha) * light_accumulator + alpha * light
                      previous_level := light }
                published := [PROP_LIGHT_LEVEL], trace := fx },
              (1 - alpha) * light_accumulator + alpha * light) := by
  obtain ⟨fx, hfx⟩ := publish_keeps_state
    { data with
        previous_level_accumulator := (1 - alpha) * light_accumulator + alpha * light
        previous_level := light }
    PROP_LIGHT_LEVEL (by decide) (by decide) (by decide)
  refine ⟨fx, ?_⟩
  simp only [light_handler, ne_eq, h, not_false_eq_true, if_true, hfx]
  rfl

theorem light_handler_same (data : SensorData) (light_accumulator light : ℚ)
    (h : data.previous_level = light) :
    light_handler data light_accumulator light
      = some ({ data := data, published := [], trace := [] }, light_accumulator) := by
  simp [light_handler, h]

theorem light_client_mask (data : SensorData) (client : String)
    (h : g_hash_table_contains (data.clients DRIVER_TYPE_LIGHT) client = true) :
    PROP_LIGHT_LEVEL &&& claimed_bits data client = PROP_LIGHT_LEVEL := by
  simp only [claimed_bits, all_driver_types, List.filter_cons, List.filter_nil, h, if_true]
  split_ifs <;> decide

theorem light_level_payload (d : SensorData) :
    (build_props d PROP_LIGHT_LEVEL).props
      = [("LightLevelUnit", Variant.string (if d.uses_lux then "lux" else "vendor")),
         ("LightLevel", Variant.double d.previous_level),
         ("LightLevelAccumulator", Variant.double d.previous_level_accumulator)] := by
  have hb := forced_bits
  rw [(build_props_eq d PROP_LIGHT_LEVEL).1]
  simp [accel_entries, light_entries, compass_entries, proximity_entries, hb]

theorem light_signals (d : SensorData) (level accumulator : ℚ) :
    (collect_client_masks d PROP_LIGHT_LEVEL).map
        (client_signal
          { d with previous_level_accumulator := accumulator, previous_level := level })
      = (collect_client_masks d PROP_LIGHT_LEVEL).map
          (fun e =>
            Effect.emit_signal e.1
              (if g_hash_table_contains (d.clients DRIVER_TYPE_LIGHT) e.1 = true
                then "/net/hadess/SensorProxy" else "/net/hadess/SensorProxy/Compass")
              (if g_hash_table_contains (d.clients DRIVER_TYPE_LIGHT) e.1 = true
                then "net.hadess.SensorProxy" else "net.hadess.SensorProxy.Compass")
              (if g_hash_table_contains (d.clients DRIVER_TYPE_LIGHT) e.1 = true
                then [("LightLevelUnit",
                        Variant.string (if d.uses_lux then "lux" else "vendor")),
                      ("LightLevel", Variant.double level),
                      ("LightLevelAccumulator", Variant.double accumulator)]
                else [])) := by
  apply List.map_congr_left
  intro e he
  have hm := collect_entry d PROP_LIGHT_LEVEL e he
  rw [light_level_client_mask] at hm
  have h1 : mask_has PROP_LIGHT_LEVEL PROP_ALL = true := by decide
  have h0 : mask_has 0 PROP_ALL = false := by decide
  by_cases hc : g_hash_table_contains (d.clients DRIVER_TYPE_LIGHT) e.1 = true
  · rw [if_pos hc] at hm
    simp only [client_signal, hm, if_pos hc, h1, if_true, light_level_payload]
    rfl
  · rw [if_neg hc] at hm
    simp only [client_signal, hm, if_neg hc, h0, empty_payload]
    rfl

theorem light_handler_exact (data : SensorData) (light_accumulator light : ℚ)
    (h : data.previous_level ≠ light) :
    light_handler data light_accumulator light
      = some ({ data :=
                  { data with
                      previous_level_accumulator :=
                        (1 - alpha) * light_accumulator + alpha * light
                      previous_level := light }
                published := [PROP_LIGHT_LEVEL]
                trace :=
                  if data.connection = true then
                    (collect_client_masks data PROP_LIGHT_LEVEL).map
                      (fun e =>
                        Effect.emit_signal e.1
                          (if g_hash_table_contains (data.clients DRIVER_TYPE_LIGHT) e.1 = true
                            then "/net/hadess/SensorProxy"
                            else "/net/hadess/SensorProxy/Compass")
                          (if g_hash_table_contains (data.clients DRIVER_TYPE_LIGHT) e.1 = true
                            then "net.hadess.SensorProxy"
                            else "net.hadess.SensorProxy.Compass")
                          (if g_hash_table_contains (data.clients DRIVER_TYPE_LIGHT) e.1 = true
                            then [("LightLevelUnit",
                                    Variant.string (if data.uses_lux then "lux" else "vendor")),
                                  ("LightLevel", Variant.double light),
                                  ("LightLevelAccumulator",
                                    Variant.double
                                      ((1 - alpha) * light_accumulator + alpha * light))]
                            else []))
                  else [] },
              (1 - alpha) * light_accumulator + alpha * light) := by
  simp only [light_handler, ne_eq, h, not_false_eq_true, if_true]
  rw [publish_exact _ PROP_LIGHT_LEVEL (by decide) (by decide) (by decide)]
  have hs := light_signals data light ((1 - alpha) * light_accumulator + alpha * light)
  simp only [Option.map_some]
  refine congrArg some (congrArg (fun r => (r, _)) (congrArg (HandlerResult.mk _ _) ?_))
  show (if data.connection = true then
      (collect_client_masks data PROP_LIGHT_LEVEL).map
        (client_signal
          { data with
              previous_level_accumulator := (1 - alpha) * light_accumulator + alpha * light
              previous_level := light })
      else []) = _
  rw [hs]

theorem light_client_in_table (d : SensorData) (client : String)
    (h : g_hash_table_contains (d.clients DRIVER_TYPE_LIGHT) client = true) :
    client ∈ g_hash_table_get_keys (collect_client_masks d PROP_LIGHT_LEVEL) := by
  rw [collect_keys_mem]
  exact ⟨DRIVER_TYPE_LIGHT, (contains_iff_mem_keys _ _).mp h⟩

/-- C13. Over exact rationals, with the static accumulator of the handler equal to
the stored accumulator `a` (both are 0 at startup and the handler writes them
together): if the sample `s` differs from the stored level, the light handler
stores level `s` and accumulator `(1 - 0.5) * a + 0.5 * s` (also in its static),
leaves everything else as it was and calls `send_dbus_event` once, with
PROP_LIGHT_LEVEL, after the two stores: with a bus connection the trace is one
signal for each entry of the table of client masks, and a client that holds the
light class is sent exactly one signal, on the core interface, carrying
LightLevelUnit, LightLevel = `s` and LightLevelAccumulator = the new accumulator (a
client that holds other classes only is sent an empty signal). If the sample equals
the stored level, the state and the static are unchanged, nothing is published and
the trace is empty. For every state the table of a PROP_LIGHT_LEVEL publish has the
entry PROP_LIGHT_LEVEL for a client that holds the light class, and the emitter
builds the signal of that entry from the stored level and accumulator. -/
theorem light_published_on_change (data : SensorData) (light_accumulator light : ℚ)
    (hsync : light_accumulator = data.previous_level_accumulator) :
    (data.previous_level ≠ light →
      light_handler data light_accumulator light
        = some ({ data :=
                    { data with
                        previous_level_accumulator :=
                          (1 - 1 / 2) * data.previous_level_accumulator + 1 / 2 * light
                        previous_level := light }
                  published := [PROP_LIGHT_LEVEL]
                  trace :=
                    if data.connection = true then
                      (collect_client_masks data PROP_LIGHT_LEVEL).map
                        (fun e =>
                          Effect.emit_signal e.1
                            (if g_hash_table_contains (data.clients DRIVER_TYPE_LIGHT) e.1 = true
                              then "/net/hadess/SensorProxy"
                              else "/net/hadess/SensorProxy/Compass")
                            (if g_hash_table_contains (data.clients DRIVER_TYPE_LIGHT) e.1 = true
                              then "net.hadess.SensorProxy"
                              else "net.hadess.SensorProxy.Compass")
                            (if g_hash_table_contains (data.clients DRIVER_TYPE_LIGHT) e.1 = true
                              then [("LightLevelUnit",
                                      Variant.string (if data.uses_lux then "lux" else "vendor")),
                                    ("LightLevel", Variant.double light),
                                    ("LightLevelAccumulator",
                                      Variant.double
                                        ((1 - 1 / 2) * data.previous_level_accumulator
                                          + 1 / 2 * light))]
                              else []))
                    else [] },
                (1 - 1 / 2) * data.previous_level_accumulator + 1 / 2 * light))
    ∧ (data.previous_level ≠ light →
        ∀ client : String, data.connection = true →
          g_hash_table_contains (data.clients DRIVER_TYPE_LIGHT) client = true →
          ∃ r, light_handler data light_accumulator light = some r
            ∧ signals_to client r.1.trace
              = [Effect.emit_signal client "/net/hadess/SensorProxy" "net.hadess.SensorProxy"
                  [("LightLevelUnit",
                      Variant.string (if data.uses_lux then "lux" else "vendor")),
                   ("LightLevel", Variant.double light),
                   ("LightLevelAccumulator",
                      Variant.double
                        ((1 - 1 / 2) * data.previous_level_accumulator + 1 / 2 * light))]])
    ∧ (data.previous_level = light →
      light_handler data light_accumulator light
        = some ({ data := data, published := [], trace := [] }, light_accumulator))
    ∧ (∀ (d : SensorData) (client : String),
        g_hash_table_contains (d.clients DRIVER_TYPE_LIGHT) client = true →
        client ∈ g_hash_table_get_keys (collect_client_masks d PROP_LIGHT_LEVEL)
          ∧ (∀ m, (client, m) ∈ collect_client_masks d PROP_LIGHT_LEVEL → m = PROP_LIGHT_LEVEL)
          ∧ (send_dbus_event_for_client d client PROP_LIGHT_LEVEL).2
            = [Effect.emit_signal client "/net/hadess/SensorProxy" "net.hadess.SensorProxy"
                [("LightLevelUnit", Variant.string (if d.uses_lux then "lux" else "vendor")),
                 ("LightLevel", Variant.double d.previous_level),
                 ("LightLevelAccumulator", Variant.double d.previous_level_accumulator)]]) := by
  have hexact : data.previous_level ≠ light → _ := fun h => by
    have he := light_handler_exact data light_accumulator light h
    rw [hsync] at he
    exact he
  refine ⟨?_, ?_, light_handler_same data light_accumulator light, ?_⟩
  · intro h
    rw [hsync, hexact h]
    rfl
  · intro h client hconn hc
    refine ⟨_, by rw [hsync]; exact hexact h, ?_⟩
    simp only [if_pos hconn]
    rw [signals_to_present client _ _ (fun _ => ⟨_, _, _, rfl⟩)
      (collect_keys_nodup data PROP_LIGHT_LEVEL) (light_client_in_table data client hc)]
    simp only [hc, if_true]
    rfl
  · intro d client hc
    refine ⟨light_client_in_table d client hc, ?_, ?_⟩
    · intro m hm
      have heq : m = PROP_LIGHT_LEVEL &&& claimed_bits d client := by
        rw [← collect_lookup,
          lookup_of_mem _ client m (collect_keys_nodup d PROP_LIGHT_LEVEL) hm]
      rw [heq, light_client_mask d client hc]
    · have hall : mask_has (build_props d PROP_LIGHT_LEVEL).mask PROP_ALL = true := by
        rw [(build_props_eq d PROP_LIGHT_LEVEL).2.1]
        decide
      simp only [send_dbus_event_for_client, hall, if_true, light_level_payload,
        SENSOR_PROXY_DBUS_PATH, SENSOR_PROXY_IFACE_NAME]

/-- Witness for C13: client :1.7 holds the light class, the stored level and both
accumulators are 0, and the sample is 2: :1.7 is sent one signal with LightLevel 2
and the new accumulator, 1. -/
theorem light_published_on_change_witness :
    ((0 : ℚ) = light_only_data.previous_level_accumulator
      ∧ light_only_data.previous_level ≠ 2
      ∧ light_only_data.connection = true
      ∧ g_hash_table_contains (light_only_data.clients DRIVER_TYPE_LIGHT) ":1.7" = true)
    ∧ (∃ r, light_handler light_only_data 0 2 = some r
        ∧ signals_to ":1.7" r.1.trace
          = [Effect.emit_signal ":1.7" "/net/hadess/SensorProxy" "net.hadess.SensorProxy"
              [("LightLevelUnit",
                  Variant.string (if light_only_data.uses_lux then "lux" else "vendor")),
               ("LightLevel", Variant.double 2),
               ("LightLevelAccumulator",
                  Variant.double
                    ((1 - 1 / 2) * light_only_data.previous_level_accumulator + 1 / 2 * 2))]])
    ∧ collect_client_masks light_only_data PROP_LIGHT_LEVEL = [(":1.7", PROP_LIGHT_LEVEL)]
    ∧ (light_handler light_only_data 0 2).map (fun r => (r.1.published, r.1.trace, r.2))
        = some ([PROP_LIGHT_LEVEL],
            [Effect.emit_signal ":1.7" "/net/hadess/SensorProxy" "net.hadess.SensorProxy"
              [("LightLevelUnit", Variant.string "lux"), ("LightLevel", Variant.double 2),
               ("LightLevelAccumulator", Variant.double 1)]], 1) :=
  ⟨⟨by decide, by decide, by decide, by decide⟩,
    (light_published_on_change light_only_data 0 2 (by decide)).2.1 (by decide) ":1.7"
      (by decide) (by decide),
    by decide,
    by
      have h : (light_handler light_only_data 0 2).map
            (fun r => (r.1.published, r.1.trace, r.2))
          = some ([PROP_LIGHT_LEVEL],
              [Effect.emit_signal ":1.7" "/net/hadess/SensorProxy" "net.hadess.SensorProxy"
                [("LightLevelUnit", Variant.string "lux"), ("LightLevel", Variant.double 2),
                 ("LightLevelAccumulator", Variant.double ((1 - alpha) * 0 + alpha * 2))]],
              (1 - alpha) * 0 + alpha * 2) := rfl
      rw [h]
      norm_num [alpha]⟩

/-! ## C14 -/

theorem light_run_same (data : SensorData) (light_accumulator level : ℚ) (n : Nat)
    (h : data.previous_level = level) :
    light_handler_run data light_accumulator (List.replicate n level)
      = some (data, light_accumulator) := by
  induction n with
  | zero => rfl
  | succ k ih =>
    simp only [List.replicate_succ, light_handler_run,
      light_handler_same data light_accumulator level h]
    exact ih

theorem light_run_replicate (data : SensorData) (light_accumulator level : ℚ) (n : Nat)
    (h : data.previous_level ≠ level) :
    light_handler_run data light_accumulator (List.replicate (n + 1) level)
      = some ({ data with
                  previous_level_accumulator :=
                    (1 - alpha) * light_accumulator + alpha * level
                  previous_level := level },
              (1 - alpha) * light_accumulator + alpha * level) := by
  obtain ⟨fx, hfx⟩ := light_handler_changed data light_accumulator level h
  simp only [List.replicate_succ, light_handler_run, hfx]
  exact light_run_same _ _ level n rfl

theorem ema_step_formula (a level : ℚ) :
    (1 - alpha) * a + alpha * level = level - (level - a) / 2 := by
  unfold alpha
  ring

/-- C14, the claim as stated fails. Stored level 0, accumulator 0, and the sample 2
fed twice (N = 2, L = 2, A0 = 0): the second sample equals the stored level and is
skipped, so the accumulator is 1 after both, while L - (L - A0) / 2^N is 3/2. -/
theorem repeated_samples_accumulator_counterexample :
    sample_data.previous_level = 0
    ∧ (light_handler_run sample_data 0 (List.replicate 2 2)).map Prod.snd = some 1
    ∧ (2 : ℚ) - (2 - 0) / 2 ^ 2 ≠ 1 := by
  refine ⟨rfl, ?_, by norm_num⟩
  rw [light_run_replicate sample_data 0 2 1 (by decide)]
  simp only [Option.map_some']
  unfold alpha
  norm_num

/-- C14 as amended. For every N >= 1, every level L and every starting accumulator
A0, after the light handler is fed N identical samples of value L: if L differs
from the level stored before the first sample, the accumulator (the static and the
stored one) equals L - (L - A0) / 2, whatever N is, because only the first sample
updates it; if L equals the stored level, the accumulator is still A0. The stored
level is L afterwards. -/
theorem repeated_samples_accumulator (data : SensorData) (a0 level : ℚ) (n : Nat)
    (hn : 1 ≤ n) (hsync : a0 = data.previous_level_accumulator) :
    ∃ d, light_handler_run data a0 (List.replicate n level)
        = some (d, if data.previous_level = level then a0 else level - (level - a0) / 2)
      ∧ d.previous_level = level
      ∧ d.previous_level_accumulator
        = (if data.previous_level = level then a0 else level - (level - a0) / 2) := by
  obtain ⟨k, rfl⟩ : ∃ k, n = k + 1 := ⟨n - 1, by omega⟩
  by_cases h : data.previous_level = level
  · refine ⟨data, ?_, h, ?_⟩
    · rw [light_run_same data a0 level (k + 1) h]
      simp [h]
    · simp [h, hsync]
  · refine ⟨{ data with
                previous_level_accumulator := (1 - alpha) * a0 + alpha * level
                previous_level := level }, ?_, rfl, ?_⟩
    · rw [light_run_replicate data a0 level k h, ema_step_formula]
      simp [h]
    · simp only [h, if_false]
      exact ema_step_formula a0 level

/-- Witness for C14 as amended: stored level 0, accumulator 0, the sample 2 fed three
times. -/
theorem repeated_samples_accumulator_witness :
    (1 ≤ 3 ∧ (0 : ℚ) = sample_data.previous_level_accumulator)
    ∧ ∃ d, light_handler_run sample_data 0 (List.replicate 3 2)
        = some (d, if sample_data.previous_level = 2 then 0 else 2 - (2 - 0) / 2)
      ∧ d.previous_level = 2
      ∧ d.previous_level_accumulator
        = (if sample_data.previous_level = 2 then 0 else 2 - (2 - 0) / 2) :=
  ⟨⟨by decide, by decide⟩, repeated_samples_accumulator sample_data 0 2 3 (by decide) (by decide)⟩

/-! ## C15 -/

/-- C15, evaluation of the code at the failing input. Client :1.7 holds Proximity,
the stored value is far (`previous_prox_near` false) and the sample is far again: the
handler still calls `send_dbus_event` with PROP_PROXIMITY_NEAR and :1.7 receives a
signal carrying ProximityNear = false. For every state and sample the handler
stores the value of the sample and publishes once, without comparing. -/
theorem proximity_repeated_sample_published :
    proximity_only_data.previous_prox_near = false
    ∧ (proximity_handler proximity_only_data ProximityState.far).map
        (fun r => (r.data.previous_prox_near, r.published, r.trace))
      = some (false, [PROP_PROXIMITY_NEAR],
          [Effect.emit_signal ":1.7" "/net/hadess/SensorProxy" "net.hadess.SensorProxy"
            [("ProximityNear", Variant.boolean false)]])
    ∧ ∀ (data : SensorData) (state : ProximityState),
        ∃ fx, proximity_handler data state
          = some { data := { data with
                               previous_prox_near := decide (state = ProximityState.near) }
                   published := [PROP_PROXIMITY_NEAR], trace := fx } := by
  refine ⟨by decide, by decide, ?_⟩
  intro data state
  exact publish_keeps_state _ PROP_PROXIMITY_NEAR (by decide) (by decide) (by decide)

/-! ## C16 -/

theorem load_loop_count (plugin : String) (outcome : Nat → Option Bool) (n a : Nat) :
    (load_plugin_loop plugin outcome n a).2.count (Effect.load_plugin_call plugin) ≤ n := by
  induction n generalizing a with
  | zero => simp [load_plugin_loop]
  | succ m ih =>
    unfold load_plugin_loop
    split
    · simp
    · have := ih (a + 1)
      simp only [List.count_cons_self, ge_iff_le]
      rw [List.count_cons_of_ne (by simp)]
      omega

theorem load_loop_true_iff (plugin : String) (outcome : Nat → Option Bool) (n a : Nat) :
    (load_plugin_loop plugin outcome n a).1 = true
      ↔ ∃ k, k < n ∧ outcome (a + k) = some true := by
  induction n generalizing a with
  | zero => simp [load_plugin_loop]
  | succ m ih =>
    unfold load_plugin_loop
    split
    · rename_i h
      simp only [true_iff]
      exact ⟨0, by omega, by simpa using h⟩
    · rename_i h
      simp only
      rw [ih (a + 1)]
      constructor
      · rintro ⟨k, hk, ho⟩
        exact ⟨k + 1, by omega, by rw [← ho]; congr 1; omega⟩
      · rintro ⟨k, hk, ho⟩
        cases k with
        | zero => exact absurd (by simpa using ho) h
        | succ j => exact ⟨j, by omega, by rw [← ho]; congr 1; omega⟩

theorem load_loop_first (plugin : String) (outcome : Nat → Option Bool) (n a k : Nat)
    (hk : k < n) (ho : outcome (a + k) = some true)
    (hfirst : ∀ j, j < k → outcome (a + j) ≠ some true) :
    (load_plugin_loop plugin outcome n a).2.count (Effect.load_plugin_call plugin) = k + 1 := by
  induction n generalizing a k with
  | zero => omega
  | succ m ih =>
    unfold load_plugin_loop
    cases k with
    | zero =>
      have h0 : outcome a = some true := by simpa using ho
      simp [h0]
    | succ j =>
      have hne : outcome a ≠ some true := by simpa using hfirst 0 (by omega)
      split
      · rename_i h
        exact absurd h hne
      · have := ih (a + 1) j (by omega) (by rw [← ho]; congr 1; omega)
          (fun i hi => by
            have := hfirst (i + 1) (by omega)
            rwa [show a + (i + 1) = a + 1 + i by omega] at this)
        simp only [List.count_cons_self]
        rw [List.count_cons_of_ne (by simp), this]

theorem load_loop_effects (plugin : String) (outcome : Nat → Option Bool) (n a : Nat) :
    ∀ e ∈ (load_plugin_loop plugin outcome n a).2,
      e = Effect.load_plugin_call plugin ∨ e = Effect.sleep_one_second := by
  induction n generalizing a with
  | zero => simp [load_plugin_loop]
  | succ m ih =>
    unfold load_plugin_loop
    split
    · simp
    · intro e he
      simp only [List.mem_cons] at he
      rcases he with rfl | rfl | he
      · exact Or.inl rfl
      · exact Or.inr rfl
      · exact ih (a + 1) e he

/-- C16. For every sequence of loadPlugin outcomes, `load_plugin` (a total function:
the loop runs at most `max_attempts` = 5 times) makes at most 5 loadPlugin calls;
it returns true if and only if one of the first 5 calls returned true; if call
number k (counted from 0) is the first that returned true, it made exactly k + 1
calls. When none of the first 5 calls returned true, the constructor throws (the
result is `none`) and its whole trace consists of loadPlugin calls and one-second
sleeps: no requestSensor call and no channel handshake. -/
theorem load_plugin_retry_bound (s : Sensorfw) (outcome : Nat → Option Bool) :
    (s.load_plugin outcome).2.count (Effect.load_plugin_call s.plugin_string) ≤ 5
    ∧ ((s.load_plugin outcome).1 = true ↔ ∃ k, k < 5 ∧ outcome k = some true)
    ∧ (∀ k, k < 5 → outcome k = some true → (∀ j, j < k → outcome j ≠ some true) →
        (s.load_plugin outcome).2.count (Effect.load_plugin_call s.plugin_string) = k + 1)
    ∧ ∀ (plugin : PluginType) (pid indeterminate : Int) (request_reply : Option Int),
        (∀ k, k < 5 → outcome k ≠ some true) →
        (Sensorfw.create plugin pid indeterminate outcome request_reply).1 = none
          ∧ ∀ e ∈ (Sensorfw.create plugin pid indeterminate outcome request_reply).2,
              (∃ name, e = Effect.load_plugin_call name) ∨ e = Effect.sleep_one_second := by
  refine ⟨load_loop_count _ outcome 5 0, ?_, ?_, ?_⟩
  · have := load_loop_true_iff s.plugin_string outcome 5 0
    simpa only [Nat.zero_add] using this
  · intro k hk ho hfirst
    exact load_loop_first s.plugin_string outcome 5 0 k hk (by simpa using ho)
      (fun j hj => by simpa using hfirst j hj)
  · intro plugin pid indeterminate request_reply hnone
    have hfalse : ∀ s2 : Sensorfw, (s2.load_plugin outcome).1 = false := by
      intro s2
      by_contra hne
      have ht : (s2.load_plugin outcome).1 = true := by simpa using hne
      obtain ⟨k, hk, ho⟩ := (load_loop_true_iff s2.plugin_string outcome 5 0).mp ht
      exact hnone k hk (by simpa using ho)
    simp only [Sensorfw.create, hfalse, Bool.not_false, if_true, true_and]
    intro e he
    rcases load_loop_effects _ outcome 5 0 e he with h | h
    · exact Or.inl ⟨_, h⟩
    · exact Or.inr h

/-- Witness for C16: the orientation backend; the first two loadPlugin calls fail or
return false and the third returns true. -/
theorem load_plugin_retry_bound_witness :
    (2 < 5 ∧ (fun k : Nat => if k = 2 then some true else if k = 0 then none else some false) 2
        = some true
      ∧ ∀ j, j < 2 →
          (fun k : Nat => if k = 2 then some true else if k = 0 then none else some false) j
            ≠ some true)
    ∧ ((Sensorfw.constructed PluginType.ORIENTATION 100 3).load_plugin
        (fun k : Nat => if k = 2 then some true else if k = 0 then none else some false)).2.count
        (Effect.load_plugin_call (Sensorfw.constructed PluginType.ORIENTATION 100 3).plugin_string)
      = 2 + 1 :=
  ⟨⟨by decide, by decide, by decide⟩,
    (load_plugin_retry_bound (Sensorfw.constructed PluginType.ORIENTATION 100 3)
      (fun k : Nat => if k = 2 then some true else if k = 0 then none else some false)).2.2.1
      2 (by decide) (by decide) (by decide)⟩

/-! ## C17 -/

/-- C17. `Sensorfw::start` on a running session returns the session unchanged with an
empty trace (no start call, no read thread), and `Sensorfw::stop` on a session that
is not running returns it unchanged with an empty trace (no stop call). Hence a
second start right after a start, and a second stop right after a stop, change
nothing and do nothing. After stop the running flag is false and after start it is
true; the reply of the stop (or start) call, success or failure, changes neither the
resulting session nor the calls made, only a log line. -/
theorem start_stop_idempotent (s : Sensorfw) :
    (s.m_running = true → s.start = (s, []))
    ∧ (s.m_running = false → s.stop = (s, []))
    ∧ s.start.1.start = (s.start.1, [])
    ∧ s.stop.1.stop = (s.stop.1, [])
    ∧ s.start.1.m_running = true
    ∧ s.stop.1.m_running = false
    ∧ (∀ call_succeeded : Bool,
        (s.stop_logged call_succeeded).1 = s.stop.1
          ∧ (s.stop_logged call_succeeded).2.1 = s.stop.2
          ∧ (s.stop_logged call_succeeded).1.m_running = false)
    ∧ ∀ call_succeeded : Bool,
        (s.start_logged call_succeeded).1 = s.start.1
          ∧ (s.start_logged call_succeeded).2.1 = s.start.2
          ∧ (s.start_logged call_succeeded).1.m_running = true := by
  refine ⟨?_, ?_, ?_, ?_, start_running s, stop_running s, ?_, ?_⟩
  · intro h
    simp [Sensorfw.start, h]
  · intro h
    simp [Sensorfw.stop, h]
  · have h := start_running s
    generalize s.start.1 = t at h
    simp [Sensorfw.start, h]
  · have h := stop_running s
    generalize s.stop.1 = t at h
    simp [Sensorfw.stop, h]
  · intro ok
    cases h : s.m_running <;> simp [Sensorfw.stop_logged, Sensorfw.stop, h]
  · intro ok
    cases h : s.m_running <;> simp [Sensorfw.start_logged, Sensorfw.start, h]

/-- Witness for C17: the constructed orientation backend, which is not running, is
stopped; the same backend once started is started again. -/
theorem start_stop_idempotent_witness :
    ((Sensorfw.constructed PluginType.ORIENTATION 100 3).m_running = false
      ∧ (Sensorfw.constructed PluginType.ORIENTATION 100 3).start.1.m_running = true)
    ∧ (Sensorfw.constructed PluginType.ORIENTATION 100 3).stop
        = (Sensorfw.constructed PluginType.ORIENTATION 100 3, [])
    ∧ (Sensorfw.constructed PluginType.ORIENTATION 100 3).start.1.start
        = ((Sensorfw.constructed PluginType.ORIENTATION 100 3).start.1, []) :=
  ⟨⟨by decide, by decide⟩,
    (start_stop_idempotent (Sensorfw.constructed PluginType.ORIENTATION 100 3)).2.1 (by decide),
    (start_stop_idempotent (Sensorfw.constructed PluginType.ORIENTATION 100 3).start.1).1
      (by decide)⟩

/-! ## C18 -/

/-- C18, evaluation of the code at the failing input. loadPlugin returns true at the
first call and the requestSensor call fails. Construction completes, but
`m_sessionid` is never assigned: it keeps what the memory of the object held, here
7 in one run and 12345 in another, and that value goes to the channel handshake.
For every initial content the session id after construction is that content; the
later start call passes the same value. -/
theorem session_id_indeterminate_after_failed_request :
    Sensorfw.create PluginType.PROXIMITY 100 7 (fun _ => some true) none
      = (some { m_plugin := PluginType.PROXIMITY, m_pid := 100, m_sessionid := 7,
                m_running := false },
          [Effect.load_plugin_call "proximitysensor",
           Effect.request_sensor_call "proximitysensor" 100,
           Effect.initiate_connection 7])
    ∧ Sensorfw.create PluginType.PROXIMITY 100 12345 (fun _ => some true) none
      = (some { m_plugin := PluginType.PROXIMITY, m_pid := 100, m_sessionid := 12345,
                m_running := false },
          [Effect.load_plugin_call "proximitysensor",
           Effect.request_sensor_call "proximitysensor" 100,
           Effect.initiate_connection 12345])
    ∧ (∀ (plugin : PluginType) (pid indeterminate : Int) (outcome : Nat → Option Bool),
        (Sensorfw.create plugin pid indeterminate outcome none).1.map (fun s => s.m_sessionid)
          = if (load_plugin_loop
                ({ m_plugin := plugin, m_pid := pid, m_sessionid := indeterminate,
                   m_running := false } : Sensorfw).plugin_string outcome 5 0).1
            then some indeterminate else none)
    ∧ ({ m_plugin := PluginType.PROXIMITY, m_pid := 100, m_sessionid := 7,
         m_running := false } : Sensorfw).start.2
      = [Effect.read_loop_spawn PluginType.PROXIMITY,
         Effect.service_call "/SensorManager/proximitysensor" "local.ProximitySensor"
           "start" 7] := by
  refine ⟨by decide, by decide, ?_, by decide⟩
  intro plugin pid indeterminate outcome
  simp only [Sensorfw.create, Sensorfw.load_plugin, max_attempts, Sensorfw.request_sensor]
  split <;> simp_all

/-! ## C19 -/

/-- C19, evaluation of the code at the failing input. The socket read reports
failure and the uninitialised local `output` holds the value of LeftUp. The
registered handler is still invoked, with that value: on the daemon where client
:1.7 holds the accelerometer and the stored orientation is undefined, the stored
orientation becomes left-up and a notification is sent to :1.7. Whatever the read
outcome, the handler is invoked exactly once. -/
theorem failed_read_still_invokes_handler :
    data_recived_impl none OrientationData.LeftUp = [OrientationData.LeftUp]
    ∧ accel_only_data.previous_orientation = ORIENTATION_UNDEFINED
    ∧ (orientation_data_received accel_only_data none OrientationData.LeftUp).map
        (fun r => (r.data.previous_orientation, r.published, r.trace))
      = some (ORIENTATION_LEFT_UP, [PROP_ACCELEROMETER_ORIENTATION],
          [Effect.emit_signal ":1.7" "/net/hadess/SensorProxy" "net.hadess.SensorProxy"
            [("AccelerometerOrientation", Variant.string "left-up")]])
    ∧ ∀ (read : Option OrientationData) (indeterminate : OrientationData),
        (data_recived_impl read indeterminate).length = 1 := by
  refine ⟨by decide, by decide, by decide, ?_⟩
  intro read indeterminate
  rfl

/-! ## C20 -/

/-- C20, the claim as stated fails. On the freshly started daemon with all backends
constructed and a bus connection, the accelerometer registry is empty and a read of
HasAccelerometer returns true. On the daemon whose proximity backend failed to
construct, after :1.7 claimed Proximity the registry is not empty and a read of
HasProximity returns false. -/
theorem has_property_reads_availability_counterexample :
    sample_data.connection = true
    ∧ g_hash_table_size (sample_data.clients DRIVER_TYPE_ACCEL) = 0
    ∧ handle_get_property sample_data "HasAccelerometer" = some (Variant.boolean true)
    ∧ g_hash_table_size
        ((handle_generic_method_call sample_data_no_proximity ":1.7" "ClaimProximity"
          DRIVER_TYPE_PROXIMITY 1).1.clients DRIVER_TYPE_PROXIMITY) = 1
    ∧ handle_get_property
        (handle_generic_method_call sample_data_no_proximity ":1.7" "ClaimProximity"
          DRIVER_TYPE_PROXIMITY 1).1 "HasProximity" = some (Variant.boolean false) := by
  refine ⟨by decide, by decide, by decide, by decide, by decide⟩

/-- C20 as amended. For every daemon state with a bus connection, a property read of
HasAccelerometer, HasAmbientLight, HasProximity or HasCompass returns true if and
only if the availability flag of the corresponding class is set (its backend was
constructed at startup); the value does not depend on the claim registries. -/
theorem has_property_reads_availability (data : SensorData)
    (hconn : data.connection = true) :
    handle_get_property data "HasAccelerometer"
        = some (Variant.boolean (driver_type_exists data DRIVER_TYPE_ACCEL))
    ∧ handle_get_property data "HasAmbientLight"
        = some (Variant.boolean (driver_type_exists data DRIVER_TYPE_LIGHT))
    ∧ handle_get_property data "HasProximity"
        = some (Variant.boolean (driver_type_exists data DRIVER_TYPE_PROXIMITY))
    ∧ handle_compass_get_property data "HasCompass"
        = some (Variant.boolean (driver_type_exists data DRIVER_TYPE_COMPASS))
    ∧ ∀ (c : DriverType) (ht : GHashTable) (property_name : String),
        handle_get_property (data.set_clients c ht) property_name
            = handle_get_property data property_name
          ∧ handle_compass_get_property (data.set_clients c ht) property_name
            = handle_compass_get_property data property_name := by
  refine ⟨?_, ?_, ?_, ?_, ?_⟩
  · simp [handle_get_property, hconn]
  · simp [handle_get_property, hconn]
  · simp [handle_get_property, hconn]
  · simp [handle_compass_get_property, hconn]
  · intro c ht property_name
    exact ⟨rfl, rfl⟩

/-- Witness for C20 as amended: the freshly started daemon with all backends
constructed. -/
theorem has_property_reads_availability_witness :
    sample_data.connection = true
    ∧ handle_get_property sample_data "HasAccelerometer"
        = some (Variant.boolean (driver_type_exists sample_data DRIVER_TYPE_ACCEL)) :=
  ⟨by decide, (has_property_reads_availability sample_data (by decide)).1⟩

/-! ## C21 -/

/-- C21. Destroying a backend session, for every reply of the stop call and of the
releaseSensor call: if the session is running, the trace starts with the `stop` call
carrying the session id followed by the join of the read thread, and if it is not
running neither occurs; then comes the releaseSensor call with the plugin name, the
session id and the pid; then the channel is closed; nothing else is done. The
session is not running afterwards. -/
theorem destructor_call_order (s : Sensorfw) (stop_succeeded : Bool)
    (release_reply : Option Bool) :
    (s.destroy stop_succeeded release_reply).2
        = (if s.m_running then
              [Effect.service_call s.plugin_path s.plugin_interface "stop" s.m_sessionid,
               Effect.read_loop_join s.m_plugin]
            else [])
          ++ [Effect.release_sensor_call s.plugin_string s.m_sessionid s.m_pid,
              Effect.drop_connection]
    ∧ (s.destroy stop_succeeded release_reply).1.m_running = false := by
  cases h : s.m_running <;>
    simp [Sensorfw.destroy, Sensorfw.stop_logged, Sensorfw.release_sensor,
      Sensorfw.plugin_string, h]

/-! ## C22 -/

theorem send_dbus_event_none_iff (data : SensorData) (mask : Nat) :
    send_dbus_event data mask = none
      ↔ mask = 0 ∨ ¬ (mask &&& PROP_ALL = 0 ∨ mask &&& PROP_ALL_COMPASS = 0) := by
  unfold send_dbus_event
  by_cases h0 : mask = 0
  · simp [h0]
  · by_cases hg : mask &&& PROP_ALL = 0 ∨ mask &&& PROP_ALL_COMPASS = 0
    · simp only [h0, hg, not_true_eq_false, if_false, or_self, iff_false]
      split <;> simp
    · simp [h0, hg]

theorem send_dbus_event_isSome (data : SensorData) (mask : Nat) (h0 : mask ≠ 0)
    (hg : mask &&& PROP_ALL = 0 ∨ mask &&& PROP_ALL_COMPASS = 0) :
    ∃ r, send_dbus_event data mask = some r := by
  cases h : send_dbus_event data mask with
  | some r => exact ⟨r, rfl⟩
  | none =>
    rcases (send_dbus_event_none_iff data mask).mp h with h1 | h1
    · exact absurd h1 h0
    · exact absurd hg h1

theorem send_if_isSome (cond : Bool) (data : SensorData) (mask : Nat) (h0 : mask ≠ 0)
    (hg : mask &&& PROP_ALL = 0 ∨ mask &&& PROP_ALL_COMPASS = 0) :
    ∃ r, (if cond then send_dbus_event data mask else some (data, [])) = some r := by
  cases cond
  · exact ⟨_, rfl⟩
  · simpa using send_dbus_event_isSome data mask h0 hg

theorem send_sensor_availability_isSome (data : SensorData) :
    ∃ r, send_sensor_availability data = some r := by
  unfold send_sensor_availability
  obtain ⟨r1, h1⟩ := send_if_isSome data.prox_avaliable data PROP_HAS_PROXIMITY
    (by decide) (by decide)
  rw [h1, Option.some_bind]
  obtain ⟨r2, h2⟩ := send_if_isSome r1.1.light_avaliable r1.1 PROP_HAS_AMBIENT_LIGHT
    (by decide) (by decide)
  rw [h2, Option.some_bind]
  obtain ⟨r3, h3⟩ := send_if_isSome r2.1.accel_avaliable r2.1 PROP_HAS_ACCELEROMETER
    (by decide) (by decide)
  rw [h3, Option.some_bind]
  obtain ⟨r4, h4⟩ := send_if_isSome r3.1.compass_avaliable r3.1 PROP_HAS_COMPASS
    (by decide) (by decide)
  rw [h4, Option.some_bind]
  exact ⟨_, rfl⟩

theorem compass_handler_isSome (data : SensorData) (heading : Int) :
    ∃ r, compass_handler data heading = some r := by
  unfold compass_handler
  split
  · obtain ⟨fx, hfx⟩ := publish_keeps_state { data with previous_heading := (heading : ℚ) }
      PROP_COMPASS_HEADING (by decide) (by decide) (by decide)
    exact ⟨_, hfx⟩
  · exact ⟨_, rfl⟩

/-- C22. `send_dbus_event` fails an assertion exactly when its mask is zero or
intersects both PROP_ALL and PROP_ALL_COMPASS. Each of the nine masks the daemon
passes is non-zero and does not intersect both groups. Hence, from every state,
`send_sensor_availability`, `name_acquired_handler` and the four sample handlers
(for every sample) run to completion without a failed assertion. -/
theorem daemon_masks_pass_assertions (data : SensorData) :
    (∀ mask : Nat, send_dbus_event data mask = none
        ↔ mask = 0 ∨ ¬ (mask &&& PROP_ALL = 0 ∨ mask &&& PROP_ALL_COMPASS = 0))
    ∧ (∀ mask ∈ daemon_masks,
        mask ≠ 0 ∧ (mask &&& PROP_ALL = 0 ∨ mask &&& PROP_ALL_COMPASS = 0))
    ∧ (∃ r, send_sensor_availability data = some r)
    ∧ (∃ r, name_acquired_handler data = some r)
    ∧ (∀ state : ProximityState, ∃ r, proximity_handler data state = some r)
    ∧ (∀ light_accumulator light : ℚ,
        ∃ r, light_handler data light_accumulator light = some r)
    ∧ (∀ value : OrientationData, ∃ r, orientation_handler data value = some r)
    ∧ ∀ heading : Int, ∃ r, compass_handler data heading = some r := by
  refine ⟨send_dbus_event_none_iff data, by decide, send_sensor_availability_isSome data,
    ?_, ?_, ?_, ?_, compass_handler_isSome data⟩
  · unfold name_acquired_handler
    obtain ⟨r1, h1⟩ := send_sensor_availability_isSome { data with clients := fun _ => [] }
    rw [h1, Option.some_bind]
    obtain ⟨r2, h2⟩ := send_dbus_event_isSome r1.1 PROP_ALL (by decide) (by decide)
    rw [h2, Option.some_bind]
    exact ⟨_, rfl⟩
  · intro state
    obtain ⟨fx, hfx⟩ := publish_keeps_state
      { data with previous_prox_near := decide (state = ProximityState.near) }
      PROP_PROXIMITY_NEAR (by decide) (by decide) (by decide)
    exact ⟨_, hfx⟩
  · intro light_accumulator light
    by_cases h : data.previous_level = light
    · exact ⟨_, light_handler_same data light_accumulator light h⟩
    · obtain ⟨fx, hfx⟩ := light_handler_changed data light_accumulator light h
      exact ⟨_, hfx⟩
  · intro value
    obtain ⟨r, hr, _⟩ := orientation_handler_step data value
    exact ⟨r, hr⟩

/-- Witness for C22: the mask PROP_ALL of `name_acquired_handler`, on the freshly
started daemon. -/
theorem daemon_masks_pass_assertions_witness :
    PROP_ALL ∈ daemon_masks
    ∧ PROP_ALL ≠ 0 ∧ (PROP_ALL &&& PROP_ALL = 0 ∨ PROP_ALL &&& PROP_ALL_COMPASS = 0) :=
  ⟨by decide, (daemon_masks_pass_assertions sample_data).2.1 PROP_ALL (by decide)⟩

/-! ## Sensor classes are independent -/

theorem enable_values (data : SensorData) (c : DriverType) :
    (enable_sensorfw_events data c).1.stored_values = data.stored_values := by
  cases c <;> simp only [enable_sensorfw_events] <;> split <;> (try split) <;> rfl

theorem disable_values (data : SensorData) (c : DriverType) :
    (disable_sensorfw_events data c).1.stored_values = data.stored_values := by
  cases c <;> simp only [disable_sensorfw_events] <;> split <;> (try split) <;> rfl

theorem release_values (data : SensorData) (sender : String) (c : DriverType) :
    (client_release data sender c).1.stored_values = data.stored_values := by
  by_cases h : g_hash_table_lookup (data.clients c) sender = 0
  · rw [release_absent data sender c h]
  · rw [release_present data sender c h]
    split
    · rw [disable_values]
      rfl
    · rfl

theorem generic_call_values (data : SensorData) (sender method_name : String)
    (c : DriverType) (watch_id : Nat) :
    (handle_generic_method_call data sender method_name c watch_id).1.stored_values
      = data.stored_values := by
  by_cases hclaim : g_str_has_prefix method_name "Claim" = true
  · by_cases h : g_hash_table_lookup (data.clients c) sender = 0
    · rw [claim_new data sender method_name c watch_id hclaim h]
      split
      · exact enable_values data c
      · rfl
    · rw [claim_held data sender method_name c watch_id hclaim h]
  · by_cases hrel : g_str_has_prefix method_name "Release" = true
    · rw [release_call data sender method_name c watch_id (by simpa using hclaim) hrel]
      exact release_values data sender c
    · simp only [handle_generic_method_call, hclaim, hrel]
      rfl

theorem generic_call_clients_other (data : SensorData) (sender method_name : String)
    (c c2 : DriverType) (watch_id : Nat) (hne : c2 ≠ c) :
    (handle_generic_method_call data sender method_name c watch_id).1.clients c2
      = data.clients c2 := by
  by_cases hclaim : g_str_has_prefix method_name "Claim" = true
  · exact claim_clients_other data sender method_name c c2 watch_id hclaim hne
  · by_cases hrel : g_str_has_prefix method_name "Release" = true
    · rw [release_call data sender method_name c watch_id (by simpa using hclaim) hrel]
      exact release_clients_other data sender c c2 hne
    · simp only [handle_generic_method_call, hclaim, hrel]
      rfl

theorem generic_call_sensor_other (data : SensorData) (sender method_name : String)
    (c c2 : DriverType) (watch_id : Nat) (hne : c2 ≠ c) :
    (handle_generic_method_call data sender method_name c watch_id).1.sensor c2
      = data.sensor c2 := by
  by_cases hclaim : g_str_has_prefix method_name "Claim" = true
  · exact claim_sensor_other data sender method_name c c2 watch_id hclaim hne
  · by_cases hrel : g_str_has_prefix method_name "Release" = true
    · rw [release_call data sender method_name c watch_id (by simpa using hclaim) hrel]
      exact release_sensor_other data sender c c2 hne
    · simp only [handle_generic_method_call, hclaim, hrel]
      rfl

theorem enable_sensor_same (data : SensorData) (c : DriverType) :
    (enable_sensorfw_events data c).1.sensor c
      = if driver_type_exists data c = true then (data.sensor c).map (fun s => s.start.1)
        else data.sensor c := by
  by_cases havail : driver_type_exists data c = true
  · cases hs : data.sensor c with
    | none =>
      cases c <;>
        simp_all [driver_type_exists, enable_sensorfw_events, SensorData.sensor]
    | some s =>
      rw [(enable_available data c s havail hs).1]
      simp [havail]
  · rw [enable_unavailable data c (by simpa using havail)]
    simp [havail]

theorem disable_sensor_same (data : SensorData) (c : DriverType) :
    (disable_sensorfw_events data c).1.sensor c
      = if driver_type_exists data c = true then (data.sensor c).map (fun s => s.stop.1)
        else data.sensor c := by
  by_cases havail : driver_type_exists data c = true
  · cases hs : data.sensor c with
    | none =>
      cases c <;>
        simp_all [driver_type_exists, disable_sensorfw_events, SensorData.sensor]
    | some s =>
      rw [(disable_available data c s havail hs).1]
      simp [havail]
  · rw [disable_unavailable data c (by simpa using havail)]
    simp [havail]

theorem generic_call_clients_same (data : SensorData) (sender method_name : String)
    (c : DriverType) (watch_id : Nat) :
    (handle_generic_method_call data sender method_name c watch_id).1.clients c
      = registry_after (data.clients c) sender method_name watch_id := by
  unfold registry_after
  by_cases hclaim : g_str_has_prefix method_name "Claim" = true
  · rw [claim_clients_same data sender method_name c watch_id hclaim]
    simp [hclaim]
  · by_cases hrel : g_str_has_prefix method_name "Release" = true
    · rw [release_call data sender method_name c watch_id (by simpa using hclaim) hrel,
        release_clients_same]
      simp [hclaim, hrel]
    · simp only [handle_generic_method_call, hclaim, hrel]
      rfl

theorem generic_call_sensor_same (data : SensorData) (sender method_name : String)
    (c : DriverType) (watch_id : Nat) :
    (handle_generic_method_call data sender method_name c watch_id).1.sensor c
      = sensor_after (data.clients c) (data.sensor c) (driver_type_exists data c)
          sender method_name := by
  unfold sensor_after
  by_cases hclaim : g_str_has_prefix method_name "Claim" = true
  · by_cases h : g_hash_table_lookup (data.clients c) sender = 0
    · rw [claim_new data sender method_name c watch_id hclaim h, set_clients_sensor]
      by_cases hsz : g_hash_table_size (data.clients c) = 0
      · simp only [hsz, if_true, enable_sensor_same, hclaim, h, true_and]
      · simp [hsz, hclaim]
    · rw [claim_held data sender method_name c watch_id hclaim h]
      simp [hclaim, h]
  · by_cases hrel : g_str_has_prefix method_name "Release" = true
    · rw [release_call data sender method_name c watch_id (by simpa using hclaim) hrel]
      by_cases h : g_hash_table_lookup (data.clients c) sender = 0
      · rw [release_absent data sender c h]
        simp [hclaim, hrel, h]
      · rw [release_present data sender c h]
        by_cases hsz : g_hash_table_size (g_hash_table_remove (data.clients c) sender) = 0
        · simp only [hsz, if_true, disable_sensor_same, set_clients_exists,
            set_clients_sensor, hclaim, hrel, h, ne_eq, not_false_eq_true, true_and]
          simp
        · simp [hsz, hclaim, hrel, set_clients_sensor]
    · simp only [handle_generic_method_call, hclaim, hrel]
      simp

theorem enable_calls_class (data : SensorData) (c0 : DriverType) (e : Effect)
    (he : e ∈ (enable_sensorfw_events data c0).2) (hb : e.is_backend_call = true) :
    e = Effect.enable_events c0 := by
  by_cases havail : driver_type_exists data c0 = true
  · cases hs : data.sensor c0 with
    | none =>
      cases c0 <;>
        simp_all [driver_type_exists, enable_sensorfw_events, SensorData.sensor,
          Effect.is_backend_call]
    | some s =>
      rw [(enable_available data c0 s havail hs).2] at he
      rcases List.mem_cons.mp he with rfl | hmem
      · rfl
      · rw [start_no_backend_call s e hmem] at hb
        cases hb
  · rw [enable_unavailable data c0 (by simpa using havail)] at he
    cases he

theorem disable_calls_class (data : SensorData) (c0 : DriverType) (e : Effect)
    (he : e ∈ (disable_sensorfw_events data c0).2) (hb : e.is_backend_call = true) :
    e = Effect.disable_events c0 := by
  by_cases havail : driver_type_exists data c0 = true
  · cases hs : data.sensor c0 with
    | none =>
      cases c0 <;>
        simp_all [driver_type_exists, disable_sensorfw_events, SensorData.sensor,
          Effect.is_backend_call]
    | some s =>
      rw [(disable_available data c0 s havail hs).2] at he
      rcases List.mem_cons.mp he with rfl | hmem
      · rfl
      · rw [stop_no_backend_call s e hmem] at hb
        cases hb
  · rw [disable_unavailable data c0 (by simpa using havail)] at he
    cases he

theorem release_calls_class (data : SensorData) (sender : String) (c0 : DriverType)
    (e : Effect) (he : e ∈ (client_release data sender c0).2)
    (hb : e.is_backend_call = true) : e = Effect.disable_events c0 := by
  by_cases hl : g_hash_table_lookup (data.clients c0) sender = 0
  · rw [release_absent data sender c0 hl] at he
    cases he
  · rw [release_present data sender c0 hl] at he
    split at he
    · rcases List.mem_append.mp he with hmem | hmem
      · rw [destroyed_no_backend_call _ _ e hmem] at hb
        cases hb
      · exact disable_calls_class _ c0 e hmem hb
    · rw [destroyed_no_backend_call _ _ e he] at hb
      cases hb

theorem generic_call_calls_class (data : SensorData) (sender method_name : String)
    (c0 : DriverType) (watch_id : Nat) (e : Effect)
    (he : e ∈ (handle_generic_method_call data sender method_name c0 watch_id).2)
    (hb : e.is_backend_call = true) :
    e = Effect.enable_events c0 ∨ e = Effect.disable_events c0 := by
  by_cases hclaim : g_str_has_prefix method_name "Claim" = true
  · by_cases hl : g_hash_table_lookup (data.clients c0) sender = 0
    · rw [claim_new data sender method_name c0 watch_id hclaim hl] at he
      simp only [List.mem_append, List.mem_singleton] at he
      rcases he with ((hmem | rfl) | hmem) | rfl
      · split at hmem
        · exact Or.inl (enable_calls_class data c0 e hmem hb)
        · cases hmem
      · cases hb
      · rw [destroyed_no_backend_call _ _ e hmem] at hb
        cases hb
      · cases hb
    · rw [claim_held data sender method_name c0 watch_id hclaim hl] at he
      rcases List.mem_singleton.mp he with rfl
      cases hb
  · by_cases hrel : g_str_has_prefix method_name "Release" = true
    · rw [release_call data sender method_name c0 watch_id (by simpa using hclaim) hrel] at he
      rcases List.mem_append.mp he with hmem | hmem
      · exact Or.inr (release_calls_class data sender c0 e hmem hb)
      · rcases List.mem_singleton.mp hmem with rfl
        cases hb
    · simp only [handle_generic_method_call, hclaim, hrel] at he
      cases he

theorem sensor_data_ext (a b : SensorData) (hc : ∀ c, a.clients c = b.clients c)
    (hs : ∀ c, a.sensor c = b.sensor c)
    (he : ∀ c, driver_type_exists a c = driver_type_exists b c)
    (hv : a.stored_values = b.stored_values) : a = b := by
  have h1 := hs DRIVER_TYPE_ACCEL
  have h2 := hs DRIVER_TYPE_LIGHT
  have h3 := hs DRIVER_TYPE_COMPASS
  have h4 := hs DRIVER_TYPE_PROXIMITY
  have e1 := he DRIVER_TYPE_ACCEL
  have e2 := he DRIVER_TYPE_LIGHT
  have e3 := he DRIVER_TYPE_COMPASS
  have e4 := he DRIVER_TYPE_PROXIMITY
  have hcl : a.clients = b.clients := funext hc
  cases a
  cases b
  simp only [SensorData.sensor, driver_type_exists, SensorData.stored_values,
    Prod.mk.injEq] at h1 h2 h3 h4 e1 e2 e3 e4 hv hcl
  obtain ⟨v1, v2, v3, v4, v5, v6, v7⟩ := hv
  subst h1 h2 h3 h4 e1 e2 e3 e4 v1 v2 v3 v4 v5 v6 v7 hcl
  rfl

theorem generic_calls_commute (data : SensorData) (sender1 method1 sender2 method2 : String)
    (c1 c2 : DriverType) (w1 w2 : Nat) (hne : c2 ≠ c1) :
    (handle_generic_method_call
        (handle_generic_method_call data sender1 method1 c1 w1).1 sender2 method2 c2 w2).1
      = (handle_generic_method_call
        (handle_generic_method_call data sender2 method2 c2 w2).1 sender1 method1 c1 w1).1 := by
  apply sensor_data_ext
  · intro c
    by_cases h1 : c = c1
    · subst h1
      rw [generic_call_clients_other _ _ _ c2 c _ (Ne.symm hne), generic_call_clients_same,
        generic_call_clients_same, generic_call_clients_other _ _ _ c2 c _ (Ne.symm hne)]
    · by_cases h2 : c = c2
      · subst h2
        rw [generic_call_clients_same, generic_call_clients_other _ _ _ c1 c _ hne,
          generic_call_clients_other _ _ _ c1 c _ hne, generic_call_clients_same]
      · rw [generic_call_clients_other _ _ _ c2 c _ h2,
          generic_call_clients_other _ _ _ c1 c _ h1,
          generic_call_clients_other _ _ _ c1 c _ h1,
          generic_call_clients_other _ _ _ c2 c _ h2]
  · intro c
    by_cases h1 : c = c1
    · subst h1
      rw [generic_call_sensor_other _ _ _ c2 c _ (Ne.symm hne), generic_call_sensor_same,
        generic_call_sensor_same, generic_call_sensor_other _ _ _ c2 c _ (Ne.symm hne),
        generic_call_clients_other _ _ _ c2 c _ (Ne.symm hne), generic_call_exists]
    · by_cases h2 : c = c2
      · subst h2
        rw [generic_call_sensor_same, generic_call_sensor_other _ _ _ c1 c _ hne,
          generic_call_clients_other _ _ _ c1 c _ hne, generic_call_exists,
          generic_call_sensor_other _ _ _ c1 c _ hne, generic_call_sensor_same]
      · rw [generic_call_sensor_other _ _ _ c2 c _ h2,
          generic_call_sensor_other _ _ _ c1 c _ h1,
          generic_call_sensor_other _ _ _ c1 c _ h1,
          generic_call_sensor_other _ _ _ c2 c _ h2]
  · intro c
    rw [generic_call_exists, generic_call_exists, generic_call_exists, generic_call_exists]
  · rw [generic_call_values, generic_call_values, generic_call_values, generic_call_values]

/-! ## C23 -/

/-- C23. For every daemon state, a call of `handle_generic_method_call` on class `c`
(a Claim, a Release, by any client) and a `client_release` on class `c` leave, for
each of the three other classes, the registry, the backend object and its running
flag unchanged; they leave all four availability flags and all stored sensor
values unchanged; and every backend call in their trace is an enable or a disable
of class `c`. Hence two such calls on different classes commute: both orders give
the same state. -/
theorem classes_independent (data : SensorData) (sender method_name : String)
    (c : DriverType) (watch_id : Nat) :
    (∀ c2, c2 ≠ c →
        (handle_generic_method_call data sender method_name c watch_id).1.clients c2
            = data.clients c2
          ∧ (handle_generic_method_call data sender method_name c watch_id).1.sensor c2
            = data.sensor c2
          ∧ (handle_generic_method_call data sender method_name c watch_id).1.running c2
            = data.running c2)
    ∧ (∀ c2, driver_type_exists
          (handle_generic_method_call data sender method_name c watch_id).1 c2
        = driver_type_exists data c2)
    ∧ (handle_generic_method_call data sender method_name c watch_id).1.stored_values
        = data.stored_values
    ∧ (∀ e ∈ (handle_generic_method_call data sender method_name c watch_id).2,
        e.is_backend_call = true →
        e = Effect.enable_events c ∨ e = Effect.disable_events c)
    ∧ (∀ c2, c2 ≠ c →
        (client_release data sender c).1.clients c2 = data.clients c2
          ∧ (client_release data sender c).1.sensor c2 = data.sensor c2
          ∧ (client_release data sender c).1.running c2 = data.running c2)
    ∧ (∀ c2, driver_type_exists (client_release data sender c).1 c2
        = driver_type_exists data c2)
    ∧ (client_release data sender c).1.stored_values = data.stored_values
    ∧ (∀ e ∈ (client_release data sender c).2, e.is_backend_call = true →
        e = Effect.disable_events c)
    ∧ ∀ (c2 : DriverType) (sender2 method2 : String) (w2 : Nat), c2 ≠ c →
        (handle_generic_method_call
            (handle_generic_method_call data sender method_name c watch_id).1
            sender2 method2 c2 w2).1
          = (handle_generic_method_call
            (handle_generic_method_call data sender2 method2 c2 w2).1
            sender method_name c watch_id).1 := by
  refine ⟨?_, fun c2 => generic_call_exists data sender method_name c c2 watch_id,
    generic_call_values data sender method_name c watch_id,
    generic_call_calls_class data sender method_name c watch_id, ?_,
    release_exists data sender c, release_values data sender c,
    release_calls_class data sender c, ?_⟩
  · intro c2 hne
    have hs := generic_call_sensor_other data sender method_name c c2 watch_id hne
    exact ⟨generic_call_clients_other data sender method_name c c2 watch_id hne, hs,
      by simp only [SensorData.running, hs]⟩
  · intro c2 hne
    have hs := release_sensor_other data sender c c2 hne
    exact ⟨release_clients_other data sender c c2 hne, hs,
      by simp only [SensorData.running, hs]⟩
  · intro c2 sender2 method2 w2 hne
    exact generic_calls_commute data sender method_name sender2 method2 c c2 watch_id w2 hne

/-- Witness for C23: client :1.7 claims Proximity and client :1.8 claims the light
class on the freshly started daemon, in either order. -/
theorem classes_independent_witness :
    DRIVER_TYPE_LIGHT ≠ DRIVER_TYPE_PROXIMITY
    ∧ (handle_generic_method_call
          (handle_generic_method_call sample_data ":1.7" "ClaimProximity"
            DRIVER_TYPE_PROXIMITY 1).1
          ":1.8" "ClaimLight" DRIVER_TYPE_LIGHT 2).1
        = (handle_generic_method_call
          (handle_generic_method_call sample_data ":1.8" "ClaimLight" DRIVER_TYPE_LIGHT 2).1
          ":1.7" "ClaimProximity" DRIVER_TYPE_PROXIMITY 1).1 :=
  ⟨by decide,
    (classes_independent sample_data ":1.7" "ClaimProximity" DRIVER_TYPE_PROXIMITY 1).2.2.2.2.2.2.2.2
      DRIVER_TYPE_LIGHT ":1.8" "ClaimLight" 2 (by decide)⟩

end SensorProxy
